import Mathlib

/-!
# Assets provider: plan reconciliation and deletion policy

A shallow embedding of the plan modifiers of `internal/provider/planmodifiers.go`,
of `objectResource.Create`, `Read`, `Update`, `Delete` and `createObjectPayload` of
`internal/provider/object_resource.go`, of `FillInformationsForObject` and
`FillInformationsForDataObject` of `internal/provider/common.go`, of
`createObjectTypeAttributePayload` of `internal/provider/objecttypeattribute_resource.go`
and of `AssetsProvider.Configure` of `internal/provider/provider.go`, followed by the
properties established about them.

Conventions of the embedding:

* a framework value (`types.String`, `types.Bool`, `types.Object`, `types.Set`)
  is an inductive with the three states null / unknown / known;
* `diag.Diagnostics` is a list; `Append` skips diagnostics already contained,
  as the framework does;
* a Go function that mutates `resp` through a pointer takes the response and
  returns the new one;
* a run-time panic (index out of range) is the result `none`;
* the remote client is a record of result functions, and every operation
  returns the list of client calls it issued, in order;
* what the plugin framework and the standard library decide (the validation of a
  set, the environment, the creation of the client, the method `Set` of the
  state) is a parameter of the function that depends on it.
-/

namespace Assets

/-! ## Diagnostics (`diag` package of the plugin framework) -/

/-- Severity of a diagnostic. -/
inductive Severity where
  | Error
  | Warning
deriving DecidableEq, Repr

/-- One diagnostic: severity, summary and detail, and the attribute path of a diagnostic
created with a path (`none` for a diagnostic without path). -/
structure Diagnostic where
  Severity : Severity
  Summary : String
  Detail : String
  Path : Option String := none
deriving DecidableEq, Repr

/-- The collection `diag.Diagnostics`. -/
abbrev Diagnostics := List Diagnostic

/-- The constructor `diag.NewErrorDiagnostic`. -/
def NewErrorDiagnostic (summary detail : String) : Diagnostic :=
  { Severity := Severity.Error, Summary := summary, Detail := detail }

/-- The constructor `diag.NewAttributeErrorDiagnostic`; the path `path.Root(name)` is
represented by `name`. -/
def NewAttributeErrorDiagnostic (path summary detail : String) : Diagnostic :=
  { Severity := Severity.Error, Summary := summary, Detail := detail, Path := some path }

/-- The method `Diagnostics.Contains`. -/
def Diagnostics.Contains (diags : Diagnostics) (d : Diagnostic) : Bool :=
  decide (d ∈ diags)

/-- The method `Diagnostics.Append`: adds the diagnostics that are not yet contained. -/
def Diagnostics.Append (diags : Diagnostics) (new : Diagnostics) : Diagnostics :=
  new.foldl (fun acc d => if Diagnostics.Contains acc d then acc else acc ++ [d]) diags

/-- The method `Diagnostics.AddError`. -/
def Diagnostics.AddError (diags : Diagnostics) (summary detail : String) : Diagnostics :=
  Diagnostics.Append diags [NewErrorDiagnostic summary detail]

/-- The method `Diagnostics.AddAttributeError`. -/
def Diagnostics.AddAttributeError (diags : Diagnostics) (path summary detail : String) :
    Diagnostics :=
  Diagnostics.Append diags [NewAttributeErrorDiagnostic path summary detail]

/-- The method `Diagnostics.HasError`. -/
def Diagnostics.HasError (diags : Diagnostics) : Bool :=
  diags.any (fun d => decide (d.Severity = Severity.Error))

/-! ## Framework values (`types` package) -/

/-- The value type `types.String`: `StringNull()`, `StringUnknown()`, `StringValue(s)`. -/
inductive TfString where
  | null
  | unknown
  | value (s : String)
deriving DecidableEq, Repr

/-- The method `IsNull` of `types.String`. -/
def TfString.IsNull : TfString → Bool
  | .null => true
  | _ => false

/-- The method `IsUnknown` of `types.String`. -/
def TfString.IsUnknown : TfString → Bool
  | .unknown => true
  | _ => false

/-- The method `ValueString`: the known string, and the empty string for null or unknown. -/
def TfString.ValueString : TfString → String
  | .value s => s
  | _ => ""

/-- The value type `types.Bool`. -/
inductive TfBool where
  | null
  | unknown
  | value (b : Bool)
deriving DecidableEq, Repr

/-- The method `ValueBool`: the known boolean, and `false` for null or unknown. -/
def TfBool.ValueBool : TfBool → Bool
  | .value b => b
  | _ => false

/-- The value type `types.Int64`. -/
inductive TfInt64 where
  | null
  | unknown
  | value (i : Int)
deriving DecidableEq, Repr

/-- The value type `types.Object`, decoded: null, unknown, or a known object of model `α`. -/
inductive TfObject (α : Type) where
  | null
  | unknown
  | value (a : α)
deriving DecidableEq, Repr

/-- The method `IsNull` of `types.Object`. -/
def TfObject.IsNull {α : Type} : TfObject α → Bool
  | .null => true
  | _ => false

/-- The method `IsUnknown` of `types.Object`. -/
def TfObject.IsUnknown {α : Type} : TfObject α → Bool
  | .unknown => true
  | _ => false

/-- The value type `types.Set`, decoded: null, unknown, or known elements in iteration order. -/
inductive TfSet (α : Type) where
  | null
  | unknown
  | value (elems : List α)
deriving DecidableEq, Repr

/-- The method `IsNull` of `types.Set`. -/
def TfSet.IsNull {α : Type} : TfSet α → Bool
  | .null => true
  | _ => false

/-- The method `ElementsAs` (its diagnostics are discarded by every caller in the source):
the elements of a known set; nothing is written to the target for a null or unknown set. -/
def TfSet.ElementsAs {α : Type} : TfSet α → List α
  | .value elems => elems
  | _ => []

/-! ## Resource models (`object_resource.go`, lines 44-114) -/

/-- The model `groupModel`. -/
structure groupModel where
  AvatarUrl : TfString
  Name : TfString
deriving DecidableEq, Repr

/-- The model `statusModel`. -/
structure statusModel where
  Id : TfString
  Name : TfString
  Category : TfInt64
deriving DecidableEq, Repr

/-- The model `objectModel` (the links object). -/
structure objectModel where
  Self : TfString
deriving DecidableEq, Repr

/-- The model `objectAttributeValueModel`. -/
structure objectAttributeValueModel where
  Value : TfString
  DisplayValue : TfString
  SearchValue : TfString
  Group : TfObject groupModel
  Status : TfObject statusModel
  AdditionalValue : TfString
deriving DecidableEq, Repr

/-- The model `objectAttributeModel`: one structured attribute of the state. -/
structure objectAttributeModel where
  WorkspaceId : TfString
  GlobalId : TfString
  Id : TfString
  ObjectTypeAttributeId : TfString
  ObjectAttributeValues : TfSet objectAttributeValueModel
  ObjectTypeAttributeLabel : TfBool
deriving DecidableEq, Repr

/-- The model `objectAttributeValueInModel`: one declared value. -/
structure objectAttributeValueInModel where
  Value : TfString
deriving DecidableEq, Repr

/-- The model `objectAttributeInModel`: one declared attribute of `attributes_in`. -/
structure objectAttributeInModel where
  ObjectTypeAttributeId : TfString
  ObjectAttributeValuesIn : List objectAttributeValueInModel
deriving DecidableEq, Repr

/-- The model `avatarModel`. -/
structure avatarModel where
  WorkspaceId : TfString
  GlobalId : TfString
  Id : TfString
  AvatarUuid : TfString
  Url16 : TfString
  Url48 : TfString
  Url72 : TfString
  Url144 : TfString
  Url288 : TfString
  ObjectId : TfString
deriving DecidableEq, Repr

/-- The model `objectResourceModel`. -/
structure objectResourceModel where
  WorkspaceId : TfString
  GlobalId : TfString
  Id : TfString
  Label : TfString
  ObjectKey : TfString
  ObjectTypeId : TfString
  Created : TfString
  Updated : TfString
  HasAvatar : TfBool
  Attributes : TfSet objectAttributeModel
  Links : TfObject objectModel
  AttributesIn : List objectAttributeInModel
  Avatar : TfObject avatarModel
deriving DecidableEq, Repr

/-! ## Requests and responses of the framework -/

/-- A `tfsdk.Plan` or `tfsdk.State` as the source uses it: `Get` decodes it into the resource
model and returns the diagnostics of the decoding. -/
structure tfsdkData where
  Raw : objectResourceModel
  diags : Diagnostics
deriving DecidableEq, Repr

/-- The method `Get`: the diagnostics of the decoding and the decoded model. -/
def tfsdkData.Get (d : tfsdkData) : Diagnostics × objectResourceModel :=
  (d.diags, d.Raw)

/-- The request `planmodifier.StringRequest`, with the fields the modifiers read. -/
structure StringRequest where
  Plan : tfsdkData
  State : tfsdkData
  StateValue : TfString
  PlanValue : TfString
deriving DecidableEq, Repr

/-- The response `planmodifier.StringResponse`. -/
structure StringResponse where
  PlanValue : TfString
  Diagnostics : Diagnostics
deriving DecidableEq, Repr

/-! ## Plan modifiers (`planmodifiers.go`) -/

/-- The method `syncAvatarPlanModifier.PlanModifyString` (lines 27-74). -/
def syncAvatarPlanModifier.PlanModifyString (req : StringRequest) (resp : StringResponse) :
    StringResponse :=
  let (diags, plan) := req.Plan.Get
  let resp := { resp with Diagnostics := Diagnostics.Append resp.Diagnostics diags }
  if Diagnostics.HasError resp.Diagnostics then resp
  else if !req.StateValue.IsNull then
    let (diags, state) := req.State.Get
    let resp := { resp with Diagnostics := Diagnostics.Append resp.Diagnostics diags }
    if Diagnostics.HasError resp.Diagnostics then resp
    else
      -- `As` on a known object of the declared attribute types yields no diagnostic
      let avatar_uuid_from_state : String :=
        match state.Avatar with
        | .value avatarState => avatarState.AvatarUuid.ValueString
        | _ => ""
      let avatar_uuid_from_plan : String :=
        match plan.Avatar with
        | .value avatarPlan => avatarPlan.AvatarUuid.ValueString
        | _ => ""
      if avatar_uuid_from_plan ≠ avatar_uuid_from_state then
        { resp with PlanValue := TfString.unknown }
      else
        { resp with PlanValue := req.StateValue }
  else
    { resp with PlanValue := TfString.unknown }

/-- The scan of lines 115-120 of `syncLabelPlanModifier.PlanModifyString`: starting from
the sentinel `"0"`, every element carrying the label flag overwrites the id. -/
def labelAttributeId (elements : List objectAttributeModel) : String :=
  elements.foldl
    (fun id element =>
      if element.ObjectTypeAttributeLabel.ValueBool then
        element.ObjectTypeAttributeId.ValueString
      else id)
    "0"

/-- The loop of lines 130-147 of `syncLabelPlanModifier.PlanModifyString` over
`plan.AttributesIn`, with the error added when the loop ends without a match. Indexing an
empty value list at `[0]` panics: the result is `none`. -/
def labelFromAttributesIn (id : String) :
    List objectAttributeInModel → StringResponse → Option StringResponse
  | [], resp =>
    some { resp with Diagnostics := (Diagnostics.AddError resp.Diagnostics
      "Error in object attribute for the label."
      "Object attribute for the label not found.") }
  | att :: rest, resp =>
    if att.ObjectTypeAttributeId.ValueString = id then
      if att.ObjectAttributeValuesIn.length > 1 then
        some { resp with Diagnostics := (Diagnostics.AddError resp.Diagnostics
          "Error in object attribute for the label."
          "Only one value expected for the label attribute.") }
      else
        match att.ObjectAttributeValuesIn with
        | v :: _ => some { resp with PlanValue := v.Value }
        | [] => none
    else labelFromAttributesIn id rest resp

/-- The method `syncLabelPlanModifier.PlanModifyString` (lines 92-151). The result is
`none` when the source panics. -/
def syncLabelPlanModifier.PlanModifyString (req : StringRequest) (resp : StringResponse) :
    Option StringResponse :=
  let (diags, plan) := req.Plan.Get
  let resp := { resp with Diagnostics := Diagnostics.Append resp.Diagnostics diags }
  if Diagnostics.HasError resp.Diagnostics then some resp
  else if !req.StateValue.IsNull then
    let (diags, state) := req.State.Get
    let resp := { resp with Diagnostics := Diagnostics.Append resp.Diagnostics diags }
    if Diagnostics.HasError resp.Diagnostics then some resp
    else if state.Attributes.IsNull then some resp
    else
      let elements := state.Attributes.ElementsAs
      let id := labelAttributeId elements
      if id = "0" then
        some { resp with Diagnostics := (Diagnostics.AddError resp.Diagnostics
          "Error in object attribute for the label."
          "Object attribute for the label not found in the object schema.") }
      else labelFromAttributesIn id plan.AttributesIn resp
  else
    some { resp with PlanValue := TfString.unknown }

/-! ## Remote client (`go-atlassian`), as the source uses it -/

/-- The library type `models.ObjectPayloadAttributeValueScheme`: the field the source sets. -/
structure ObjectPayloadAttributeValueScheme where
  Value : String
deriving DecidableEq, Repr

/-- The library type `models.ObjectPayloadAttributeScheme`: the fields the source sets. -/
structure ObjectPayloadAttributeScheme where
  ObjectTypeAttributeID : String
  ObjectAttributeValues : List ObjectPayloadAttributeValueScheme
deriving DecidableEq, Repr

/-- The library type `models.ObjectPayloadScheme`: the fields the source sets; a field left
out of a Go composite literal has its zero value. -/
structure ObjectPayloadScheme where
  ObjectTypeID : String := ""
  AvatarUUID : String := ""
  HasAvatar : Bool := false
  Attributes : List ObjectPayloadAttributeScheme := []
deriving DecidableEq, Repr

/-- One call on the remote client's `Object` service, with its arguments. -/
inductive ClientCall where
  | ObjectCreate (workspace_id : String) (payload : ObjectPayloadScheme)
  | ObjectGet (workspace_id : String) (id : String)
  | ObjectUpdate (workspace_id : String) (id : String) (payload : ObjectPayloadScheme)
  | ObjectDelete (workspace_id : String) (id : String)
deriving DecidableEq, Repr

/-- The error results of the remote client that `objectResource.Delete` reads: for each
call, `none` when `err == nil` and `some text` when `err.Error()` is `text`. The objects
the calls return are discarded by `Delete`. -/
structure assetsClient where
  ObjectUpdateErr : String → String → ObjectPayloadScheme → Option String
  ObjectDeleteErr : String → String → Option String

/-- The struct `features` (`provider.go`, lines 46-49). -/
structure features where
  DestroyObject : Bool
  ObsoleteObjectTypeAttributeId : String
deriving DecidableEq, Repr

/-- The struct `objectResource` (`object_resource.go`, lines 38-42), configured. -/
structure objectResource where
  client : assetsClient
  workspace_id : String
  features : features

/-- The request `resource.DeleteRequest`. -/
structure DeleteRequest where
  State : tfsdkData
deriving DecidableEq, Repr

/-- The response `resource.DeleteResponse`, with the field `Delete` writes. -/
structure DeleteResponse where
  Diagnostics : Diagnostics
deriving DecidableEq, Repr

/-- The method `objectResource.Delete` (`object_resource.go`, lines 539-582): the new
response and the client calls issued, in order. -/
def objectResource.Delete (r : objectResource) (req : DeleteRequest) (resp : DeleteResponse) :
    DeleteResponse × List ClientCall :=
  let (diags, state) := req.State.Get
  let resp := { resp with Diagnostics := Diagnostics.Append resp.Diagnostics diags }
  if Diagnostics.HasError resp.Diagnostics then (resp, [])
  else if !r.features.DestroyObject then
    let payload : ObjectPayloadScheme :=
      { Attributes :=
          [ { ObjectTypeAttributeID := r.features.ObsoleteObjectTypeAttributeId,
              ObjectAttributeValues := [ { Value := "Obsolete" } ] } ],
        ObjectTypeID := state.ObjectTypeId.ValueString }
    let call := ClientCall.ObjectUpdate r.workspace_id state.Id.ValueString payload
    match r.client.ObjectUpdateErr r.workspace_id state.Id.ValueString payload with
    | some err =>
      ({ resp with Diagnostics := (Diagnostics.AddError resp.Diagnostics
          "Error Updating object"
          ("Could not update object, unexpected error: " ++ err)) }, [call])
    | none => (resp, [call])
  else
    let call := ClientCall.ObjectDelete r.workspace_id state.Id.ValueString
    match r.client.ObjectDeleteErr r.workspace_id state.Id.ValueString with
    | some err =>
      ({ resp with Diagnostics := (Diagnostics.AddError resp.Diagnostics
          "Error Deleting object"
          ("Could not delete object, unexpected error: " ++ err)) }, [call])
    | none => (resp, [call])

/-! ## Attribute codec: encoding (`object_resource.go`) -/

/-- The function `createObjectPayload` (`object_resource.go`, lines 378-412): the
diagnostics it returns and the payload after the call. Both loops append to a slice that
starts empty. -/
def createObjectPayload (object : objectResourceModel) (payload : ObjectPayloadScheme) :
    Diagnostics × ObjectPayloadScheme :=
  let diags : Diagnostics := []
  let payloadAttributes : List ObjectPayloadAttributeScheme :=
    object.AttributesIn.foldl
      (fun payloadAttributes attr =>
        let values : List ObjectPayloadAttributeValueScheme :=
          attr.ObjectAttributeValuesIn.foldl
            (fun values value => values ++ [{ Value := value.Value.ValueString }]) []
        payloadAttributes ++
          [{ ObjectTypeAttributeID := attr.ObjectTypeAttributeId.ValueString,
             ObjectAttributeValues := values }])
      []
  let payload := { payload with
    ObjectTypeID := object.ObjectTypeId.ValueString,
    Attributes := payloadAttributes,
    HasAvatar := object.HasAvatar.ValueBool }
  -- `As` on a known object of the declared attribute types yields no diagnostic
  match object.Avatar with
  | .value avatar => (diags, { payload with AvatarUUID := avatar.AvatarUuid.ValueString })
  | _ => (diags, payload)

/-! ## Attribute codec: decoding (`common.go`) -/

/-- The library struct behind `value.Group` of a returned attribute value: the fields
`FillInformationsForObject` reads. -/
structure ObjectValueGroupScheme where
  AvatarUrl : String
  Name : String
deriving DecidableEq, Repr

/-- The library struct behind `value.Status` of a returned attribute value: the fields
`FillInformationsForObject` reads. `Category` is a Go `int`. -/
structure ObjectValueStatusScheme where
  ID : String
  Name : String
  Category : Int
deriving DecidableEq, Repr

/-- One returned attribute value of the remote object: the fields the source reads.
`Group` and `Status` are pointers the source tests against `nil`. -/
structure ObjectAttributeValueScheme where
  Value : String
  DisplayValue : String
  SearchValue : String
  Group : Option ObjectValueGroupScheme
  Status : Option ObjectValueStatusScheme
  AdditionalValue : String
deriving DecidableEq, Repr

/-- The object-type attribute a returned attribute refers to: the field the source reads. -/
structure ObjectTypeAttributeScheme where
  Label : Bool
deriving DecidableEq, Repr

/-- The library type `models.ObjectAttributeScheme`, one returned attribute: the fields the
source reads. A field the source dereferences without a `nil` test is taken as present. -/
structure ObjectAttributeScheme where
  WorkspaceId : String
  GlobalId : String
  ID : String
  ObjectTypeAttribute : ObjectTypeAttributeScheme
  ObjectTypeAttributeId : String
  ObjectAttributeValues : List ObjectAttributeValueScheme
deriving DecidableEq, Repr

/-- The avatar of a returned object: the fields the source reads, and `ID`, the `id` that
section 6 of the specification lists among the wire fields of the avatar and that the
source reads nowhere. -/
structure ObjectAvatarScheme where
  WorkspaceId : String
  GlobalId : String
  ID : String
  AvatarUUID : String
  Url16 : String
  Url48 : String
  Url72 : String
  Url144 : String
  Url288 : String
  ObjectId : String
deriving DecidableEq, Repr

/-- The object type of a returned object: the field the source reads. -/
structure ObjectTypeScheme where
  Id : String
deriving DecidableEq, Repr

/-- The links of a returned object: the field the source reads. -/
structure ObjectLinksScheme where
  Self : String
deriving DecidableEq, Repr

/-- The library type `models.ObjectScheme`, the remote object: the fields the source reads.
`Avatar` is a pointer the source tests against `nil`; a field the source dereferences
without a `nil` test is taken as present. -/
structure ObjectScheme where
  WorkspaceId : String
  GlobalId : String
  ID : String
  Label : String
  ObjectKey : String
  ObjectType : ObjectTypeScheme
  Created : String
  Updated : String
  HasAvatar : Bool
  Avatar : Option ObjectAvatarScheme
  Links : ObjectLinksScheme
  Attributes : List ObjectAttributeScheme
deriving DecidableEq, Repr

/-- The validation the plugin framework runs on the elements when `types.SetValueFrom`
builds a set. The framework is not part of the repository: the diagnostics it reports are
taken as a parameter, one function for each of the two element types the source uses. -/
structure setValidation where
  attributeValues : List objectAttributeValueModel → Diagnostics
  attributes : List objectAttributeModel → Diagnostics

/-- The library function `types.SetValueFrom` on a slice of values of the element type: the
diagnostics of the validation; on an error the unknown set, otherwise the null set for a nil
slice and the known set of the elements, in order, for a non-empty one. -/
def SetValueFrom {α : Type} (validate : List α → Diagnostics) (elements : List α) :
    TfSet α × Diagnostics :=
  let diags := validate elements
  if Diagnostics.HasError diags then (TfSet.unknown, diags)
  else
    match elements with
    | [] => (TfSet.null, diags)
    | _ => (TfSet.value elements, diags)

/-- The body of the loop over `att.ObjectAttributeValues` in `FillInformationsForObject`
(lines 174-211): the structured value appended for one returned value. `ObjectValueFrom` on a
struct of the declared attribute types yields a known object and no diagnostic;
`int64(...)` of a Go `int` is the same integer. -/
def fillAttributeValue (value : ObjectAttributeValueScheme) : objectAttributeValueModel :=
  let group : TfObject groupModel :=
    match value.Group with
    | some g =>
      TfObject.value { AvatarUrl := TfString.value g.AvatarUrl, Name := TfString.value g.Name }
    | none => TfObject.null
  let status : TfObject statusModel :=
    match value.Status with
    | some st =>
      TfObject.value
        { Id := TfString.value st.ID, Name := TfString.value st.Name,
          Category := TfInt64.value st.Category }
    | none => TfObject.null
  { Value := TfString.value value.Value,
    DisplayValue := TfString.value value.DisplayValue,
    SearchValue := TfString.value value.SearchValue,
    Group := group,
    Status := status,
    AdditionalValue := TfString.value value.AdditionalValue }

/-- The loop over `assetsObject.Attributes` in `FillInformationsForObject` (lines 171-235),
started with the attributes appended so far: the list of structured attributes when the loop
completes, or the diagnostics with which the function returns from inside the loop. -/
def fillAttributes (v : setValidation) :
    List ObjectAttributeScheme → List objectAttributeModel →
      Except Diagnostics (List objectAttributeModel)
  | [], attributes => Except.ok attributes
  | att :: rest, attributes =>
    let values : List objectAttributeValueModel :=
      att.ObjectAttributeValues.foldl (fun values value => values ++ [fillAttributeValue value]) []
    let (valueSet, diags) := SetValueFrom v.attributeValues values
    if Diagnostics.HasError diags then Except.error diags
    else
      let attributeValue : objectAttributeModel :=
        { WorkspaceId := TfString.value att.WorkspaceId,
          GlobalId := TfString.value att.GlobalId,
          Id := TfString.value att.ID,
          ObjectTypeAttributeLabel := TfBool.value att.ObjectTypeAttribute.Label,
          ObjectTypeAttributeId := TfString.value att.ObjectTypeAttributeId,
          ObjectAttributeValues := valueSet }
      fillAttributes v rest (attributes ++ [attributeValue])

/-- The function `FillInformationsForObject` (`common.go`, lines 127-239): the diagnostics
it returns and the model after the call. -/
def FillInformationsForObject (v : setValidation) (object : objectResourceModel)
    (assetsObject : ObjectScheme) : Diagnostics × objectResourceModel :=
  let object := { object with
    WorkspaceId := TfString.value assetsObject.WorkspaceId,
    GlobalId := TfString.value assetsObject.GlobalId,
    Id := TfString.value assetsObject.ID,
    Label := TfString.value assetsObject.Label,
    ObjectKey := TfString.value assetsObject.ObjectKey,
    ObjectTypeId := TfString.value assetsObject.ObjectType.Id,
    Created := TfString.value assetsObject.Created,
    Updated := TfString.value assetsObject.Updated,
    HasAvatar := TfBool.value assetsObject.HasAvatar }
  let avatar : TfObject avatarModel :=
    match assetsObject.Avatar with
    | some a =>
      TfObject.value
        { WorkspaceId := TfString.value a.WorkspaceId,
          GlobalId := TfString.value a.GlobalId,
          Id := TfString.value a.AvatarUUID,
          AvatarUuid := TfString.value a.AvatarUUID,
          Url16 := TfString.value a.Url16,
          Url48 := TfString.value a.Url48,
          Url72 := TfString.value a.Url72,
          Url144 := TfString.value a.Url144,
          Url288 := TfString.value a.Url288,
          ObjectId := TfString.value a.ObjectId }
    | none => TfObject.null
  let object := { object with
    Avatar := avatar,
    Links := TfObject.value { Self := TfString.value assetsObject.Links.Self } }
  match fillAttributes v assetsObject.Attributes [] with
  | Except.error diags => (diags, object)
  | Except.ok attributes =>
    let (set, diags) := SetValueFrom v.attributes attributes
    (diags, { object with Attributes := set })

/-! ## Object resource: create, read and update (`object_resource.go`) -/

/-- The results of the remote client's `Object` service that `Create`, `Read` and `Update`
read: for each call, `Except.error text` when `err.Error()` is `text`, and otherwise the
object the call returns. -/
structure objectService where
  Create : String → ObjectPayloadScheme → Except String ObjectScheme
  Get : String → String → Except String ObjectScheme
  Update : String → String → ObjectPayloadScheme → Except String ObjectScheme

/-- The method `Set` of `tfsdk.State`: from the state of the response and the model to
write, the diagnostics it returns and the state afterwards; `none` is the empty state. The
framework is not part of the repository: the method is a parameter of the operations. -/
abbrev StateSet : Type :=
  Option objectResourceModel → objectResourceModel → Diagnostics × Option objectResourceModel

/-- The request `resource.CreateRequest`, with the field `Create` reads. -/
structure CreateRequest where
  Plan : tfsdkData
deriving DecidableEq, Repr

/-- The response `resource.CreateResponse`. -/
structure CreateResponse where
  State : Option objectResourceModel
  Diagnostics : Diagnostics
deriving DecidableEq, Repr

/-- The request `resource.ReadRequest`, with the field `Read` reads. -/
structure ReadRequest where
  State : tfsdkData
deriving DecidableEq, Repr

/-- The response `resource.ReadResponse`. -/
structure ReadResponse where
  State : Option objectResourceModel
  Diagnostics : Diagnostics
deriving DecidableEq, Repr

/-- The request `resource.UpdateRequest`, with the field `Update` reads. -/
structure UpdateRequest where
  Plan : tfsdkData
deriving DecidableEq, Repr

/-- The response `resource.UpdateResponse`. -/
structure UpdateResponse where
  State : Option objectResourceModel
  Diagnostics : Diagnostics
deriving DecidableEq, Repr

/-- The method `objectResource.Create` (lines 415-462): the new response and the client
calls issued, in order. `object` is `r.client.Object`, `v` the validation of the sets that
`FillInformationsForObject` builds and `set` the method `resp.State.Set`. -/
def objectResource.Create (object : objectService) (v : setValidation) (set : StateSet)
    (r : objectResource) (req : CreateRequest) (resp : CreateResponse) :
    CreateResponse × List ClientCall :=
  let (diags, plan) := req.Plan.Get
  let resp := { resp with Diagnostics := Diagnostics.Append resp.Diagnostics diags }
  if Diagnostics.HasError resp.Diagnostics then (resp, [])
  else
    let payload : ObjectPayloadScheme := {}
    let (diags, payload) := createObjectPayload plan payload
    let resp := { resp with Diagnostics := Diagnostics.Append resp.Diagnostics diags }
    if Diagnostics.HasError resp.Diagnostics then (resp, [])
    else
      let create := ClientCall.ObjectCreate r.workspace_id payload
      match object.Create r.workspace_id payload with
      | Except.error err =>
        ({ resp with Diagnostics := (Diagnostics.AddError resp.Diagnostics
            "Error creating object"
            ("Could not create object, unexpected error: " ++ err)) }, [create])
      | Except.ok object_without_attributes =>
        let get := ClientCall.ObjectGet r.workspace_id object_without_attributes.ID
        match object.Get r.workspace_id object_without_attributes.ID with
        | Except.error err =>
          ({ resp with Diagnostics := (Diagnostics.AddError resp.Diagnostics
              "Error get attributes"
              ("Could not get attributes, unexpected error: " ++ err)) }, [create, get])
        | Except.ok assetsObject =>
          let (diags, plan) := FillInformationsForObject v plan assetsObject
          let resp := { resp with Diagnostics := Diagnostics.Append resp.Diagnostics diags }
          if Diagnostics.HasError resp.Diagnostics then (resp, [create, get])
          else
            let (diags, state) := set resp.State plan
            ({ resp with State := state,
                         Diagnostics := Diagnostics.Append resp.Diagnostics diags },
              [create, get])

/-- The method `objectResource.Read` (lines 465-495): the new response and the client calls
issued, in order. -/
def objectResource.Read (object : objectService) (v : setValidation) (set : StateSet)
    (r : objectResource) (req : ReadRequest) (resp : ReadResponse) :
    ReadResponse × List ClientCall :=
  let (diags, state) := req.State.Get
  let resp := { resp with Diagnostics := Diagnostics.Append resp.Diagnostics diags }
  if Diagnostics.HasError resp.Diagnostics then (resp, [])
  else
    let get := ClientCall.ObjectGet r.workspace_id state.Id.ValueString
    match object.Get r.workspace_id state.Id.ValueString with
    | Except.error err =>
      ({ resp with Diagnostics := (Diagnostics.AddError resp.Diagnostics
          "Error Reading object"
          ("Could not read object, unexpected error: " ++ err)) }, [get])
    | Except.ok assetsObject =>
      let (diags, state) := FillInformationsForObject v state assetsObject
      let resp := { resp with Diagnostics := Diagnostics.Append resp.Diagnostics diags }
      if Diagnostics.HasError resp.Diagnostics then (resp, [get])
      else
        let (diags, written) := set resp.State state
        ({ resp with State := written,
                     Diagnostics := Diagnostics.Append resp.Diagnostics diags }, [get])

/-- The method `objectResource.Update` (lines 498-536): the new response and the client
calls issued, in order. -/
def objectResource.Update (object : objectService) (v : setValidation) (set : StateSet)
    (r : objectResource) (req : UpdateRequest) (resp : UpdateResponse) :
    UpdateResponse × List ClientCall :=
  let (diags, plan) := req.Plan.Get
  let resp := { resp with Diagnostics := Diagnostics.Append resp.Diagnostics diags }
  if Diagnostics.HasError resp.Diagnostics then (resp, [])
  else
    let payload : ObjectPayloadScheme := {}
    let (diags, payload) := createObjectPayload plan payload
    let resp := { resp with Diagnostics := Diagnostics.Append resp.Diagnostics diags }
    if Diagnostics.HasError resp.Diagnostics then (resp, [])
    else
      let update := ClientCall.ObjectUpdate r.workspace_id plan.Id.ValueString payload
      match object.Update r.workspace_id plan.Id.ValueString payload with
      | Except.error err =>
        ({ resp with Diagnostics := (Diagnostics.AddError resp.Diagnostics
            "Error Updating object"
            ("Could not update object, unexpected error: " ++ err)) }, [update])
      | Except.ok assetsObject =>
        let (diags, plan) := FillInformationsForObject v plan assetsObject
        let resp := { resp with Diagnostics := Diagnostics.Append resp.Diagnostics diags }
        if Diagnostics.HasError resp.Diagnostics then (resp, [update])
        else
          let (diags, state) := set resp.State plan
          ({ resp with State := state,
                       Diagnostics := Diagnostics.Append resp.Diagnostics diags },
            [update])

/-! ## Decoding for the data source (`common.go`, `object_data_source.go`) -/

/-- The model `objectDataResourceModel` (`object_data_source.go`, lines 24-37). -/
structure objectDataResourceModel where
  WorkspaceId : TfString
  GlobalId : TfString
  Id : TfString
  Label : TfString
  ObjectKey : TfString
  ObjectTypeId : TfString
  Created : TfString
  Updated : TfString
  HasAvatar : TfBool
  Attributes : TfSet objectAttributeModel
  Links : TfObject objectModel
  Avatar : TfObject avatarModel
deriving DecidableEq, Repr

/-- The body of the loop over `att.ObjectAttributeValues` in `FillInformationsForDataObject`
(lines 60-97): the structured value appended for one returned value. -/
def fillDataAttributeValue (value : ObjectAttributeValueScheme) : objectAttributeValueModel :=
  let group : TfObject groupModel :=
    match value.Group with
    | some g =>
      TfObject.value { AvatarUrl := TfString.value g.AvatarUrl, Name := TfString.value g.Name }
    | none => TfObject.null
  let status : TfObject statusModel :=
    match value.Status with
    | some st =>
      TfObject.value
        { Id := TfString.value st.ID, Name := TfString.value st.Name,
          Category := TfInt64.value st.Category }
    | none => TfObject.null
  { Value := TfString.value value.Value,
    DisplayValue := TfString.value value.DisplayValue,
    SearchValue := TfString.value value.SearchValue,
    Group := group,
    Status := status,
    AdditionalValue := TfString.value value.AdditionalValue }

/-- The loop over `assetsObject.Attributes` in `FillInformationsForDataObject` (lines
57-121), started with the attributes appended so far: the list of structured attributes
when the loop completes, or the diagnostics with which the function returns from inside
the loop. -/
def fillDataAttributes (v : setValidation) :
    List ObjectAttributeScheme → List objectAttributeModel →
      Except Diagnostics (List objectAttributeModel)
  | [], attributes => Except.ok attributes
  | att :: rest, attributes =>
    let values : List objectAttributeValueModel :=
      att.ObjectAttributeValues.foldl
        (fun values value => values ++ [fillDataAttributeValue value]) []
    let (valueSet, diags) := SetValueFrom v.attributeValues values
    if Diagnostics.HasError diags then Except.error diags
    else
      let attributeValue : objectAttributeModel :=
        { WorkspaceId := TfString.value att.WorkspaceId,
          GlobalId := TfString.value att.GlobalId,
          Id := TfString.value att.ID,
          ObjectTypeAttributeLabel := TfBool.value att.ObjectTypeAttribute.Label,
          ObjectTypeAttributeId := TfString.value att.ObjectTypeAttributeId,
          ObjectAttributeValues := valueSet }
      fillDataAttributes v rest (attributes ++ [attributeValue])

/-- The function `FillInformationsForDataObject` (`common.go`, lines 13-125): the
diagnostics it returns and the model after the call. -/
def FillInformationsForDataObject (v : setValidation) (object : objectDataResourceModel)
    (assetsObject : ObjectScheme) : Diagnostics × objectDataResourceModel :=
  let object := { object with
    WorkspaceId := TfString.value assetsObject.WorkspaceId,
    GlobalId := TfString.value assetsObject.GlobalId,
    Id := TfString.value assetsObject.ID,
    Label := TfString.value assetsObject.Label,
    ObjectKey := TfString.value assetsObject.ObjectKey,
    ObjectTypeId := TfString.value assetsObject.ObjectType.Id,
    Created := TfString.value assetsObject.Created,
    Updated := TfString.value assetsObject.Updated,
    HasAvatar := TfBool.value assetsObject.HasAvatar }
  let avatar : TfObject avatarModel :=
    match assetsObject.Avatar with
    | some a =>
      TfObject.value
        { WorkspaceId := TfString.value a.WorkspaceId,
          GlobalId := TfString.value a.GlobalId,
          Id := TfString.value a.AvatarUUID,
          AvatarUuid := TfString.value a.AvatarUUID,
          Url16 := TfString.value a.Url16,
          Url48 := TfString.value a.Url48,
          Url72 := TfString.value a.Url72,
          Url144 := TfString.value a.Url144,
          Url288 := TfString.value a.Url288,
          ObjectId := TfString.value a.ObjectId }
    | none => TfObject.null
  let object := { object with
    Avatar := avatar,
    Links := TfObject.value { Self := TfString.value assetsObject.Links.Self } }
  match fillDataAttributes v assetsObject.Attributes [] with
  | Except.error diags => (diags, object)
  | Except.ok attributes =>
    let (set, diags) := SetValueFrom v.attributes attributes
    (diags, { object with Attributes := set })

/-! ## Object type attributes (`objecttypeattribute_resource.go`) -/

/-- The method `IsNull` of `types.Int64`. -/
def TfInt64.IsNull : TfInt64 → Bool
  | .null => true
  | _ => false

/-- The method `IsUnknown` of `types.Int64`. -/
def TfInt64.IsUnknown : TfInt64 → Bool
  | .unknown => true
  | _ => false

/-- The method `ValueInt64`: the known integer, and `0` for null or unknown. -/
def TfInt64.ValueInt64 : TfInt64 → Int
  | .value i => i
  | _ => 0

/-- The value type `types.List`, decoded: null, unknown, or the known elements in order. -/
inductive TfList (α : Type) where
  | null
  | unknown
  | value (elems : List α)
deriving DecidableEq, Repr

/-- The method `IsNull` of `types.List`. -/
def TfList.IsNull {α : Type} : TfList α → Bool
  | .null => true
  | _ => false

/-- The method `IsUnknown` of `types.List`. -/
def TfList.IsUnknown {α : Type} : TfList α → Bool
  | .unknown => true
  | _ => false

/-- The method `ElementsAs` of a list of strings into a slice of `types.String`: the
elements of a known list, and no diagnostic. -/
def TfList.ElementsAs {α : Type} : TfList α → List α
  | .value elems => elems
  | _ => []

/-- The model `defaultTypeModel` (lines 78-81). -/
structure defaultTypeModel where
  Id : TfInt64
  Name : TfString
deriving DecidableEq, Repr

/-- The model `referenceTypeModel` (lines 83-87). -/
structure referenceTypeModel where
  WorkspaceId : TfString
  GlobalId : TfString
  Name : TfString
deriving DecidableEq, Repr

/-- The model `objectTypeAttributeResourceModel` (lines 43-76); the field `Type` is named
`Type_`. -/
structure objectTypeAttributeResourceModel where
  WorkspaceId : TfString
  GlobalId : TfString
  Id : TfString
  ObjectTypeId : TfString
  Name : TfString
  Label : TfBool
  Type_ : TfInt64
  Description : TfString
  DefaultType : TfObject defaultTypeModel
  DefaultTypeId : TfInt64
  TypeValue : TfString
  TypeValueMulti : TfList TfString
  AdditionalValue : TfString
  ReferenceType : TfObject referenceTypeModel
  ReferenceObjectTypeId : TfString
  Editable : TfBool
  System : TfBool
  Indexed : TfBool
  Sortable : TfBool
  Summable : TfBool
  MinimumCardinality : TfInt64
  MaximumCardinality : TfInt64
  Suffix : TfString
  Removable : TfBool
  ObjectAttributeExists : TfBool
  Hidden : TfBool
  IncludeChildObjectTypes : TfBool
  UniqueAttribute : TfBool
  RegexValidation : TfString
  QlQuery : TfString
  Options : TfString
  Position : TfInt64
deriving DecidableEq, Repr

/-- The library type `models.ObjectTypeAttributePayloadScheme`: the fields the source
sets, with `Type` named `Type_`. A pointer to an `int` is an optional integer; a field left
out of a Go composite literal has its zero value. -/
structure ObjectTypeAttributePayloadScheme where
  Name : String := ""
  Label : Bool := false
  Type_ : Option Int := none
  Description : String := ""
  DefaultTypeId : Option Int := none
  TypeValue : String := ""
  TypeValueMulti : List String := []
  AdditionalValue : String := ""
  Summable : Bool := false
  MinimumCardinality : Option Int := none
  MaximumCardinality : Option Int := none
  Suffix : String := ""
  Hidden : Bool := false
  IncludeChildObjectTypes : Bool := false
  UniqueAttribute : Bool := false
  RegexValidation : String := ""
  QlQuery : String := ""
  Options : String := ""
deriving DecidableEq, Repr

/-- The function `createObjectTypeAttributePayload` (lines 358-414): the diagnostics it
returns and the payload after the call. `int(...)` of an `int64` is the same integer. -/
def createObjectTypeAttributePayload (objectTypeAttribute : objectTypeAttributeResourceModel)
    (payload : ObjectTypeAttributePayloadScheme) :
    Diagnostics × ObjectTypeAttributePayloadScheme :=
  let diags : Diagnostics := []
  let payload := { payload with
    Name := objectTypeAttribute.Name.ValueString,
    Label := objectTypeAttribute.Label.ValueBool }
  let payload :=
    if !objectTypeAttribute.Type_.IsNull && !objectTypeAttribute.Type_.IsUnknown then
      { payload with Type_ := some objectTypeAttribute.Type_.ValueInt64 }
    else payload
  let payload := { payload with Description := objectTypeAttribute.Description.ValueString }
  let payload :=
    if !objectTypeAttribute.DefaultTypeId.IsNull &&
        !objectTypeAttribute.DefaultTypeId.IsUnknown then
      { payload with DefaultTypeId := some objectTypeAttribute.DefaultTypeId.ValueInt64 }
    else payload
  let payload := { payload with TypeValue := objectTypeAttribute.TypeValue.ValueString }
  let payload :=
    if !objectTypeAttribute.TypeValueMulti.IsNull &&
        !objectTypeAttribute.TypeValueMulti.IsUnknown then
      let values := objectTypeAttribute.TypeValueMulti.ElementsAs
      let typeValueMulti : List String :=
        values.foldl (fun typeValueMulti value => typeValueMulti ++ [value.ValueString]) []
      { payload with TypeValueMulti := typeValueMulti }
    else payload
  let payload := { payload with
    AdditionalValue := objectTypeAttribute.AdditionalValue.ValueString,
    Summable := objectTypeAttribute.Summable.ValueBool }
  let payload :=
    if !objectTypeAttribute.MinimumCardinality.IsNull &&
        !objectTypeAttribute.MinimumCardinality.IsUnknown then
      { payload with
        MinimumCardinality := some objectTypeAttribute.MinimumCardinality.ValueInt64 }
    else payload
  let payload :=
    if !objectTypeAttribute.MaximumCardinality.IsNull &&
        !objectTypeAttribute.MaximumCardinality.IsUnknown then
      { payload with
        MaximumCardinality := some objectTypeAttribute.MaximumCardinality.ValueInt64 }
    else payload
  let payload := { payload with
    Suffix := objectTypeAttribute.Suffix.ValueString,
    Hidden := objectTypeAttribute.Hidden.ValueBool,
    IncludeChildObjectTypes := objectTypeAttribute.IncludeChildObjectTypes.ValueBool,
    UniqueAttribute := objectTypeAttribute.UniqueAttribute.ValueBool,
    RegexValidation := objectTypeAttribute.RegexValidation.ValueString,
    QlQuery := objectTypeAttribute.RegexValidation.ValueString,
    Options := objectTypeAttribute.Options.ValueString }
  (diags, payload)

/-! ## Provider configuration (`provider.go`) -/

/-- The method `IsNull` of `types.Bool`. -/
def TfBool.IsNull : TfBool → Bool
  | .null => true
  | _ => false

/-- The model `featuresModel` (lines 41-44). -/
structure featuresModel where
  DestroyObject : TfBool
  ObsoleteObjectTypeAttributeId : TfString
deriving DecidableEq, Repr

/-- The model `AssetsProviderModel` (lines 33-39). -/
structure AssetsProviderModel where
  Host : TfString
  Token : TfString
  Mail : TfString
  WorkspaceId : TfString
  Features : TfObject featuresModel
deriving DecidableEq, Repr

/-- The provider configuration as `Configure` uses it: `Get` decodes it into the provider
model and returns the diagnostics of the decoding. -/
structure tfsdkConfig where
  Raw : AssetsProviderModel
  diags : Diagnostics
deriving DecidableEq, Repr

/-- The method `Get` of the configuration. -/
def tfsdkConfig.Get (c : tfsdkConfig) : Diagnostics × AssetsProviderModel :=
  (c.diags, c.Raw)

/-- The library client `*assets.Client` as `Configure` leaves it: the site given to
`assets.New` and the credentials given to `Auth.SetBasicAuth`. -/
structure createdClient where
  Site : String
  AuthMail : String
  AuthToken : String
deriving DecidableEq, Repr

/-- The struct `AssetsProviderClient` (lines 52-56). -/
structure AssetsProviderClient where
  Client : createdClient
  WorkspaceId : String
  Features : features
deriving DecidableEq, Repr

/-- The request `provider.ConfigureRequest`. -/
structure ConfigureRequest where
  Config : tfsdkConfig
deriving DecidableEq, Repr

/-- The response `provider.ConfigureResponse`; `none` is the `nil` data of a response to
which nothing was published. -/
structure ConfigureResponse where
  Diagnostics : Diagnostics
  DataSourceData : Option AssetsProviderClient
  ResourceData : Option AssetsProviderClient
deriving DecidableEq, Repr

/-- The standard-library function `strconv.ParseBool`: `none` when it returns an error. -/
def ParseBool (str : String) : Option Bool :=
  if str = "1" ∨ str = "t" ∨ str = "T" ∨ str = "true" ∨ str = "TRUE" ∨ str = "True" then
    some true
  else if str = "0" ∨ str = "f" ∨ str = "F" ∨ str = "false" ∨ str = "FALSE" ∨ str = "False" then
    some false
  else none

/-- The diagnostic `config.Features.As` reports for an unknown object. `Configure` has
returned at line 147 before it could decode an unknown `features`. -/
def featuresAsUnknownError : Diagnostic :=
  NewErrorDiagnostic "Value Conversion Error"
    "Received unknown value, however the target type cannot handle unknown values."

/-- Lines 111-144 of `AssetsProvider.Configure`: one attribute error for each of `token`,
`mail`, `workspace_id` and `features` that is unknown. -/
def AssetsProvider.Configure.unknownValues (config : AssetsProviderModel)
    (resp : ConfigureResponse) : ConfigureResponse :=
  let resp :=
    if config.Token.IsUnknown then
      { resp with Diagnostics := (Diagnostics.AddAttributeError resp.Diagnostics "token"
          "Unknown Assets API Token"
          ("The provider cannot create the Assets API client as there is an unknown configuration value for the Assets API Token. " ++
            "Either target apply the source of the value first, set the value statically in the configuration, or use the ATLASSIAN_TOKEN environment variable.")) }
    else resp
  let resp :=
    if config.Mail.IsUnknown then
      { resp with Diagnostics := (Diagnostics.AddAttributeError resp.Diagnostics "mail"
          "Unknown Assets API Mail"
          ("The provider cannot create the Assets API client as there is an unknown configuration value for the Assets API Mail. " ++
            "Either target apply the source of the value first, set the value statically in the configuration, or use the ATLASSIAN_MAIL environment variable.")) }
    else resp
  let resp :=
    if config.WorkspaceId.IsUnknown then
      { resp with Diagnostics := (Diagnostics.AddAttributeError resp.Diagnostics "workspace_id"
          "Unknown Assets Workspace ID"
          ("The provider cannot create the Assets API client as there is an unknown configuration value for the Assets Workspace ID. " ++
            "Either target apply the source of the value first, set the value statically in the configuration, or use the ASSETS_WORKSPACE_ID environment variable.")) }
    else resp
  if config.Features.IsUnknown then
    { resp with Diagnostics := (Diagnostics.AddAttributeError resp.Diagnostics "features"
        "Unknown Features"
        "The provider cannot create the Assets API client as there is an unknown configuration value for the Features.") }
  else resp

/-- Lines 204-240 of `AssetsProvider.Configure`: one attribute error for each of the
resolved token, mail and workspace id that is empty, and one when soft deletion has no
obsolete attribute id. -/
def AssetsProvider.Configure.missingValues (token mail workspace_id : String)
    (destroy_object : Bool) (obsolete_objecttypeattribute_id : String)
    (resp : ConfigureResponse) : ConfigureResponse :=
  let resp :=
    if token = "" then
      { resp with Diagnostics := (Diagnostics.AddAttributeError resp.Diagnostics "token"
          "Missing Assets API Token"
          ("The provider cannot create the Assets API client as there is a missing or empty value for the Assets API Token. " ++
            "Set the pat value in the configuration or use the ATLASSIAN_PAT environment variable. " ++
            "If either is already set, ensure the value is not empty.")) }
    else resp
  let resp :=
    if mail = "" then
      { resp with Diagnostics := (Diagnostics.AddAttributeError resp.Diagnostics "mail"
          "Missing Assets API Mail"
          ("The provider cannot create the Assets API client as there is a missing or empty value for the Assets API Mail. " ++
            "Set the pat value in the configuration or use the ATLASSIAN_MAIL environment variable. " ++
            "If either is already set, ensure the value is not empty.")) }
    else resp
  let resp :=
    if workspace_id = "" then
      { resp with Diagnostics := (Diagnostics.AddAttributeError resp.Diagnostics
          "workspace_id"
          "Missing Assets Workspace ID"
          ("The provider cannot create the Assets API client as there is a missing or empty value for the Assets Workspace ID. " ++
            "Set the pat value in the configuration or use the ASSETS_WORKSPACE_ID environment variable. " ++
            "If either is already set, ensure the value is not empty.")) }
    else resp
  if !destroy_object && obsolete_objecttypeattribute_id = "" then
    { resp with Diagnostics := (Diagnostics.AddAttributeError resp.Diagnostics "features"
        "Unknown obsolete_objecttypeattribute_id"
        "The provider cannot create the Assets API client as there is an unknown configuration value for the Features.") }
  else resp

/-- The method `AssetsProvider.Configure` (lines 100-269). `Getenv` is `os.Getenv`;
`assetsNew host` is the error text of `assets.New(nil, host)`, `none` when the client is
created. The result is the new response and the list of the sites for which `assets.New`
was called. -/
def AssetsProvider.Configure (Getenv : String → String) (assetsNew : String → Option String)
    (req : ConfigureRequest) (resp : ConfigureResponse) : ConfigureResponse × List String :=
  let (diags, config) := req.Config.Get
  let resp := { resp with Diagnostics := Diagnostics.Append resp.Diagnostics diags }
  if Diagnostics.HasError resp.Diagnostics then (resp, [])
  else
    let resp := AssetsProvider.Configure.unknownValues config resp
    if Diagnostics.HasError resp.Diagnostics then (resp, [])
    else
      let host := Getenv "ATLASSIAN_HOST"
      let token := Getenv "ATLASSIAN_TOKEN"
      let mail := Getenv "ATLASSIAN_MAIL"
      let workspace_id := Getenv "ASSETS_WORKSPACE_ID"
      let destroy_object_env := Getenv "ASSETS_DESTROY_OBJECT"
      let obsolete_objecttypeattribute_id := Getenv "ASSETS_OBJECTTYPEATTRIBUTE_ID"
      let destroy_object : Bool :=
        match ParseBool destroy_object_env with
        | some b => b
        | none => true
      let host := if !config.Host.IsNull then config.Host.ValueString else host
      let token := if !config.Token.IsNull then config.Token.ValueString else token
      let mail := if !config.Mail.IsNull then config.Mail.ValueString else mail
      let workspace_id :=
        if !config.WorkspaceId.IsNull then config.WorkspaceId.ValueString else workspace_id
      -- `var feats featuresModel`, filled by `As` when `features` is not null
      let (feats, diags) : featuresModel × Diagnostics :=
        match config.Features with
        | .value f => (f, [])
        | .unknown =>
          ({ DestroyObject := TfBool.null, ObsoleteObjectTypeAttributeId := TfString.null },
            [featuresAsUnknownError])
        | .null =>
          ({ DestroyObject := TfBool.null, ObsoleteObjectTypeAttributeId := TfString.null }, [])
      let resp :=
        if !config.Features.IsNull then
          { resp with Diagnostics := Diagnostics.Append resp.Diagnostics diags }
        else resp
      if !config.Features.IsNull && Diagnostics.HasError resp.Diagnostics then (resp, [])
      else
        let destroy_object :=
          if !config.Features.IsNull && !feats.DestroyObject.IsNull then
            feats.DestroyObject.ValueBool
          else destroy_object
        let obsolete_objecttypeattribute_id :=
          if !config.Features.IsNull && !feats.ObsoleteObjectTypeAttributeId.IsNull then
            feats.ObsoleteObjectTypeAttributeId.ValueString
          else obsolete_objecttypeattribute_id
        let features : features :=
          { DestroyObject := destroy_object,
            ObsoleteObjectTypeAttributeId := obsolete_objecttypeattribute_id }
        let resp :=
          AssetsProvider.Configure.missingValues token mail workspace_id destroy_object
            obsolete_objecttypeattribute_id resp
        if Diagnostics.HasError resp.Diagnostics then (resp, [])
        else
          match assetsNew host with
          | some err =>
            ({ resp with Diagnostics := (Diagnostics.AddError resp.Diagnostics
                "Unable to Create Assets API Client"
                ("An unexpected error occurred when creating the Assets API client. " ++
                  "If the error is not clear, please contact the provider developers.\n\n" ++
                  "Assets Client Error: " ++ err)) }, [host])
          | none =>
            let client : createdClient :=
              { Site := host, AuthMail := mail, AuthToken := token }
            let assetsClient : AssetsProviderClient :=
              { Client := client, WorkspaceId := workspace_id, Features := features }
            ({ resp with DataSourceData := some assetsClient, ResourceData := some assetsClient },
              [host])

/-! ## Vocabulary of the properties -/

/-- The response carries no error yet, and decoding the plan and the prior state with `Get`
reports none: the modifier reaches its own logic. -/
def decodesCleanly (req : StringRequest) (resp : StringResponse) : Bool :=
  !Diagnostics.HasError resp.Diagnostics && !Diagnostics.HasError req.Plan.Get.1 &&
    !Diagnostics.HasError req.State.Get.1

/-- The diagnostics of the response once both `Get` calls have appended theirs. -/
def decodedDiagnostics (req : StringRequest) (resp : StringResponse) : Diagnostics :=
  Diagnostics.Append (Diagnostics.Append resp.Diagnostics req.Plan.Get.1) req.State.Get.1

/-- The error of lines 123-126: no label attribute in the prior state. -/
def labelNotInSchemaError : Diagnostic :=
  NewErrorDiagnostic "Error in object attribute for the label."
    "Object attribute for the label not found in the object schema."

/-- The error of lines 133-136: several values for the label attribute. -/
def labelMultipleValuesError : Diagnostic :=
  NewErrorDiagnostic "Error in object attribute for the label."
    "Only one value expected for the label attribute."

/-- The error of lines 143-146: no declared attribute for the label. -/
def labelNotDeclaredError : Diagnostic :=
  NewErrorDiagnostic "Error in object attribute for the label."
    "Object attribute for the label not found."

/-- The avatar sub-fields to which `objectResource.Schema` (lines 309-373) attaches
`SyncAvatarPlanModifier()`: every attribute of `avatar` except `avatar_uuid`. -/
inductive avatarField where
  | workspace_id
  | global_id
  | id
  | url16
  | url48
  | url72
  | url144
  | url288
  | object_id
deriving DecidableEq, Repr

/-- The value of a sub-field in a known avatar. -/
def avatarModel.get (a : avatarModel) : avatarField → TfString
  | .workspace_id => a.WorkspaceId
  | .global_id => a.GlobalId
  | .id => a.Id
  | .url16 => a.Url16
  | .url48 => a.Url48
  | .url72 => a.Url72
  | .url144 => a.Url144
  | .url288 => a.Url288
  | .object_id => a.ObjectId

/-- The value the framework finds at the path of an avatar sub-field: the attribute of a
known avatar, null below a null avatar and unknown below an unknown one. -/
def avatarFieldValue (avatar : TfObject avatarModel) (f : avatarField) : TfString :=
  match avatar with
  | .value a => a.get f
  | .null => TfString.null
  | .unknown => TfString.unknown

/-- The request the framework hands to the modifier attached to the avatar sub-field `f`:
the whole plan and prior state, and the values at the path of `f` in each. -/
def avatarFieldRequest (plan state : tfsdkData) (f : avatarField) : StringRequest :=
  { Plan := plan, State := state,
    StateValue := avatarFieldValue state.Raw.Avatar f,
    PlanValue := avatarFieldValue plan.Raw.Avatar f }

/-- The avatar identity in the words of the specification: `avatar_uuid` of the avatar, and
the empty string when the avatar is absent or unknown. (`ValueString` also reads a null or
unknown `avatar_uuid` as the empty string.) -/
def avatarIdentity (avatar : TfObject avatarModel) : String :=
  match avatar with
  | .value a => a.AvatarUuid.ValueString
  | _ => ""

/-- The precedence rule of the specification for one configuration value: the Terraform
configuration value when it is set (non-null), otherwise the environment variable. -/
def configOrEnv (Getenv : String → String) (configured : TfString) (name : String) :
    String :=
  if configured.IsNull then Getenv name else configured.ValueString

/-- The attribute `features.destroy_object` of the configuration, null when `features` is
absent. -/
def configuredDestroyObject (config : AssetsProviderModel) : TfBool :=
  match config.Features with
  | .value f => f.DestroyObject
  | _ => TfBool.null

/-- The attribute `features.obsolete_objecttypeattribute_id` of the configuration, null
when `features` is absent. -/
def configuredObsoleteId (config : AssetsProviderModel) : TfString :=
  match config.Features with
  | .value f => f.ObsoleteObjectTypeAttributeId
  | _ => TfString.null

/-- The rule of the delete flag in the words of the specification: the configured value
when it is set (non-null); otherwise the value of `ASSETS_DESTROY_OBJECT` when it parses as
a boolean; otherwise `true`. -/
def resolvedDestroyObject (Getenv : String → String) (config : AssetsProviderModel) : Bool :=
  if (configuredDestroyObject config).IsNull then
    match ParseBool (Getenv "ASSETS_DESTROY_OBJECT") with
    | some b => b
    | none => true
  else (configuredDestroyObject config).ValueBool

/-- The resolved `obsolete_objecttypeattribute_id`, by the precedence rule. -/
def resolvedObsoleteId (Getenv : String → String) (config : AssetsProviderModel) : String :=
  configOrEnv Getenv (configuredObsoleteId config) "ASSETS_OBJECTTYPEATTRIBUTE_ID"

/-- The response carries no error yet, decoding the configuration reports none, and none
of `token`, `mail`, `workspace_id` and `features` is unknown: `Configure` reaches the
resolution of the values (line 150). -/
def configurationDecoded (req : ConfigureRequest) (resp : ConfigureResponse) : Bool :=
  !Diagnostics.HasError resp.Diagnostics && !Diagnostics.HasError req.Config.Get.1 &&
    !req.Config.Raw.Token.IsUnknown && !req.Config.Raw.Mail.IsUnknown &&
    !req.Config.Raw.WorkspaceId.IsUnknown && !req.Config.Raw.Features.IsUnknown

/-- The configuration is decoded and passes the checks of lines 204-244: the resolved
token, mail and workspace id are not empty, and soft deletion has an obsolete attribute
id. -/
def configurationAccepted (Getenv : String → String) (req : ConfigureRequest)
    (resp : ConfigureResponse) : Bool :=
  configurationDecoded req resp &&
    decide (configOrEnv Getenv req.Config.Raw.Token "ATLASSIAN_TOKEN" ≠ "") &&
    decide (configOrEnv Getenv req.Config.Raw.Mail "ATLASSIAN_MAIL" ≠ "") &&
    decide (configOrEnv Getenv req.Config.Raw.WorkspaceId "ASSETS_WORKSPACE_ID" ≠ "") &&
    !(!resolvedDestroyObject Getenv req.Config.Raw &&
        decide (resolvedObsoleteId Getenv req.Config.Raw = ""))

/-- The error of lines 235-239: soft deletion without an obsolete attribute id. -/
def missingObsoleteIdError : Diagnostic :=
  NewAttributeErrorDiagnostic "features" "Unknown obsolete_objecttypeattribute_id"
    "The provider cannot create the Assets API client as there is an unknown configuration value for the Features."

/-- The error of lines 205-211: the resolved token is empty. -/
def missingTokenError : Diagnostic :=
  NewAttributeErrorDiagnostic "token" "Missing Assets API Token"
    ("The provider cannot create the Assets API client as there is a missing or empty value for the Assets API Token. " ++
      "Set the pat value in the configuration or use the ATLASSIAN_PAT environment variable. " ++
      "If either is already set, ensure the value is not empty.")

/-- The error of lines 215-221: the resolved mail is empty. -/
def missingMailError : Diagnostic :=
  NewAttributeErrorDiagnostic "mail" "Missing Assets API Mail"
    ("The provider cannot create the Assets API client as there is a missing or empty value for the Assets API Mail. " ++
      "Set the pat value in the configuration or use the ATLASSIAN_MAIL environment variable. " ++
      "If either is already set, ensure the value is not empty.")

/-- The error of lines 225-231: the resolved workspace id is empty. -/
def missingWorkspaceIdError : Diagnostic :=
  NewAttributeErrorDiagnostic "workspace_id" "Missing Assets Workspace ID"
    ("The provider cannot create the Assets API client as there is a missing or empty value for the Assets Workspace ID. " ++
      "Set the pat value in the configuration or use the ASSETS_WORKSPACE_ID environment variable. " ++
      "If either is already set, ensure the value is not empty.")

/-- The errors lines 204-240 add for the resolved values, in the order of the source: one
for each of token, mail and workspace id that is empty, and one when soft deletion has no
obsolete attribute id. -/
def missingValueErrors (token mail workspace_id : String) (destroy_object : Bool)
    (obsolete_objecttypeattribute_id : String) : Diagnostics :=
  (if token = "" then [missingTokenError] else []) ++
    (if mail = "" then [missingMailError] else []) ++
    (if workspace_id = "" then [missingWorkspaceIdError] else []) ++
    (if destroy_object = false ∧ obsolete_objecttypeattribute_id = "" then
      [missingObsoleteIdError] else [])

/-- The response of `Configure` after the checks of lines 204-240, when it reaches them: the
decoding diagnostics appended, then the checks of lines 111-144, then those of lines 204-240
on the resolved values. -/
def configureChecked (Getenv : String → String) (req : ConfigureRequest)
    (resp : ConfigureResponse) : ConfigureResponse :=
  AssetsProvider.Configure.missingValues
    (configOrEnv Getenv req.Config.Raw.Token "ATLASSIAN_TOKEN")
    (configOrEnv Getenv req.Config.Raw.Mail "ATLASSIAN_MAIL")
    (configOrEnv Getenv req.Config.Raw.WorkspaceId "ASSETS_WORKSPACE_ID")
    (resolvedDestroyObject Getenv req.Config.Raw)
    (resolvedObsoleteId Getenv req.Config.Raw)
    (AssetsProvider.Configure.unknownValues req.Config.Raw
      { resp with Diagnostics := Diagnostics.Append resp.Diagnostics req.Config.diags })

/-- The client `Configure` publishes (lines 257-263), from the resolved values. -/
def resolvedClient (Getenv : String → String) (config : AssetsProviderModel) :
    AssetsProviderClient :=
  { Client :=
      { Site := configOrEnv Getenv config.Host "ATLASSIAN_HOST",
        AuthMail := configOrEnv Getenv config.Mail "ATLASSIAN_MAIL",
        AuthToken := configOrEnv Getenv config.Token "ATLASSIAN_TOKEN" },
    WorkspaceId := configOrEnv Getenv config.WorkspaceId "ASSETS_WORKSPACE_ID",
    Features :=
      { DestroyObject := resolvedDestroyObject Getenv config,
        ObsoleteObjectTypeAttributeId := resolvedObsoleteId Getenv config } }

/-- What a structured attribute of the model carries: its identity fields, its
type-attribute id, its label flag and the elements of its value set. -/
def structuredAttributeView (a : objectAttributeModel) :
    TfString × TfString × TfString × TfString × TfBool × List objectAttributeValueModel :=
  (a.WorkspaceId, a.GlobalId, a.Id, a.ObjectTypeAttributeId, a.ObjectTypeAttributeLabel,
    a.ObjectAttributeValues.ElementsAs)

/-- What `FillInformationsForObject` builds from one returned attribute, in the shape of
`structuredAttributeView`. -/
def returnedAttributeView (att : ObjectAttributeScheme) :
    TfString × TfString × TfString × TfString × TfBool × List objectAttributeValueModel :=
  (TfString.value att.WorkspaceId, TfString.value att.GlobalId, TfString.value att.ID,
    TfString.value att.ObjectTypeAttributeId, TfBool.value att.ObjectTypeAttribute.Label,
    att.ObjectAttributeValues.map fillAttributeValue)

/-! ## Concrete inputs -/

/-- A structured attribute of the prior state with the given type-attribute id and label flag. -/
def sampleAttribute (id : String) (flag : Bool) : objectAttributeModel :=
  { WorkspaceId := TfString.value "ws", GlobalId := TfString.value "ws:1",
    Id := TfString.value "1", ObjectTypeAttributeId := TfString.value id,
    ObjectAttributeValues := TfSet.value [],
    ObjectTypeAttributeLabel := TfBool.value flag }

/-- A declared attribute of `attributes_in` with the given id and known values. -/
def sampleAttributeIn (id : String) (values : List String) : objectAttributeInModel :=
  { ObjectTypeAttributeId := TfString.value id,
    ObjectAttributeValuesIn := values.map (fun v => { Value := TfString.value v }) }

/-- A known avatar with the given `avatar_uuid` and every other field set. -/
def sampleAvatar (uuid : String) : avatarModel :=
  { WorkspaceId := TfString.value "ws", GlobalId := TfString.value "ws:9",
    Id := TfString.value uuid, AvatarUuid := TfString.value uuid,
    Url16 := TfString.value "u16", Url48 := TfString.value "u48",
    Url72 := TfString.value "u72", Url144 := TfString.value "u144",
    Url288 := TfString.value "u288", ObjectId := TfString.value "42" }

/-- An avatar of the plan in which only `avatar_uuid` is configured: the computed
sub-fields are unknown. -/
def sampleAvatarPlan (uuid : TfString) : avatarModel :=
  { WorkspaceId := TfString.unknown, GlobalId := TfString.unknown, Id := TfString.unknown,
    AvatarUuid := uuid, Url16 := TfString.unknown, Url48 := TfString.unknown,
    Url72 := TfString.unknown, Url144 := TfString.unknown, Url288 := TfString.unknown,
    ObjectId := TfString.unknown }

/-- A prior state of object `42` with label `old`, the given structured attributes and
avatar. -/
def sampleState (attributes : TfSet objectAttributeModel) (avatar : TfObject avatarModel) :
    objectResourceModel :=
  { WorkspaceId := TfString.value "ws", GlobalId := TfString.value "ws:42",
    Id := TfString.value "42", Label := TfString.value "old",
    ObjectKey := TfString.value "K-42", ObjectTypeId := TfString.value "7",
    Created := TfString.value "t0", Updated := TfString.value "t1",
    HasAvatar := TfBool.value false, Attributes := attributes,
    Links := TfObject.value { Self := TfString.value "self" },
    AttributesIn := [], Avatar := avatar }

/-- A plan for object `42` with the given declared attributes and avatar; the label and
the structured attributes are computed, hence unknown. -/
def samplePlan (attributesIn : List objectAttributeInModel) (avatar : TfObject avatarModel) :
    objectResourceModel :=
  { WorkspaceId := TfString.value "ws", GlobalId := TfString.value "ws:42",
    Id := TfString.value "42", Label := TfString.unknown,
    ObjectKey := TfString.value "K-42", ObjectTypeId := TfString.value "7",
    Created := TfString.value "t0", Updated := TfString.unknown,
    HasAvatar := TfBool.value false, Attributes := TfSet.unknown,
    Links := TfObject.value { Self := TfString.value "self" },
    AttributesIn := attributesIn, Avatar := avatar }

/-- The request the framework hands to the modifier of `label`: plan and state decode
without diagnostics, and the values are those at the path `label`. -/
def labelRequest (state plan : objectResourceModel) : StringRequest :=
  { Plan := { Raw := plan, diags := [] }, State := { Raw := state, diags := [] },
    StateValue := state.Label, PlanValue := plan.Label }

/-- The response the framework creates for one modifier call: the planned value of the
request and no diagnostics. -/
def freshResponse (req : StringRequest) : StringResponse :=
  { PlanValue := req.PlanValue, Diagnostics := [] }

/-- A remote client whose calls all succeed. -/
def sampleClient : assetsClient :=
  { ObjectUpdateErr := fun _ _ _ => none, ObjectDeleteErr := fun _ _ => none }

/-- A configured object resource of workspace `ws` with the given deletion features. -/
def sampleResource (destroyObject : Bool) (obsoleteId : String) : objectResource :=
  { client := sampleClient, workspace_id := "ws",
    features := { DestroyObject := destroyObject, ObsoleteObjectTypeAttributeId := obsoleteId } }

/-- A set validation that reports nothing. -/
def sampleValidation : setValidation :=
  { attributeValues := fun _ => [], attributes := fun _ => [] }

/-- The error with which the framework rejects a set that holds the same element twice
(the detail of the framework also prints the element). -/
def duplicateSetElementError : Diagnostic :=
  NewErrorDiagnostic "Duplicate Set Element" "This attribute contains duplicate values."

/-- A set validation that rejects a list in which an element occurs twice, as the framework
does when `types.SetValueFrom` builds a set, and accepts every other list. -/
def duplicateRejectingValidation : setValidation :=
  { attributeValues := fun values =>
      if values.Nodup then [] else [duplicateSetElementError],
    attributes := fun attributes =>
      if attributes.Nodup then [] else [duplicateSetElementError] }

/-- A returned attribute value with the given value string and no group or status. -/
def sampleRemoteValue (value : String) : ObjectAttributeValueScheme :=
  { Value := value, DisplayValue := value, SearchValue := value,
    Group := none, Status := none, AdditionalValue := "" }

/-- A returned attribute with the given type-attribute id, label flag and values. -/
def sampleRemoteAttribute (id : String) (flag : Bool)
    (values : List ObjectAttributeValueScheme) : ObjectAttributeScheme :=
  { WorkspaceId := "ws", GlobalId := "ws:1", ID := "1",
    ObjectTypeAttribute := { Label := flag }, ObjectTypeAttributeId := id,
    ObjectAttributeValues := values }

/-- A remote object `42` without avatar and with the given attributes. -/
def sampleRemoteObject (attributes : List ObjectAttributeScheme) : ObjectScheme :=
  { WorkspaceId := "ws", GlobalId := "ws:42", ID := "42", Label := "Server A",
    ObjectKey := "K-42", ObjectType := { Id := "7" }, Created := "t0", Updated := "t2",
    HasAvatar := false, Avatar := none, Links := { Self := "self" },
    Attributes := attributes }

/-- An environment in which only the listed variables are set. -/
def sampleGetenv (vars : List (String × String)) (name : String) : String :=
  match vars.find? (fun kv => decide (kv.1 = name)) with
  | some kv => kv.2
  | none => ""

/-- A provider configuration with host, token, mail and workspace id set and the given
`features`. -/
def sampleConfig (feats : TfObject featuresModel) : ConfigureRequest :=
  { Config :=
      { Raw :=
          { Host := TfString.value "https://example.atlassian.net",
            Token := TfString.value "secret", Mail := TfString.value "bot@example.com",
            WorkspaceId := TfString.value "ws", Features := feats },
        diags := [] } }

/-- The response the framework hands to `Configure`: nothing published, no diagnostics. -/
def freshConfigureResponse : ConfigureResponse :=
  { Diagnostics := [], DataSourceData := none, ResourceData := none }

/-- A provider configuration whose `host` is unknown; token, mail and workspace id are set
and `features` is absent. -/
def sampleConfigUnknownHost : ConfigureRequest :=
  { Config :=
      { Raw :=
          { Host := TfString.unknown,
            Token := TfString.value "secret", Mail := TfString.value "bot@example.com",
            WorkspaceId := TfString.value "ws", Features := TfObject.null },
        diags := [] } }

/-- A provider configuration that sets only `host`. -/
def sampleConfigHostOnly : ConfigureRequest :=
  { Config :=
      { Raw :=
          { Host := TfString.value "https://example.atlassian.net",
            Token := TfString.null, Mail := TfString.null,
            WorkspaceId := TfString.null, Features := TfObject.null },
        diags := [] } }

/-- An `Object` service whose calls return the given results, whatever the arguments. -/
def sampleService (create get update : Except String ObjectScheme) : objectService :=
  { Create := fun _ _ => create, Get := fun _ _ => get, Update := fun _ _ _ => update }

/-- A `Set` that writes every model and reports nothing. -/
def sampleStateSet : StateSet :=
  fun _ model => ([], some model)

/-- A returned avatar with the given id and uuid. -/
def sampleRemoteAvatar (id uuid : String) : ObjectAvatarScheme :=
  { WorkspaceId := "ws", GlobalId := "ws:9", ID := id, AvatarUUID := uuid,
    Url16 := "u16", Url48 := "u48", Url72 := "u72", Url144 := "u144", Url288 := "u288",
    ObjectId := "42" }

/-- A data-source model before the read: only the id is configured. -/
def sampleDataModel : objectDataResourceModel :=
  { WorkspaceId := TfString.null, GlobalId := TfString.null, Id := TfString.value "42",
    Label := TfString.null, ObjectKey := TfString.null, ObjectTypeId := TfString.null,
    Created := TfString.null, Updated := TfString.null, HasAvatar := TfBool.null,
    Attributes := TfSet.null, Links := TfObject.null, Avatar := TfObject.null }

/-- An object-type-attribute model of a text attribute with the given regular expression
and query. -/
def sampleObjectTypeAttribute (regex ql : String) : objectTypeAttributeResourceModel :=
  { WorkspaceId := TfString.unknown, GlobalId := TfString.unknown, Id := TfString.unknown,
    ObjectTypeId := TfString.value "7", Name := TfString.value "Hostname",
    Label := TfBool.value false, Type_ := TfInt64.value 0,
    Description := TfString.value "host name", DefaultType := TfObject.unknown,
    DefaultTypeId := TfInt64.value 0, TypeValue := TfString.null,
    TypeValueMulti := TfList.null, AdditionalValue := TfString.null,
    ReferenceType := TfObject.unknown, ReferenceObjectTypeId := TfString.unknown,
    Editable := TfBool.unknown, System := TfBool.unknown, Indexed := TfBool.unknown,
    Sortable := TfBool.unknown, Summable := TfBool.value false,
    MinimumCardinality := TfInt64.value 1, MaximumCardinality := TfInt64.value 1,
    Suffix := TfString.null, Removable := TfBool.unknown,
    ObjectAttributeExists := TfBool.unknown, Hidden := TfBool.value false,
    IncludeChildObjectTypes := TfBool.value false, UniqueAttribute := TfBool.value false,
    RegexValidation := TfString.value regex, QlQuery := TfString.value ql,
    Options := TfString.null, Position := TfInt64.unknown }

/-! ## Lemmas on diagnostics -/

theorem Diagnostics.Append_nil (a : Diagnostics) : Diagnostics.Append a [] = a := rfl

theorem Diagnostics.Append_cons (a : Diagnostics) (d : Diagnostic) (ds : Diagnostics) :
    Diagnostics.Append a (d :: ds) =
      Diagnostics.Append (if Diagnostics.Contains a d then a else a ++ [d]) ds := rfl

theorem Diagnostics.HasError_Append (a b : Diagnostics) :
    Diagnostics.HasError (Diagnostics.Append a b) =
      (Diagnostics.HasError a || Diagnostics.HasError b) := by
  induction b generalizing a with
  | nil => simp [Diagnostics.Append_nil, Diagnostics.HasError]
  | cons d ds ih =>
    rw [Diagnostics.Append_cons, ih]
    by_cases hc : Diagnostics.Contains a d = true
    · have hmem : d ∈ a := by simpa [Diagnostics.Contains] using hc
      simp only [hc, if_true]
      by_cases hd : d.Severity = Severity.Error
      · have ha : Diagnostics.HasError a = true := by
          simp only [Diagnostics.HasError, List.any_eq_true, decide_eq_true_eq]
          exact ⟨d, hmem, hd⟩
        simp [ha]
      · simp [Diagnostics.HasError, hd]
    · simp only [hc, Bool.false_eq_true, if_false]
      simp [Diagnostics.HasError, Bool.or_assoc]

theorem Diagnostics.not_mem_of_HasError_false (a : Diagnostics) (summary detail : String)
    (h : Diagnostics.HasError a = false) : NewErrorDiagnostic summary detail ∉ a := by
  intro hmem
  have : Diagnostics.HasError a = true := by
    simp only [Diagnostics.HasError, List.any_eq_true, decide_eq_true_eq]
    exact ⟨_, hmem, rfl⟩
  rw [h] at this
  exact Bool.false_ne_true this

theorem Diagnostics.AddError_of_HasError_false (a : Diagnostics) (summary detail : String)
    (h : Diagnostics.HasError a = false) :
    Diagnostics.AddError a summary detail = a ++ [NewErrorDiagnostic summary detail] := by
  have hn := Diagnostics.not_mem_of_HasError_false a summary detail h
  simp [Diagnostics.AddError, Diagnostics.Append_cons, Diagnostics.Append_nil,
    Diagnostics.Contains, hn]

/-! ## Lemmas on the label modifier -/

theorem decodesCleanly_iff (req : StringRequest) (resp : StringResponse) :
    decodesCleanly req resp = true ↔
      Diagnostics.HasError resp.Diagnostics = false ∧
      Diagnostics.HasError req.Plan.diags = false ∧
      Diagnostics.HasError req.State.diags = false := by
  simp [decodesCleanly, tfsdkData.Get, and_assoc]

theorem HasError_decodedDiagnostics (req : StringRequest) (resp : StringResponse)
    (hdec : decodesCleanly req resp = true) :
    Diagnostics.HasError (decodedDiagnostics req resp) = false := by
  obtain ⟨h0, h1, h2⟩ := (decodesCleanly_iff req resp).1 hdec
  simp [decodedDiagnostics, tfsdkData.Get, Diagnostics.HasError_Append, h0, h1, h2]

theorem labelScan_filter_nil (elements : List objectAttributeModel) (init : String)
    (h : elements.filter (fun x => x.ObjectTypeAttributeLabel.ValueBool) = []) :
    elements.foldl
      (fun id element =>
        if element.ObjectTypeAttributeLabel.ValueBool then
          element.ObjectTypeAttributeId.ValueString
        else id) init = init := by
  induction elements generalizing init with
  | nil => rfl
  | cons x xs ih =>
    by_cases hx : x.ObjectTypeAttributeLabel.ValueBool = true
    · simp [List.filter, hx] at h
    · have hx2 : x.ObjectTypeAttributeLabel.ValueBool = false := by simpa using hx
      simp only [List.filter, hx2] at h
      simp only [List.foldl_cons, hx2, Bool.false_eq_true, if_false]
      exact ih init h

theorem labelScan_getLast (elements : List objectAttributeModel) (init : String) :
    elements.foldl
      (fun id element =>
        if element.ObjectTypeAttributeLabel.ValueBool then
          element.ObjectTypeAttributeId.ValueString
        else id) init =
      (((elements.filter (fun x => x.ObjectTypeAttributeLabel.ValueBool)).getLast?).map
        (fun e => e.ObjectTypeAttributeId.ValueString)).getD init := by
  induction elements generalizing init with
  | nil => rfl
  | cons x xs ih =>
    by_cases hx : x.ObjectTypeAttributeLabel.ValueBool = true
    · simp only [List.foldl_cons, hx, if_true, List.filter_cons_of_pos, ih, List.getLast?_cons]
      cases (List.filter (fun x => x.ObjectTypeAttributeLabel.ValueBool) xs).getLast? <;> rfl
    · have hx2 : x.ObjectTypeAttributeLabel.ValueBool = false := by simpa using hx
      simp only [List.foldl_cons, hx2, Bool.false_eq_true, if_false, ih]
      rw [List.filter_cons_of_neg (by simp [hx2])]

theorem labelAttributeId_of_last (elements : List objectAttributeModel)
    (e : objectAttributeModel)
    (h : (elements.filter (fun x => x.ObjectTypeAttributeLabel.ValueBool)).getLast? = some e) :
    labelAttributeId elements = e.ObjectTypeAttributeId.ValueString := by
  unfold labelAttributeId
  rw [labelScan_getLast, h]
  rfl

theorem labelAttributeId_of_none (elements : List objectAttributeModel)
    (h : ∀ x ∈ elements, x.ObjectTypeAttributeLabel.ValueBool = false) :
    labelAttributeId elements = "0" := by
  unfold labelAttributeId
  apply labelScan_filter_nil
  simpa [List.filter_eq_nil_iff] using h

theorem labelFromAttributesIn_first (id : String) (l : List objectAttributeInModel)
    (resp : StringResponse) (att : objectAttributeInModel)
    (h : l.find? (fun a => decide (a.ObjectTypeAttributeId.ValueString = id)) = some att) :
    labelFromAttributesIn id l resp =
      if att.ObjectAttributeValuesIn.length > 1 then
        some { resp with Diagnostics := (Diagnostics.AddError resp.Diagnostics
                "Error in object attribute for the label."
                "Only one value expected for the label attribute.") }
      else
        match att.ObjectAttributeValuesIn with
        | v :: _ => some { resp with PlanValue := v.Value }
        | [] => none := by
  induction l with
  | nil => simp at h
  | cons a rest ih =>
    by_cases ha : a.ObjectTypeAttributeId.ValueString = id
    · have : a = att := by simpa [List.find?, ha] using h
      subst this
      simp only [labelFromAttributesIn, ha, if_true]
    · have : rest.find? (fun a => decide (a.ObjectTypeAttributeId.ValueString = id)) = some att := by
        simpa [List.find?, ha] using h
      simp only [labelFromAttributesIn, ha, if_false]
      exact ih this

theorem labelFromAttributesIn_absent (id : String) (l : List objectAttributeInModel)
    (resp : StringResponse)
    (h : ∀ a ∈ l, a.ObjectTypeAttributeId.ValueString ≠ id) :
    labelFromAttributesIn id l resp =
      some { resp with Diagnostics := (Diagnostics.AddError resp.Diagnostics
              "Error in object attribute for the label."
              "Object attribute for the label not found.") } := by
  induction l with
  | nil => rfl
  | cons a rest ih =>
    have ha : a.ObjectTypeAttributeId.ValueString ≠ id := h a (List.mem_cons_self _ _)
    simp only [labelFromAttributesIn, ha, if_false]
    exact ih (fun b hb => h b (List.mem_cons_of_mem _ hb))

theorem syncLabel_eval (req : StringRequest) (resp : StringResponse)
    (elements : List objectAttributeModel)
    (hdec : decodesCleanly req resp = true)
    (hlabel : req.StateValue.IsNull = false)
    (hattrs : req.State.Raw.Attributes = TfSet.value elements) :
    syncLabelPlanModifier.PlanModifyString req resp =
      if labelAttributeId elements = "0" then
        some ⟨resp.PlanValue, decodedDiagnostics req resp ++ [labelNotInSchemaError]⟩
      else
        labelFromAttributesIn (labelAttributeId elements) req.Plan.Raw.AttributesIn
          ⟨resp.PlanValue, decodedDiagnostics req resp⟩ := by
  have hfin := HasError_decodedDiagnostics req resp hdec
  obtain ⟨h0, h1, h2⟩ := (decodesCleanly_iff req resp).1 hdec
  have hmid : Diagnostics.HasError (Diagnostics.Append resp.Diagnostics req.Plan.diags) = false := by
    simp [Diagnostics.HasError_Append, h0, h1]
  have hadd := Diagnostics.AddError_of_HasError_false (decodedDiagnostics req resp)
    "Error in object attribute for the label."
    "Object attribute for the label not found in the object schema." hfin
  simp only [decodedDiagnostics, tfsdkData.Get] at hfin hadd ⊢
  simp only [syncLabelPlanModifier.PlanModifyString, tfsdkData.Get, hmid, hfin, hlabel, hattrs,
    TfSet.IsNull, TfSet.ElementsAs, Bool.false_eq_true, if_false, Bool.not_false, if_true, hadd,
    labelNotInSchemaError]

/-! ## Avatar resolution -/

theorem syncAvatar_PlanValue (req : StringRequest) (resp : StringResponse)
    (hdec : decodesCleanly req resp = true) :
    (syncAvatarPlanModifier.PlanModifyString req resp).PlanValue =
      if req.StateValue.IsNull = true then TfString.unknown
      else if avatarIdentity req.Plan.Raw.Avatar ≠ avatarIdentity req.State.Raw.Avatar then
        TfString.unknown
      else req.StateValue := by
  have hfin := HasError_decodedDiagnostics req resp hdec
  obtain ⟨h0, h1, h2⟩ := (decodesCleanly_iff req resp).1 hdec
  have hmid :
      Diagnostics.HasError (Diagnostics.Append resp.Diagnostics req.Plan.diags) = false := by
    simp [Diagnostics.HasError_Append, h0, h1]
  simp only [decodedDiagnostics, tfsdkData.Get] at hfin
  simp only [syncAvatarPlanModifier.PlanModifyString, tfsdkData.Get, hmid, hfin,
    Bool.false_eq_true, if_false]
  by_cases hnull : req.StateValue.IsNull = true
  · simp [hnull]
  · have hn : req.StateValue.IsNull = false := by simpa using hnull
    simp only [hn, Bool.not_false, if_true, Bool.false_eq_true, if_false]
    have hs : (match req.State.Raw.Avatar with
        | TfObject.value avatarState => avatarState.AvatarUuid.ValueString
        | _ => "") = avatarIdentity req.State.Raw.Avatar := by
      unfold avatarIdentity; cases req.State.Raw.Avatar <;> rfl
    have hp : (match req.Plan.Raw.Avatar with
        | TfObject.value avatarPlan => avatarPlan.AvatarUuid.ValueString
        | _ => "") = avatarIdentity req.Plan.Raw.Avatar := by
      unfold avatarIdentity; cases req.Plan.Raw.Avatar <;> rfl
    rw [hs, hp]
    by_cases hne : avatarIdentity req.Plan.Raw.Avatar = avatarIdentity req.State.Raw.Avatar
    · simp [hne]
    · simp [hne]

/-! ## Label resolution -/

/-- C1 (amended). Label invariant: when the response and both decodings are free of errors,
the prior label is non-null, the prior state's structured attributes contain exactly one
attribute carrying the label flag, its id `i` is not the sentinel `"0"`, and the first entry
of `attributes_in` with id `i` carries exactly one value `v`, then
`syncLabelPlanModifier.PlanModifyString` returns with the planned label set to `v` verbatim
and with no error diagnostic. -/
theorem syncLabel_single_value (req : StringRequest) (resp : StringResponse)
    (elements : List objectAttributeModel) (e : objectAttributeModel)
    (att : objectAttributeInModel) (v : TfString)
    (hdec : decodesCleanly req resp = true)
    (hlabel : req.StateValue.IsNull = false)
    (hattrs : req.State.Raw.Attributes = TfSet.value elements)
    (hone : elements.filter (fun x => x.ObjectTypeAttributeLabel.ValueBool) = [e])
    (hid : e.ObjectTypeAttributeId.ValueString ≠ "0")
    (hfirst : req.Plan.Raw.AttributesIn.find?
      (fun a => decide (a.ObjectTypeAttributeId.ValueString =
        e.ObjectTypeAttributeId.ValueString)) = some att)
    (hval : att.ObjectAttributeValuesIn = [{ Value := v }]) :
    syncLabelPlanModifier.PlanModifyString req resp =
        some { PlanValue := v, Diagnostics := decodedDiagnostics req resp } ∧
      Diagnostics.HasError (decodedDiagnostics req resp) = false := by
  have hlast : (elements.filter (fun x => x.ObjectTypeAttributeLabel.ValueBool)).getLast? =
      some e := by rw [hone]; rfl
  have hidx := labelAttributeId_of_last elements e hlast
  refine ⟨?_, HasError_decodedDiagnostics req resp hdec⟩
  rw [syncLabel_eval req resp elements hdec hlabel hattrs, hidx, if_neg hid,
    labelFromAttributesIn_first _ _ _ att hfirst, hval]
  simp

/-- C1 witness: the scenario of the specification. Prior attribute of id `10` with the label
flag, declared `attributes_in` entry `10` with the value `Server A`: the planned label is
`Server A` and there is no diagnostic. -/
theorem syncLabel_single_value_witness :
    syncLabelPlanModifier.PlanModifyString
        (labelRequest (sampleState (TfSet.value [sampleAttribute "10" true]) TfObject.null)
          (samplePlan [sampleAttributeIn "10" ["Server A"]] TfObject.null))
        { PlanValue := TfString.unknown, Diagnostics := [] } =
      some { PlanValue := TfString.value "Server A", Diagnostics := [] } :=
  (syncLabel_single_value
    (labelRequest (sampleState (TfSet.value [sampleAttribute "10" true]) TfObject.null)
      (samplePlan [sampleAttributeIn "10" ["Server A"]] TfObject.null))
    { PlanValue := TfString.unknown, Diagnostics := [] }
    [sampleAttribute "10" true] (sampleAttribute "10" true)
    (sampleAttributeIn "10" ["Server A"]) (TfString.value "Server A")
    (by decide) (by decide) rfl (by decide) (by decide) (by decide) rfl).1

/-- C1 counterexample. (1) The prior state has exactly one flagged attribute, of id `0`,
and `attributes_in` has the entry `0` with the single value `Server A`: the modifier adds
the error of lines 123-126 and leaves the planned label unknown. (2) The flagged attribute
has id `10` and `attributes_in` has an entry `10` with the single value `Server A`, after
another entry `10` with two values: the modifier adds the error of lines 133-136. -/
theorem label_invariant_counterexample :
    syncLabelPlanModifier.PlanModifyString
        (labelRequest (sampleState (TfSet.value [sampleAttribute "0" true]) TfObject.null)
          (samplePlan [sampleAttributeIn "0" ["Server A"]] TfObject.null))
        { PlanValue := TfString.unknown, Diagnostics := [] } =
      some { PlanValue := TfString.unknown, Diagnostics := [labelNotInSchemaError] } ∧
    syncLabelPlanModifier.PlanModifyString
        (labelRequest (sampleState (TfSet.value [sampleAttribute "10" true]) TfObject.null)
          (samplePlan [sampleAttributeIn "10" ["A", "B"], sampleAttributeIn "10" ["Server A"]]
            TfObject.null))
        { PlanValue := TfString.unknown, Diagnostics := [] } =
      some { PlanValue := TfString.unknown, Diagnostics := [labelMultipleValuesError] } := by
  constructor <;> decide

/-- C2 (amended). Label violation: when the response and both decodings are free of errors,
the prior label is non-null, the label-source attribute of the prior state (the last one
carrying the label flag) has an id `i` other than the sentinel `"0"`, and the first entry of
`attributes_in` with id `i` carries more than one value, then
`syncLabelPlanModifier.PlanModifyString` adds exactly the error "Only one value expected for
the label attribute." and leaves the planned value of the response as it was. -/
theorem syncLabel_multiple_values (req : StringRequest) (resp : StringResponse)
    (elements : List objectAttributeModel) (e : objectAttributeModel)
    (att : objectAttributeInModel)
    (hdec : decodesCleanly req resp = true)
    (hlabel : req.StateValue.IsNull = false)
    (hattrs : req.State.Raw.Attributes = TfSet.value elements)
    (hlast : (elements.filter (fun x => x.ObjectTypeAttributeLabel.ValueBool)).getLast? =
      some e)
    (hid : e.ObjectTypeAttributeId.ValueString ≠ "0")
    (hfirst : req.Plan.Raw.AttributesIn.find?
      (fun a => decide (a.ObjectTypeAttributeId.ValueString =
        e.ObjectTypeAttributeId.ValueString)) = some att)
    (hmany : att.ObjectAttributeValuesIn.length > 1) :
    syncLabelPlanModifier.PlanModifyString req resp =
      some { PlanValue := resp.PlanValue,
             Diagnostics := decodedDiagnostics req resp ++ [labelMultipleValuesError] } := by
  have hidx := labelAttributeId_of_last elements e hlast
  have hfin := HasError_decodedDiagnostics req resp hdec
  rw [syncLabel_eval req resp elements hdec hlabel hattrs, hidx, if_neg hid,
    labelFromAttributesIn_first _ _ _ att hfirst, if_pos hmany,
    Diagnostics.AddError_of_HasError_false _ _ _ hfin]
  rfl

/-- C2 witness: prior attribute `10` with the label flag, declared entry `10` with the two
values `A` and `B`. -/
theorem syncLabel_multiple_values_witness :
    syncLabelPlanModifier.PlanModifyString
        (labelRequest (sampleState (TfSet.value [sampleAttribute "10" true]) TfObject.null)
          (samplePlan [sampleAttributeIn "10" ["A", "B"]] TfObject.null))
        { PlanValue := TfString.unknown, Diagnostics := [] } =
      some { PlanValue := TfString.unknown, Diagnostics := [labelMultipleValuesError] } :=
  syncLabel_multiple_values
    (labelRequest (sampleState (TfSet.value [sampleAttribute "10" true]) TfObject.null)
      (samplePlan [sampleAttributeIn "10" ["A", "B"]] TfObject.null))
    { PlanValue := TfString.unknown, Diagnostics := [] }
    [sampleAttribute "10" true] (sampleAttribute "10" true)
    (sampleAttributeIn "10" ["A", "B"])
    (by decide) (by decide) rfl (by decide) (by decide) (by decide) (by decide)

/-- C2 counterexample. The declared entry for the label attribute carries the two values `A`
and `B` in each case. (1) The label-source attribute has id `0`: the error added is the one
of lines 123-126, not "Only one value expected for the label attribute.". (2) The prior
label is null: the planned value is set to unknown and no diagnostic is added. (3) An entry
for the same id with the single value `X` comes first: the planned label is `X` and no
diagnostic is added. -/
theorem label_violation_counterexample :
    syncLabelPlanModifier.PlanModifyString
        (labelRequest (sampleState (TfSet.value [sampleAttribute "0" true]) TfObject.null)
          (samplePlan [sampleAttributeIn "0" ["A", "B"]] TfObject.null))
        { PlanValue := TfString.unknown, Diagnostics := [] } =
      some { PlanValue := TfString.unknown, Diagnostics := [labelNotInSchemaError] } ∧
    syncLabelPlanModifier.PlanModifyString
        (labelRequest
          { sampleState (TfSet.value [sampleAttribute "10" true]) TfObject.null with
            Label := TfString.null }
          (samplePlan [sampleAttributeIn "10" ["A", "B"]] TfObject.null))
        { PlanValue := TfString.value "kept", Diagnostics := [] } =
      some { PlanValue := TfString.unknown, Diagnostics := [] } ∧
    syncLabelPlanModifier.PlanModifyString
        (labelRequest (sampleState (TfSet.value [sampleAttribute "10" true]) TfObject.null)
          (samplePlan [sampleAttributeIn "10" ["X"], sampleAttributeIn "10" ["A", "B"]]
            TfObject.null))
        { PlanValue := TfString.unknown, Diagnostics := [] } =
      some { PlanValue := TfString.value "X", Diagnostics := [] } := by
  refine ⟨?_, ?_, ?_⟩ <;> decide

/-- C3 (amended). When the response and both decodings are free of errors and the prior
label is non-null: if the structured attributes of the prior state are a known set (empty
or not) in which no attribute carries the label flag, `syncLabelPlanModifier.PlanModifyString`
adds exactly the error "Object attribute for the label not found in the object schema." and
leaves the planned value as it was; if the attribute set is null, the modifier returns with
neither a diagnostic nor a planned value of its own. -/
theorem syncLabel_no_label_attribute (req : StringRequest) (resp : StringResponse)
    (hdec : decodesCleanly req resp = true)
    (hlabel : req.StateValue.IsNull = false) :
    (∀ elements : List objectAttributeModel,
      req.State.Raw.Attributes = TfSet.value elements →
      (∀ x ∈ elements, x.ObjectTypeAttributeLabel.ValueBool = false) →
      syncLabelPlanModifier.PlanModifyString req resp =
        some { PlanValue := resp.PlanValue,
               Diagnostics := decodedDiagnostics req resp ++ [labelNotInSchemaError] }) ∧
    (req.State.Raw.Attributes = TfSet.null →
      syncLabelPlanModifier.PlanModifyString req resp =
        some { PlanValue := resp.PlanValue, Diagnostics := decodedDiagnostics req resp }) := by
  constructor
  · intro elements hattrs hnone
    rw [syncLabel_eval req resp elements hdec hlabel hattrs,
      if_pos (labelAttributeId_of_none elements hnone)]
  · intro hnull
    have hfin := HasError_decodedDiagnostics req resp hdec
    obtain ⟨h0, h1, h2⟩ := (decodesCleanly_iff req resp).1 hdec
    have hmid :
        Diagnostics.HasError (Diagnostics.Append resp.Diagnostics req.Plan.diags) = false := by
      simp [Diagnostics.HasError_Append, h0, h1]
    simp only [decodedDiagnostics, tfsdkData.Get] at hfin ⊢
    simp only [syncLabelPlanModifier.PlanModifyString, tfsdkData.Get, hmid, hfin, hlabel, hnull,
      TfSet.IsNull, Bool.false_eq_true, if_false, Bool.not_false, if_true]

/-- C3 witness: a prior state whose only structured attribute does not carry the label
flag. -/
theorem syncLabel_no_label_attribute_witness :
    syncLabelPlanModifier.PlanModifyString
        (labelRequest (sampleState (TfSet.value [sampleAttribute "10" false]) TfObject.null)
          (samplePlan [sampleAttributeIn "10" ["Server A"]] TfObject.null))
        { PlanValue := TfString.unknown, Diagnostics := [] } =
      some { PlanValue := TfString.unknown, Diagnostics := [labelNotInSchemaError] } :=
  (syncLabel_no_label_attribute
    (labelRequest (sampleState (TfSet.value [sampleAttribute "10" false]) TfObject.null)
      (samplePlan [sampleAttributeIn "10" ["Server A"]] TfObject.null))
    { PlanValue := TfString.unknown, Diagnostics := [] }
    (by decide) (by decide)).1 [sampleAttribute "10" false] rfl (by decide)

/-- C3 counterexample: the prior label is non-null and the attribute set of the prior state
is null. The modifier returns without any diagnostic. -/
theorem label_missing_in_state_counterexample :
    syncLabelPlanModifier.PlanModifyString
        (labelRequest (sampleState TfSet.null TfObject.null)
          (samplePlan [sampleAttributeIn "10" ["Server A"]] TfObject.null))
        { PlanValue := TfString.unknown, Diagnostics := [] } =
      some { PlanValue := TfString.unknown, Diagnostics := [] } := by
  decide

/-- C4 (amended). When the response and both decodings are free of errors, the prior label
is non-null, the label-source attribute of the prior state (the last one carrying the label
flag) has an id `i` other than the sentinel `"0"`, and no entry of `attributes_in` has id
`i`, then `syncLabelPlanModifier.PlanModifyString` adds exactly the error "Object attribute
for the label not found." and leaves the planned value of the response as it was. -/
theorem syncLabel_not_declared (req : StringRequest) (resp : StringResponse)
    (elements : List objectAttributeModel) (e : objectAttributeModel)
    (hdec : decodesCleanly req resp = true)
    (hlabel : req.StateValue.IsNull = false)
    (hattrs : req.State.Raw.Attributes = TfSet.value elements)
    (hlast : (elements.filter (fun x => x.ObjectTypeAttributeLabel.ValueBool)).getLast? =
      some e)
    (hid : e.ObjectTypeAttributeId.ValueString ≠ "0")
    (habsent : ∀ a ∈ req.Plan.Raw.AttributesIn,
      a.ObjectTypeAttributeId.ValueString ≠ e.ObjectTypeAttributeId.ValueString) :
    syncLabelPlanModifier.PlanModifyString req resp =
      some { PlanValue := resp.PlanValue,
             Diagnostics := decodedDiagnostics req resp ++ [labelNotDeclaredError] } := by
  have hidx := labelAttributeId_of_last elements e hlast
  have hfin := HasError_decodedDiagnostics req resp hdec
  rw [syncLabel_eval req resp elements hdec hlabel hattrs, hidx, if_neg hid,
    labelFromAttributesIn_absent _ _ _ habsent,
    Diagnostics.AddError_of_HasError_false _ _ _ hfin]
  rfl

/-- C4 witness: prior attribute `10` with the label flag, and a plan that declares only the
attribute `11`. -/
theorem syncLabel_not_declared_witness :
    syncLabelPlanModifier.PlanModifyString
        (labelRequest (sampleState (TfSet.value [sampleAttribute "10" true]) TfObject.null)
          (samplePlan [sampleAttributeIn "11" ["x"]] TfObject.null))
        { PlanValue := TfString.unknown, Diagnostics := [] } =
      some { PlanValue := TfString.unknown, Diagnostics := [labelNotDeclaredError] } :=
  syncLabel_not_declared
    (labelRequest (sampleState (TfSet.value [sampleAttribute "10" true]) TfObject.null)
      (samplePlan [sampleAttributeIn "11" ["x"]] TfObject.null))
    { PlanValue := TfString.unknown, Diagnostics := [] }
    [sampleAttribute "10" true] (sampleAttribute "10" true)
    (by decide) (by decide) rfl (by decide) (by decide) (by decide)

/-- C4 counterexample. The plan declares only the attribute `11` in each case. (1) The
label-source attribute has id `0`: the error added is "Object attribute for the label not
found in the object schema.", not "Object attribute for the label not found.". (2) The
label-source attribute has id `10` and the prior label is null: the planned value is set to
unknown and no diagnostic is added. -/
theorem label_not_declared_counterexample :
    syncLabelPlanModifier.PlanModifyString
        (labelRequest (sampleState (TfSet.value [sampleAttribute "0" true]) TfObject.null)
          (samplePlan [sampleAttributeIn "11" ["x"]] TfObject.null))
        { PlanValue := TfString.unknown, Diagnostics := [] } =
      some { PlanValue := TfString.unknown, Diagnostics := [labelNotInSchemaError] } ∧
    labelNotInSchemaError ≠ labelNotDeclaredError ∧
    syncLabelPlanModifier.PlanModifyString
        (labelRequest
          { sampleState (TfSet.value [sampleAttribute "10" true]) TfObject.null with
            Label := TfString.null }
          (samplePlan [sampleAttributeIn "11" ["x"]] TfObject.null))
        { PlanValue := TfString.value "kept", Diagnostics := [] } =
      some { PlanValue := TfString.unknown, Diagnostics := [] } := by
  refine ⟨?_, ?_, ?_⟩ <;> decide

theorem FillInformationsForObject_avatar_full (v : setValidation)
    (object : objectResourceModel) (assetsObject : ObjectScheme) (a : avatarModel)
    (hav : (FillInformationsForObject v object assetsObject).2.Avatar = TfObject.value a) :
    ∀ f, (a.get f).IsNull = false := by
  unfold FillInformationsForObject at hav
  simp only at hav
  have hval : (match assetsObject.Avatar with
      | some w =>
        TfObject.value
          { WorkspaceId := TfString.value w.WorkspaceId,
            GlobalId := TfString.value w.GlobalId,
            Id := TfString.value w.AvatarUUID,
            AvatarUuid := TfString.value w.AvatarUUID,
            Url16 := TfString.value w.Url16,
            Url48 := TfString.value w.Url48,
            Url72 := TfString.value w.Url72,
            Url144 := TfString.value w.Url144,
            Url288 := TfString.value w.Url288,
            ObjectId := TfString.value w.ObjectId }
      | none => (TfObject.null : TfObject avatarModel)) = TfObject.value a := by
    cases hloop : fillAttributes v assetsObject.Attributes [] with
    | error d => rw [hloop] at hav; exact hav
    | ok attributes => rw [hloop] at hav; exact hav
  cases hw : assetsObject.Avatar with
  | none => rw [hw] at hval; cases hval
  | some w =>
    rw [hw] at hval
    have ha := TfObject.value.inj hval
    subst ha
    intro f
    cases f <;> rfl

/-- C5. Avatar atomicity: for every plan and every prior state whose avatar is absent or
has none of its nine modified sub-fields null, which is every avatar that
`FillInformationsForObject` writes to a state, when the response of each call and both
decodings are free of errors, applying `syncAvatarPlanModifier.PlanModifyString` to each
avatar sub-field yields either every sub-field equal to its prior-state value or every
sub-field unknown. -/
theorem syncAvatar_atomic (plan state : tfsdkData) (resp : avatarField → StringResponse)
    (hdec : ∀ f, decodesCleanly (avatarFieldRequest plan state f) (resp f) = true)
    (hfull : ∀ a, state.Raw.Avatar = TfObject.value a → ∀ f, (a.get f).IsNull = false) :
    (∀ f, (syncAvatarPlanModifier.PlanModifyString
        (avatarFieldRequest plan state f) (resp f)).PlanValue =
          avatarFieldValue state.Raw.Avatar f) ∨
    (∀ f, (syncAvatarPlanModifier.PlanModifyString
        (avatarFieldRequest plan state f) (resp f)).PlanValue = TfString.unknown) := by
  by_cases hne : avatarIdentity plan.Raw.Avatar = avatarIdentity state.Raw.Avatar
  · cases hav : state.Raw.Avatar with
    | null =>
      right
      intro f
      rw [syncAvatar_PlanValue _ _ (hdec f)]
      simp [avatarFieldRequest, avatarFieldValue, hav, TfString.IsNull]
    | unknown =>
      right
      intro f
      rw [syncAvatar_PlanValue _ _ (hdec f)]
      simp [avatarFieldRequest, avatarFieldValue, hav, TfString.IsNull]
    | value a =>
      left
      intro f
      rw [syncAvatar_PlanValue _ _ (hdec f)]
      have hf := hfull a hav f
      have hne2 : avatarIdentity plan.Raw.Avatar = avatarIdentity (TfObject.value a) := by
        rw [← hav]; exact hne
      simp [avatarFieldRequest, avatarFieldValue, hav, hf, hne2]
  · right
    intro f
    rw [syncAvatar_PlanValue _ _ (hdec f)]
    simp [avatarFieldRequest, hne]

/-- C5 witness: the prior state is the one `FillInformationsForObject` writes for a remote
object whose avatar has the uuid `u1`, and the plan configures the same `avatar_uuid`; every
sub-field keeps its prior value or every sub-field is unknown. -/
theorem syncAvatar_atomic_witness :
    (∀ f, (syncAvatarPlanModifier.PlanModifyString
        (avatarFieldRequest
          { Raw := samplePlan [] (TfObject.value (sampleAvatarPlan (TfString.value "u1"))),
            diags := [] }
          { Raw := (FillInformationsForObject sampleValidation
              (sampleState TfSet.null TfObject.null)
              { sampleRemoteObject [] with
                  Avatar := some (sampleRemoteAvatar "1" "u1") }).2,
            diags := [] } f)
        { PlanValue := TfString.unknown, Diagnostics := [] }).PlanValue =
          avatarFieldValue (FillInformationsForObject sampleValidation
              (sampleState TfSet.null TfObject.null)
              { sampleRemoteObject [] with
                  Avatar := some (sampleRemoteAvatar "1" "u1") }).2.Avatar f) ∨
    (∀ f, (syncAvatarPlanModifier.PlanModifyString
        (avatarFieldRequest
          { Raw := samplePlan [] (TfObject.value (sampleAvatarPlan (TfString.value "u1"))),
            diags := [] }
          { Raw := (FillInformationsForObject sampleValidation
              (sampleState TfSet.null TfObject.null)
              { sampleRemoteObject [] with
                  Avatar := some (sampleRemoteAvatar "1" "u1") }).2,
            diags := [] } f)
        { PlanValue := TfString.unknown, Diagnostics := [] }).PlanValue = TfString.unknown) :=
  syncAvatar_atomic
    { Raw := samplePlan [] (TfObject.value (sampleAvatarPlan (TfString.value "u1"))),
      diags := [] }
    { Raw := (FillInformationsForObject sampleValidation
        (sampleState TfSet.null TfObject.null)
        { sampleRemoteObject [] with Avatar := some (sampleRemoteAvatar "1" "u1") }).2,
      diags := [] }
    (fun _ => { PlanValue := TfString.unknown, Diagnostics := [] })
    (fun f => by cases f <;> decide)
    (fun a ha f => FillInformationsForObject_avatar_full sampleValidation
      (sampleState TfSet.null TfObject.null)
      { sampleRemoteObject [] with Avatar := some (sampleRemoteAvatar "1" "u1") } a ha f)

/-- C6 (amended). For every prior state and plan whose avatar identities are equal, when the
response and both decodings are free of errors, `syncAvatarPlanModifier.PlanModifyString`
plans every avatar sub-field that has a non-null prior-state value equal to that value, and
plans a sub-field whose prior-state value is null (as below an absent prior avatar)
unknown. -/
theorem syncAvatar_identity_equal (plan state : tfsdkData) (f : avatarField)
    (resp : StringResponse)
    (hdec : decodesCleanly (avatarFieldRequest plan state f) resp = true)
    (heq : avatarIdentity state.Raw.Avatar = avatarIdentity plan.Raw.Avatar) :
    ((avatarFieldValue state.Raw.Avatar f).IsNull = false →
      (syncAvatarPlanModifier.PlanModifyString (avatarFieldRequest plan state f) resp).PlanValue
        = avatarFieldValue state.Raw.Avatar f) ∧
    ((avatarFieldValue state.Raw.Avatar f).IsNull = true →
      (syncAvatarPlanModifier.PlanModifyString (avatarFieldRequest plan state f) resp).PlanValue
        = TfString.unknown) := by
  rw [syncAvatar_PlanValue _ _ hdec]
  constructor
  · intro h
    simp [avatarFieldRequest, h, heq]
  · intro h
    simp [avatarFieldRequest, h]

/-- C6 witness: prior avatar and plan with the same `avatar_uuid` `u1`; the sub-field
`url48` keeps its prior value `u48`. -/
theorem syncAvatar_identity_equal_witness :
    (syncAvatarPlanModifier.PlanModifyString
        (avatarFieldRequest
          { Raw := samplePlan [] (TfObject.value (sampleAvatarPlan (TfString.value "u1"))),
            diags := [] }
          { Raw := sampleState TfSet.null (TfObject.value (sampleAvatar "u1")), diags := [] }
          avatarField.url48)
        { PlanValue := TfString.unknown, Diagnostics := [] }).PlanValue =
      TfString.value "u48" :=
  (syncAvatar_identity_equal
    { Raw := samplePlan [] (TfObject.value (sampleAvatarPlan (TfString.value "u1"))),
      diags := [] }
    { Raw := sampleState TfSet.null (TfObject.value (sampleAvatar "u1")), diags := [] }
    avatarField.url48
    { PlanValue := TfString.unknown, Diagnostics := [] }
    (by decide) (by decide)).1 (by decide)

/-- C6 counterexample: the prior avatar is absent and the plan holds an avatar whose
`avatar_uuid` is unknown, so both identities are the empty string. The prior-state value of
`workspace_id` is null, and the modifier plans it unknown, not equal to the prior value. -/
theorem avatar_identity_equal_counterexample :
    avatarIdentity (TfObject.null : TfObject avatarModel) =
      avatarIdentity (TfObject.value (sampleAvatarPlan TfString.unknown)) ∧
    avatarFieldValue (TfObject.null : TfObject avatarModel) avatarField.workspace_id =
      TfString.null ∧
    (syncAvatarPlanModifier.PlanModifyString
        (avatarFieldRequest
          { Raw := samplePlan [] (TfObject.value (sampleAvatarPlan TfString.unknown)),
            diags := [] }
          { Raw := sampleState TfSet.null TfObject.null, diags := [] }
          avatarField.workspace_id)
        { PlanValue := TfString.unknown, Diagnostics := [] }).PlanValue = TfString.unknown := by
  refine ⟨?_, ?_, ?_⟩ <;> decide

/-- C7. For every prior state and plan whose avatar identities differ, when the response
and both decodings are free of errors, `syncAvatarPlanModifier.PlanModifyString` sets the
planned value of every avatar sub-field it is attached to to unknown. -/
theorem syncAvatar_identity_differs (plan state : tfsdkData) (f : avatarField)
    (resp : StringResponse)
    (hdec : decodesCleanly (avatarFieldRequest plan state f) resp = true)
    (hne : avatarIdentity state.Raw.Avatar ≠ avatarIdentity plan.Raw.Avatar) :
    (syncAvatarPlanModifier.PlanModifyString (avatarFieldRequest plan state f) resp).PlanValue =
      TfString.unknown := by
  rw [syncAvatar_PlanValue _ _ hdec]
  have hne2 : ¬ avatarIdentity plan.Raw.Avatar = avatarIdentity state.Raw.Avatar :=
    fun h => hne h.symm
  simp [avatarFieldRequest, hne2]

/-- C7 witness: prior avatar `u1`, planned `avatar_uuid` `u2`; `url16` is planned unknown. -/
theorem syncAvatar_identity_differs_witness :
    (syncAvatarPlanModifier.PlanModifyString
        (avatarFieldRequest
          { Raw := samplePlan [] (TfObject.value (sampleAvatarPlan (TfString.value "u2"))),
            diags := [] }
          { Raw := sampleState TfSet.null (TfObject.value (sampleAvatar "u1")), diags := [] }
          avatarField.url16)
        { PlanValue := TfString.value "stale", Diagnostics := [] }).PlanValue =
      TfString.unknown :=
  syncAvatar_identity_differs
    { Raw := samplePlan [] (TfObject.value (sampleAvatarPlan (TfString.value "u2"))),
      diags := [] }
    { Raw := sampleState TfSet.null (TfObject.value (sampleAvatar "u1")), diags := [] }
    avatarField.url16
    { PlanValue := TfString.value "stale", Diagnostics := [] }
    (by decide) (by decide)

/-- C8 (amended). When the planned avatar is unknown, or is known with an unknown
`avatar_uuid`, and the response and both decodings are free of errors:
`syncAvatarPlanModifier.PlanModifyString` plans an avatar sub-field unknown if the prior
avatar is absent or has a non-empty `avatar_uuid`; if the prior identity is the empty string
and the sub-field has a non-null prior-state value, the planned value is that prior value. -/
theorem syncAvatar_plan_unknown (plan state : tfsdkData) (f : avatarField)
    (resp : StringResponse)
    (hdec : decodesCleanly (avatarFieldRequest plan state f) resp = true)
    (hunk : plan.Raw.Avatar = TfObject.unknown ∨
      ∃ a, plan.Raw.Avatar = TfObject.value a ∧ a.AvatarUuid = TfString.unknown) :
    ((state.Raw.Avatar = TfObject.null ∨ avatarIdentity state.Raw.Avatar ≠ "") →
      (syncAvatarPlanModifier.PlanModifyString (avatarFieldRequest plan state f) resp).PlanValue
        = TfString.unknown) ∧
    ((avatarIdentity state.Raw.Avatar = "" ∧
        (avatarFieldValue state.Raw.Avatar f).IsNull = false) →
      (syncAvatarPlanModifier.PlanModifyString (avatarFieldRequest plan state f) resp).PlanValue
        = avatarFieldValue state.Raw.Avatar f) := by
  have hplan : avatarIdentity plan.Raw.Avatar = "" := by
    rcases hunk with h | ⟨a, h, hu⟩
    · rw [h]; rfl
    · rw [h]; simp [avatarIdentity, hu, TfString.ValueString]
  rw [syncAvatar_PlanValue _ _ hdec]
  constructor
  · rintro (h | h)
    · simp [avatarFieldRequest, avatarFieldValue, h, TfString.IsNull]
    · have h2 : ¬ "" = avatarIdentity state.Raw.Avatar := fun hh => h hh.symm
      simp [avatarFieldRequest, hplan, h2]
  · rintro ⟨h1, h2⟩
    simp [avatarFieldRequest, hplan, h1, h2]

/-- C8 witness: prior avatar `u1` and an unknown planned avatar; `object_id` is planned
unknown. -/
theorem syncAvatar_plan_unknown_witness :
    (syncAvatarPlanModifier.PlanModifyString
        (avatarFieldRequest
          { Raw := samplePlan [] TfObject.unknown, diags := [] }
          { Raw := sampleState TfSet.null (TfObject.value (sampleAvatar "u1")), diags := [] }
          avatarField.object_id)
        { PlanValue := TfString.unknown, Diagnostics := [] }).PlanValue = TfString.unknown :=
  (syncAvatar_plan_unknown
    { Raw := samplePlan [] TfObject.unknown, diags := [] }
    { Raw := sampleState TfSet.null (TfObject.value (sampleAvatar "u1")), diags := [] }
    avatarField.object_id
    { PlanValue := TfString.unknown, Diagnostics := [] }
    (by decide) (Or.inl rfl)).1 (Or.inr (by decide))

/-- C8 counterexample: the prior avatar is present with the empty string as `avatar_uuid`
and the planned avatar is unknown. The modifier plans `object_id` equal to its prior value
`42`, not unknown. -/
theorem avatar_plan_unknown_counterexample :
    (syncAvatarPlanModifier.PlanModifyString
        (avatarFieldRequest
          { Raw := samplePlan [] TfObject.unknown, diags := [] }
          { Raw := sampleState TfSet.null (TfObject.value (sampleAvatar "")), diags := [] }
          avatarField.object_id)
        { PlanValue := TfString.unknown, Diagnostics := [] }).PlanValue =
      TfString.value "42" := by
  decide

/-! ## Deletion policy -/

/-- C9. Soft delete: for every object state that decodes without error into a response
free of errors, when `features.DestroyObject` is false, `objectResource.Delete` issues
exactly one client call, an `Object.Update` for the state's object id whose attribute
payload is exactly one attribute of id `ObsoleteObjectTypeAttributeId` with the single
value `Obsolete`; it issues no `Object.Delete` call. -/
theorem Delete_soft (r : objectResource) (req : DeleteRequest) (resp : DeleteResponse)
    (hresp : Diagnostics.HasError resp.Diagnostics = false)
    (hstate : Diagnostics.HasError req.State.Get.1 = false)
    (hsoft : r.features.DestroyObject = false) :
    (objectResource.Delete r req resp).2 =
      [ClientCall.ObjectUpdate r.workspace_id req.State.Raw.Id.ValueString
        { ObjectTypeID := req.State.Raw.ObjectTypeId.ValueString,
          AvatarUUID := "",
          HasAvatar := false,
          Attributes :=
            [ { ObjectTypeAttributeID := r.features.ObsoleteObjectTypeAttributeId,
                ObjectAttributeValues := [ { Value := "Obsolete" } ] } ] }] := by
  have hfin : Diagnostics.HasError (Diagnostics.Append resp.Diagnostics req.State.diags)
      = false := by
    have hs : Diagnostics.HasError req.State.diags = false := hstate
    simp [Diagnostics.HasError_Append, hresp, hs]
  simp only [objectResource.Delete, tfsdkData.Get, hfin, hsoft, Bool.false_eq_true, if_false,
    Bool.not_false, if_true]
  cases r.client.ObjectUpdateErr r.workspace_id req.State.Raw.Id.ValueString
    { ObjectTypeID := req.State.Raw.ObjectTypeId.ValueString,
      Attributes :=
        [ { ObjectTypeAttributeID := r.features.ObsoleteObjectTypeAttributeId,
            ObjectAttributeValues := [ { Value := "Obsolete" } ] } ] } <;> rfl

/-- C9 witness: `ObsoleteObjectTypeAttributeId` is `99` and `DestroyObject` is false; the
only call is the update of object `42` with the payload attribute `99` / `Obsolete`. -/
theorem Delete_soft_witness :
    (objectResource.Delete (sampleResource false "99")
        { State := { Raw := sampleState TfSet.null TfObject.null, diags := [] } }
        { Diagnostics := [] }).2 =
      [ClientCall.ObjectUpdate "ws" "42"
        { ObjectTypeID := "7", AvatarUUID := "", HasAvatar := false,
          Attributes :=
            [ { ObjectTypeAttributeID := "99",
                ObjectAttributeValues := [ { Value := "Obsolete" } ] } ] }] :=
  Delete_soft (sampleResource false "99")
    { State := { Raw := sampleState TfSet.null TfObject.null, diags := [] } }
    { Diagnostics := [] } (by decide) (by decide) rfl

/-- C10. Hard delete: for every object state that decodes without error into a response
free of errors, when `features.DestroyObject` is true, `objectResource.Delete` issues
exactly one client call, an `Object.Delete` for the state's object id; it issues no
`Object.Update` call. -/
theorem Delete_hard (r : objectResource) (req : DeleteRequest) (resp : DeleteResponse)
    (hresp : Diagnostics.HasError resp.Diagnostics = false)
    (hstate : Diagnostics.HasError req.State.Get.1 = false)
    (hhard : r.features.DestroyObject = true) :
    (objectResource.Delete r req resp).2 =
      [ClientCall.ObjectDelete r.workspace_id req.State.Raw.Id.ValueString] := by
  have hfin : Diagnostics.HasError (Diagnostics.Append resp.Diagnostics req.State.diags)
      = false := by
    have hs : Diagnostics.HasError req.State.diags = false := hstate
    simp [Diagnostics.HasError_Append, hresp, hs]
  simp only [objectResource.Delete, tfsdkData.Get, hfin, hhard, Bool.false_eq_true, if_false,
    Bool.not_true]
  cases r.client.ObjectDeleteErr r.workspace_id req.State.Raw.Id.ValueString <;> rfl

/-- C10 witness: `DestroyObject` is true; the only call is the deletion of object `42`. -/
theorem Delete_hard_witness :
    (objectResource.Delete (sampleResource true "")
        { State := { Raw := sampleState TfSet.null TfObject.null, diags := [] } }
        { Diagnostics := [] }).2 =
      [ClientCall.ObjectDelete "ws" "42"] :=
  Delete_hard (sampleResource true "")
    { State := { Raw := sampleState TfSet.null TfObject.null, diags := [] } }
    { Diagnostics := [] } (by decide) (by decide) rfl

/-! ## Attribute codec: encoding -/

theorem foldl_append_singleton {α β : Type} (f : α → β) (l : List α) (acc : List β) :
    l.foldl (fun acc x => acc ++ [f x]) acc = acc ++ l.map f := by
  induction l generalizing acc with
  | nil => simp
  | cons x xs ih => simp [List.foldl_cons, ih]

theorem createObjectPayload_diags (object : objectResourceModel)
    (payload : ObjectPayloadScheme) : (createObjectPayload object payload).1 = [] := by
  unfold createObjectPayload
  cases object.Avatar <;> rfl

theorem createObjectPayload_Attributes (object : objectResourceModel)
    (payload : ObjectPayloadScheme) :
    (createObjectPayload object payload).2.Attributes =
      object.AttributesIn.map (fun attr =>
        { ObjectTypeAttributeID := attr.ObjectTypeAttributeId.ValueString,
          ObjectAttributeValues :=
            attr.ObjectAttributeValuesIn.map (fun value =>
              { Value := value.Value.ValueString }) }) := by
  have hinner : ∀ attr : objectAttributeInModel,
      attr.ObjectAttributeValuesIn.foldl
        (fun (values : List ObjectPayloadAttributeValueScheme) value =>
          values ++ [{ Value := value.Value.ValueString }]) [] =
      attr.ObjectAttributeValuesIn.map (fun value =>
        ({ Value := value.Value.ValueString } : ObjectPayloadAttributeValueScheme)) := by
    intro attr
    rw [foldl_append_singleton
      (fun value : objectAttributeValueInModel =>
        ({ Value := value.Value.ValueString } : ObjectPayloadAttributeValueScheme))]
    simp
  unfold createObjectPayload
  simp only [hinner]
  rw [foldl_append_singleton
    (fun attr : objectAttributeInModel =>
      ({ ObjectTypeAttributeID := attr.ObjectTypeAttributeId.ValueString,
         ObjectAttributeValues :=
          attr.ObjectAttributeValuesIn.map (fun value =>
            { Value := value.Value.ValueString }) } : ObjectPayloadAttributeScheme))]
  cases object.Avatar <;> simp

/-- C12. Encode shape: for every object model, the payload attributes that
`createObjectPayload` writes are exactly one payload attribute per entry of `attributes_in`,
in the same order, whose `ObjectTypeAttributeID` is the declared `object_type_attribute_id`
and whose `ObjectAttributeValues` are the declared value strings, one per declared value in
the same order. -/
theorem createObjectPayload_shape (object : objectResourceModel)
    (payload : ObjectPayloadScheme) :
    (createObjectPayload object payload).2.Attributes =
      object.AttributesIn.map (fun attr =>
        { ObjectTypeAttributeID := attr.ObjectTypeAttributeId.ValueString,
          ObjectAttributeValues :=
            attr.ObjectAttributeValuesIn.map (fun value =>
              { Value := value.Value.ValueString }) }) :=
  createObjectPayload_Attributes object payload

/-- C13 (amended). For every object model in which some declared attribute of
`attributes_in` has zero values, `createObjectPayload` returns no diagnostic at all and
produces a payload in which that attribute appears with an empty list of values. -/
theorem createObjectPayload_zero_values (object : objectResourceModel)
    (payload : ObjectPayloadScheme) (attr : objectAttributeInModel)
    (hmem : attr ∈ object.AttributesIn)
    (hzero : attr.ObjectAttributeValuesIn = []) :
    (createObjectPayload object payload).1 = [] ∧
    ({ ObjectTypeAttributeID := attr.ObjectTypeAttributeId.ValueString,
       ObjectAttributeValues := [] } : ObjectPayloadAttributeScheme) ∈
      (createObjectPayload object payload).2.Attributes := by
  refine ⟨createObjectPayload_diags object payload, ?_⟩
  rw [createObjectPayload_Attributes]
  refine List.mem_map.2 ⟨attr, hmem, ?_⟩
  simp [hzero]

/-- C13 witness: the declared attribute `10` has no value; the payload holds the attribute
`10` with an empty list of values. -/
theorem createObjectPayload_zero_values_witness :
    (createObjectPayload (samplePlan [sampleAttributeIn "10" []] TfObject.null) {}).1 = [] ∧
    ({ ObjectTypeAttributeID := "10", ObjectAttributeValues := [] } :
        ObjectPayloadAttributeScheme) ∈
      (createObjectPayload (samplePlan [sampleAttributeIn "10" []] TfObject.null) {}).2.Attributes :=
  createObjectPayload_zero_values (samplePlan [sampleAttributeIn "10" []] TfObject.null) {}
    (sampleAttributeIn "10" []) (by decide) rfl

/-- C13 counterexample: the declared attribute `10` has zero values. `createObjectPayload`
returns an empty list of diagnostics and the payload with the attribute `10`. -/
theorem zero_values_not_rejected_counterexample :
    createObjectPayload (samplePlan [sampleAttributeIn "10" []] TfObject.null) {} =
      ([], { ObjectTypeID := "7", AvatarUUID := "", HasAvatar := false,
             Attributes := [{ ObjectTypeAttributeID := "10", ObjectAttributeValues := [] }] }) := by
  decide

/-- C17 (code bug). The prior state has the label attribute `10` and the plan declares the
attribute `10` with zero values: `syncLabelPlanModifier.PlanModifyString` reaches
`ObjectAttributeValuesIn[0]` on an empty slice and panics instead of returning. -/
theorem syncLabel_zero_values_panics :
    syncLabelPlanModifier.PlanModifyString
        (labelRequest (sampleState (TfSet.value [sampleAttribute "10" true]) TfObject.null)
          (samplePlan [sampleAttributeIn "10" []] TfObject.null))
        { PlanValue := TfString.unknown, Diagnostics := [] } = none := by
  decide

/-- C18. The soft-delete payload: when `features.DestroyObject` is false and the state
decodes without error into a response free of errors, the payload of the single
`Object.Update` call of `objectResource.Delete` is the payload `createObjectPayload` writes
into an empty payload for any object whose `attributes_in` is the single attribute of id
`ObsoleteObjectTypeAttributeId` with the single value `Obsolete`, whose `object_type_id` is
the state's, whose avatar is null and whose `has_avatar` is null. -/
theorem Delete_soft_payload_encoded (r : objectResource) (req : DeleteRequest)
    (resp : DeleteResponse) (object : objectResourceModel)
    (hresp : Diagnostics.HasError resp.Diagnostics = false)
    (hstate : Diagnostics.HasError req.State.Get.1 = false)
    (hsoft : r.features.DestroyObject = false)
    (hin : object.AttributesIn =
      [{ ObjectTypeAttributeId := TfString.value r.features.ObsoleteObjectTypeAttributeId,
         ObjectAttributeValuesIn := [{ Value := TfString.value "Obsolete" }] }])
    (htype : object.ObjectTypeId = req.State.Raw.ObjectTypeId)
    (havatar : object.Avatar = TfObject.null)
    (hhas : object.HasAvatar = TfBool.null) :
    (objectResource.Delete r req resp).2 =
      [ClientCall.ObjectUpdate r.workspace_id req.State.Raw.Id.ValueString
        (createObjectPayload object {}).2] := by
  have hfin : Diagnostics.HasError (Diagnostics.Append resp.Diagnostics req.State.diags)
      = false := by
    have hs : Diagnostics.HasError req.State.diags = false := hstate
    simp [Diagnostics.HasError_Append, hresp, hs]
  have hpay : (createObjectPayload object {}).2 =
      { ObjectTypeID := req.State.Raw.ObjectTypeId.ValueString,
        Attributes :=
          [ { ObjectTypeAttributeID := r.features.ObsoleteObjectTypeAttributeId,
              ObjectAttributeValues := [ { Value := "Obsolete" } ] } ] } := by
    simp [createObjectPayload, hin, htype, havatar, hhas, TfString.ValueString,
      TfBool.ValueBool]
  rw [hpay]
  simp only [objectResource.Delete, tfsdkData.Get, hfin, hsoft, Bool.false_eq_true, if_false,
    Bool.not_false, if_true]
  cases r.client.ObjectUpdateErr r.workspace_id req.State.Raw.Id.ValueString
    { ObjectTypeID := req.State.Raw.ObjectTypeId.ValueString,
      Attributes :=
        [ { ObjectTypeAttributeID := r.features.ObsoleteObjectTypeAttributeId,
            ObjectAttributeValues := [ { Value := "Obsolete" } ] } ] } <;> rfl

/-- C18 witness: `ObsoleteObjectTypeAttributeId` is `99`; the synthesized object declares
the attribute `99` with the value `Obsolete` and has the object type `7` of the state. -/
theorem Delete_soft_payload_encoded_witness :
    (objectResource.Delete (sampleResource false "99")
        { State := { Raw := sampleState TfSet.null TfObject.null, diags := [] } }
        { Diagnostics := [] }).2 =
      [ClientCall.ObjectUpdate "ws" "42"
        (createObjectPayload
          { samplePlan [sampleAttributeIn "99" ["Obsolete"]] TfObject.null with
            HasAvatar := TfBool.null } {}).2] :=
  Delete_soft_payload_encoded (sampleResource false "99")
    { State := { Raw := sampleState TfSet.null TfObject.null, diags := [] } }
    { Diagnostics := [] }
    { samplePlan [sampleAttributeIn "99" ["Obsolete"]] TfObject.null with
      HasAvatar := TfBool.null }
    (by decide) (by decide) rfl rfl rfl rfl rfl

/-! ## Attribute codec: decoding -/

theorem SetValueFrom_ElementsAs {α : Type} (validate : List α → Diagnostics) (l : List α)
    (h : Diagnostics.HasError (validate l) = false) :
    (SetValueFrom validate l).1.ElementsAs = l := by
  unfold SetValueFrom
  simp only [h, Bool.false_eq_true, if_false]
  cases l <;> rfl

theorem SetValueFrom_diags {α : Type} (validate : List α → Diagnostics) (l : List α) :
    (SetValueFrom validate l).2 = validate l := by
  unfold SetValueFrom
  by_cases h : Diagnostics.HasError (validate l) = true
  · simp [h]
  · simp only [h, if_false]
    cases l <;> rfl

theorem fillAttributes_error (v : setValidation) (l : List ObjectAttributeScheme)
    (acc : List objectAttributeModel) (d : Diagnostics)
    (h : fillAttributes v l acc = Except.error d) : Diagnostics.HasError d = true := by
  induction l generalizing acc with
  | nil => simp [fillAttributes] at h
  | cons att rest ih =>
    unfold fillAttributes at h
    simp only at h
    by_cases he : Diagnostics.HasError (SetValueFrom v.attributeValues
        (att.ObjectAttributeValues.foldl
          (fun values value => values ++ [fillAttributeValue value]) [])).2 = true
    · simp only [he, if_true] at h
      cases h
      exact he
    · simp only [he, if_false] at h
      exact ih _ h

theorem fillAttributes_ok (v : setValidation) (l : List ObjectAttributeScheme)
    (acc res : List objectAttributeModel)
    (h : fillAttributes v l acc = Except.ok res) :
    res.map structuredAttributeView =
      acc.map structuredAttributeView ++ l.map returnedAttributeView := by
  induction l generalizing acc with
  | nil =>
    simp only [fillAttributes] at h
    cases h
    simp
  | cons att rest ih =>
    unfold fillAttributes at h
    simp only at h
    have hvals : att.ObjectAttributeValues.foldl
        (fun values value => values ++ [fillAttributeValue value]) [] =
        att.ObjectAttributeValues.map fillAttributeValue := by
      rw [foldl_append_singleton fillAttributeValue]; simp
    rw [hvals] at h
    by_cases he : Diagnostics.HasError (SetValueFrom v.attributeValues
        (att.ObjectAttributeValues.map fillAttributeValue)).2 = true
    · simp [he] at h
    · simp only [he, if_false] at h
      have hv : Diagnostics.HasError
          (v.attributeValues (att.ObjectAttributeValues.map fillAttributeValue)) = false := by
        rw [SetValueFrom_diags] at he
        simpa using he
      have hview := ih _ h
      rw [hview]
      simp [structuredAttributeView, returnedAttributeView, SetValueFrom_ElementsAs _ _ hv]

theorem FillInformationsForObject_attributes (v : setValidation)
    (object : objectResourceModel) (assetsObject : ObjectScheme)
    (hok : Diagnostics.HasError (FillInformationsForObject v object assetsObject).1 = false) :
    (FillInformationsForObject v object assetsObject).2.Attributes.ElementsAs.map
        structuredAttributeView =
      assetsObject.Attributes.map returnedAttributeView := by
  unfold FillInformationsForObject at hok ⊢
  simp only at hok ⊢
  cases hloop : fillAttributes v assetsObject.Attributes [] with
  | error d =>
    rw [hloop] at hok
    simp only at hok
    rw [fillAttributes_error v _ _ d hloop] at hok
    exact absurd hok (by simp)
  | ok attributes =>
    rw [hloop] at hok
    simp only at hok ⊢
    rw [SetValueFrom_diags] at hok
    rw [SetValueFrom_ElementsAs _ _ hok]
    simpa using fillAttributes_ok v _ [] attributes hloop

theorem fillAttributes_total (v : setValidation) (l : List ObjectAttributeScheme)
    (acc : List objectAttributeModel)
    (hv : ∀ values, Diagnostics.HasError (v.attributeValues values) = false) :
    ∃ res, fillAttributes v l acc = Except.ok res := by
  induction l generalizing acc with
  | nil => exact ⟨acc, rfl⟩
  | cons att rest ih =>
    unfold fillAttributes
    simp only [SetValueFrom_diags, hv, Bool.false_eq_true, if_false]
    exact ih _

theorem FillInformationsForObject_no_error (v : setValidation)
    (object : objectResourceModel) (assetsObject : ObjectScheme)
    (hv : ∀ values, Diagnostics.HasError (v.attributeValues values) = false)
    (ha : ∀ attributes, Diagnostics.HasError (v.attributes attributes) = false) :
    Diagnostics.HasError (FillInformationsForObject v object assetsObject).1 = false := by
  obtain ⟨res, hres⟩ := fillAttributes_total v assetsObject.Attributes [] hv
  unfold FillInformationsForObject
  simp only [hres, SetValueFrom_diags, ha]

/-- C14 (amended). Decode completeness: for every remote object on which
`FillInformationsForObject` returns no error diagnostic (the framework accepts the sets it
builds), the structured attributes of the model are one per returned attribute, in order,
each carrying the workspace id, global id, id, type-attribute id and the label flag of the
attribute's object-type attribute, and one structured value per returned attribute value,
in order, carrying value, display value, search value and additional value verbatim. -/
theorem FillInformationsForObject_complete (v : setValidation)
    (object : objectResourceModel) (assetsObject : ObjectScheme)
    (hok : Diagnostics.HasError (FillInformationsForObject v object assetsObject).1 = false) :
    (FillInformationsForObject v object assetsObject).2.Attributes.ElementsAs.map
        (fun a =>
          (a.WorkspaceId, a.GlobalId, a.Id, a.ObjectTypeAttributeId,
            a.ObjectTypeAttributeLabel,
            a.ObjectAttributeValues.ElementsAs.map
              (fun x => (x.Value, x.DisplayValue, x.SearchValue, x.AdditionalValue)))) =
      assetsObject.Attributes.map
        (fun att =>
          (TfString.value att.WorkspaceId, TfString.value att.GlobalId,
            TfString.value att.ID, TfString.value att.ObjectTypeAttributeId,
            TfBool.value att.ObjectTypeAttribute.Label,
            att.ObjectAttributeValues.map
              (fun val =>
                (TfString.value val.Value, TfString.value val.DisplayValue,
                  TfString.value val.SearchValue, TfString.value val.AdditionalValue)))) := by
  have h := congrArg
    (List.map (fun (t : TfString × TfString × TfString × TfString × TfBool ×
        List objectAttributeValueModel) =>
      (t.1, t.2.1, t.2.2.1, t.2.2.2.1, t.2.2.2.2.1,
        t.2.2.2.2.2.map
          (fun x => (x.Value, x.DisplayValue, x.SearchValue, x.AdditionalValue)))))
    (FillInformationsForObject_attributes v object assetsObject hok)
  simp only [List.map_map] at h
  refine Eq.trans (by rfl) (Eq.trans h ?_)
  apply List.map_congr_left
  intro att _
  simp [Function.comp, returnedAttributeView, fillAttributeValue]

/-- C14 witness: a remote object with the label attribute `10` holding the value
`Server A` and the attribute `11` holding two values. -/
theorem FillInformationsForObject_complete_witness :
    (FillInformationsForObject sampleValidation (samplePlan [] TfObject.null)
        (sampleRemoteObject
          [sampleRemoteAttribute "10" true [sampleRemoteValue "Server A"],
           sampleRemoteAttribute "11" false [sampleRemoteValue "a", sampleRemoteValue "b"]])
      ).2.Attributes.ElementsAs.map
        (fun a =>
          (a.WorkspaceId, a.GlobalId, a.Id, a.ObjectTypeAttributeId,
            a.ObjectTypeAttributeLabel,
            a.ObjectAttributeValues.ElementsAs.map
              (fun x => (x.Value, x.DisplayValue, x.SearchValue, x.AdditionalValue)))) =
      (sampleRemoteObject
          [sampleRemoteAttribute "10" true [sampleRemoteValue "Server A"],
           sampleRemoteAttribute "11" false [sampleRemoteValue "a", sampleRemoteValue "b"]]
        ).Attributes.map
        (fun att =>
          (TfString.value att.WorkspaceId, TfString.value att.GlobalId,
            TfString.value att.ID, TfString.value att.ObjectTypeAttributeId,
            TfBool.value att.ObjectTypeAttribute.Label,
            att.ObjectAttributeValues.map
              (fun val =>
                (TfString.value val.Value, TfString.value val.DisplayValue,
                  TfString.value val.SearchValue, TfString.value val.AdditionalValue)))) :=
  FillInformationsForObject_complete sampleValidation (samplePlan [] TfObject.null)
    (sampleRemoteObject
      [sampleRemoteAttribute "10" true [sampleRemoteValue "Server A"],
       sampleRemoteAttribute "11" false [sampleRemoteValue "a", sampleRemoteValue "b"]])
    (by decide)

/-- C14 counterexample: the remote object has one attribute, `11`, that holds the value `a`
twice, and the validation of a set rejects a repeated element: `SetValueFrom` reports the
error for the value set, `FillInformationsForObject` returns it from inside the loop (lines
214-218) and the attributes of the model are not assigned: they stay unknown, with no
structured attribute for the returned attribute. -/
theorem decode_duplicate_value_counterexample :
    (FillInformationsForObject duplicateRejectingValidation (samplePlan [] TfObject.null)
        (sampleRemoteObject
          [sampleRemoteAttribute "11" false [sampleRemoteValue "a", sampleRemoteValue "a"]])
      ).1 = [duplicateSetElementError] ∧
    Diagnostics.HasError [duplicateSetElementError] = true ∧
    (FillInformationsForObject duplicateRejectingValidation (samplePlan [] TfObject.null)
        (sampleRemoteObject
          [sampleRemoteAttribute "11" false [sampleRemoteValue "a", sampleRemoteValue "a"]])
      ).2.Attributes = TfSet.unknown ∧
    (FillInformationsForObject duplicateRejectingValidation (samplePlan [] TfObject.null)
        (sampleRemoteObject
          [sampleRemoteAttribute "11" false [sampleRemoteValue "a", sampleRemoteValue "a"]])
      ).2.Attributes.ElementsAs = [] ∧
    (sampleRemoteObject
        [sampleRemoteAttribute "11" false [sampleRemoteValue "a", sampleRemoteValue "a"]]
      ).Attributes.length = 1 := by
  refine ⟨?_, ?_, ?_, ?_, ?_⟩ <;> decide

/-- C15. Null-object decoding: for every remote object on which
`FillInformationsForObject` returns no error diagnostic, every structured value has as its
group the null object exactly when the returned value has no group, and otherwise a known
object with `avatar_url` and `name` both set from the returned group; and as its status the
null object exactly when the returned value has no status, and otherwise a known object
with `id`, `name` and `category` all set from the returned status. -/
theorem FillInformationsForObject_null_objects (v : setValidation)
    (object : objectResourceModel) (assetsObject : ObjectScheme)
    (hok : Diagnostics.HasError (FillInformationsForObject v object assetsObject).1 = false) :
    (FillInformationsForObject v object assetsObject).2.Attributes.ElementsAs.map
        (fun a => a.ObjectAttributeValues.ElementsAs.map (fun x => (x.Group, x.Status))) =
      assetsObject.Attributes.map
        (fun att =>
          att.ObjectAttributeValues.map
            (fun val =>
              ((match val.Group with
                | none => TfObject.null
                | some g =>
                  TfObject.value
                    { AvatarUrl := TfString.value g.AvatarUrl, Name := TfString.value g.Name }),
               (match val.Status with
                | none => TfObject.null
                | some st =>
                  TfObject.value
                    { Id := TfString.value st.ID, Name := TfString.value st.Name,
                      Category := TfInt64.value st.Category })))) := by
  have h := congrArg
    (List.map (fun (t : TfString × TfString × TfString × TfString × TfBool ×
        List objectAttributeValueModel) =>
      t.2.2.2.2.2.map (fun x => (x.Group, x.Status))))
    (FillInformationsForObject_attributes v object assetsObject hok)
  simp only [List.map_map] at h
  rw [show ((fun (t : TfString × TfString × TfString × TfString × TfBool ×
        List objectAttributeValueModel) =>
      t.2.2.2.2.2.map (fun x => (x.Group, x.Status))) ∘ structuredAttributeView) =
      (fun a => a.ObjectAttributeValues.ElementsAs.map (fun x => (x.Group, x.Status)))
    from rfl] at h
  rw [h]
  apply List.map_congr_left
  intro att _
  simp only [Function.comp, returnedAttributeView, List.map_map]
  apply List.map_congr_left
  intro val _
  simp only [Function.comp, fillAttributeValue]
  cases val.Group <;> cases val.Status <;> rfl

/-- C15 witness: a returned value with a group and without status, and a returned value
with a status and without group. -/
theorem FillInformationsForObject_null_objects_witness :
    (FillInformationsForObject sampleValidation (samplePlan [] TfObject.null)
        (sampleRemoteObject
          [sampleRemoteAttribute "10" true
            [{ sampleRemoteValue "g" with Group := some { AvatarUrl := "url", Name := "ops" } },
             { sampleRemoteValue "s" with
               Status := some { ID := "3", Name := "Active", Category := 1 } }]])
      ).2.Attributes.ElementsAs.map
        (fun a => a.ObjectAttributeValues.ElementsAs.map (fun x => (x.Group, x.Status))) =
      [[(TfObject.value { AvatarUrl := TfString.value "url", Name := TfString.value "ops" },
          TfObject.null),
        (TfObject.null,
          TfObject.value { Id := TfString.value "3", Name := TfString.value "Active",
                           Category := TfInt64.value 1 })]] :=
  FillInformationsForObject_null_objects sampleValidation (samplePlan [] TfObject.null)
    (sampleRemoteObject
      [sampleRemoteAttribute "10" true
        [{ sampleRemoteValue "g" with Group := some { AvatarUrl := "url", Name := "ops" } },
         { sampleRemoteValue "s" with
           Status := some { ID := "3", Name := "Active", Category := 1 } }]])
    (by decide)

/-- C16. Round trip: for every declared attribute list `x` (each attribute may have any
number of values), every remote object whose attributes echo the payload
`createObjectPayload` builds from `x` (same type-attribute ids and same value strings, in
order), and on which `FillInformationsForObject` returns no error diagnostic, the
structured attributes of the decoded model have, attribute by attribute, the declared
`object_type_attribute_id` and the declared value strings. -/
theorem round_trip (v : setValidation) (x object : objectResourceModel)
    (payload : ObjectPayloadScheme) (assetsObject : ObjectScheme)
    (hecho : assetsObject.Attributes.map
        (fun att => (att.ObjectTypeAttributeId, att.ObjectAttributeValues.map (fun val => val.Value))) =
      (createObjectPayload x payload).2.Attributes.map
        (fun p => (p.ObjectTypeAttributeID, p.ObjectAttributeValues.map (fun pv => pv.Value))))
    (hok : Diagnostics.HasError (FillInformationsForObject v object assetsObject).1 = false) :
    (FillInformationsForObject v object assetsObject).2.Attributes.ElementsAs.map
        (fun a =>
          (a.ObjectTypeAttributeId,
            a.ObjectAttributeValues.ElementsAs.map (fun val => val.Value))) =
      x.AttributesIn.map
        (fun d =>
          (TfString.value d.ObjectTypeAttributeId.ValueString,
            d.ObjectAttributeValuesIn.map (fun w => TfString.value w.Value.ValueString))) := by
  have h := congrArg
    (List.map (fun (t : TfString × TfString × TfString × TfString × TfBool ×
        List objectAttributeValueModel) =>
      (t.2.2.2.1, t.2.2.2.2.2.map (fun val => val.Value))))
    (FillInformationsForObject_attributes v object assetsObject hok)
  have hstep :
      List.map
        ((fun (t : TfString × TfString × TfString × TfString × TfBool ×
            List objectAttributeValueModel) =>
          (t.2.2.2.1, t.2.2.2.2.2.map (fun val => val.Value))) ∘ returnedAttributeView)
        assetsObject.Attributes =
      List.map
        (fun (t : String × List String) =>
          (TfString.value t.1, t.2.map (fun s => TfString.value s)))
        (assetsObject.Attributes.map
          (fun att =>
            (att.ObjectTypeAttributeId, att.ObjectAttributeValues.map (fun val => val.Value)))) := by
    rw [List.map_map]
    apply List.map_congr_left
    intro att _
    simp [Function.comp, returnedAttributeView, fillAttributeValue, List.map_map]
  simp only [List.map_map] at h
  refine Eq.trans (by rfl) (Eq.trans h ?_)
  rw [hstep, hecho, createObjectPayload_Attributes, List.map_map, List.map_map]
  apply List.map_congr_left
  intro d _
  simp [Function.comp, List.map_map]

/-- C16 witness: the declared attributes `10` with `Server A` and `11` with `a`, `b`, and a
remote object that echoes them. -/
theorem round_trip_witness :
    (FillInformationsForObject sampleValidation (samplePlan [] TfObject.null)
        (sampleRemoteObject
          [sampleRemoteAttribute "10" true [sampleRemoteValue "Server A"],
           sampleRemoteAttribute "11" false [sampleRemoteValue "a", sampleRemoteValue "b"]])
      ).2.Attributes.ElementsAs.map
        (fun a =>
          (a.ObjectTypeAttributeId,
            a.ObjectAttributeValues.ElementsAs.map (fun val => val.Value))) =
      [(TfString.value "10", [TfString.value "Server A"]),
       (TfString.value "11", [TfString.value "a", TfString.value "b"])] :=
  round_trip sampleValidation
    (samplePlan [sampleAttributeIn "10" ["Server A"], sampleAttributeIn "11" ["a", "b"]]
      TfObject.null)
    (samplePlan [] TfObject.null) {}
    (sampleRemoteObject
      [sampleRemoteAttribute "10" true [sampleRemoteValue "Server A"],
       sampleRemoteAttribute "11" false [sampleRemoteValue "a", sampleRemoteValue "b"]])
    (by decide) (by decide)

/-! ## Provider configuration -/

theorem Diagnostics.HasError_AddAttributeError (a : Diagnostics)
    (path summary detail : String) :
    Diagnostics.HasError (Diagnostics.AddAttributeError a path summary detail) = true := by
  rw [Diagnostics.AddAttributeError, Diagnostics.HasError_Append]
  simp [Diagnostics.HasError, NewAttributeErrorDiagnostic]

theorem Diagnostics.HasError_AddError (a : Diagnostics) (summary detail : String) :
    Diagnostics.HasError (Diagnostics.AddError a summary detail) = true := by
  rw [Diagnostics.AddError, Diagnostics.HasError_Append]
  simp [Diagnostics.HasError, NewErrorDiagnostic]

theorem Diagnostics.mem_Append_singleton (a : Diagnostics) (d : Diagnostic) :
    d ∈ Diagnostics.Append a [d] := by
  rw [Diagnostics.Append_cons, Diagnostics.Append_nil]
  by_cases h : d ∈ a
  · simp [Diagnostics.Contains, h]
  · simp [Diagnostics.Contains, h]

theorem configurationDecoded_iff (req : ConfigureRequest) (resp : ConfigureResponse) :
    configurationDecoded req resp = true ↔
      Diagnostics.HasError resp.Diagnostics = false ∧
      Diagnostics.HasError req.Config.diags = false ∧
      req.Config.Raw.Token.IsUnknown = false ∧ req.Config.Raw.Mail.IsUnknown = false ∧
      req.Config.Raw.WorkspaceId.IsUnknown = false ∧
      req.Config.Raw.Features.IsUnknown = false := by
  simp [configurationDecoded, tfsdkConfig.Get, and_assoc]

theorem configOrEnv_eq (Getenv : String → String) (configured : TfString) (name : String) :
    (if (!configured.IsNull) = true then configured.ValueString else Getenv name) =
      configOrEnv Getenv configured name := by
  unfold configOrEnv
  cases configured.IsNull <;> rfl

theorem unknownValues_data (config : AssetsProviderModel) (resp : ConfigureResponse) :
    (AssetsProvider.Configure.unknownValues config resp).DataSourceData = resp.DataSourceData ∧
    (AssetsProvider.Configure.unknownValues config resp).ResourceData = resp.ResourceData := by
  unfold AssetsProvider.Configure.unknownValues
  cases config.Token.IsUnknown <;> cases config.Mail.IsUnknown <;>
    cases config.WorkspaceId.IsUnknown <;> cases config.Features.IsUnknown <;>
    exact ⟨rfl, rfl⟩

theorem unknownValues_of_known (config : AssetsProviderModel) (resp : ConfigureResponse)
    (hT : config.Token.IsUnknown = false) (hM : config.Mail.IsUnknown = false)
    (hW : config.WorkspaceId.IsUnknown = false) (hF : config.Features.IsUnknown = false) :
    AssetsProvider.Configure.unknownValues config resp = resp := by
  unfold AssetsProvider.Configure.unknownValues
  simp only [hT, hM, hW, hF, Bool.false_eq_true, if_false]

theorem unknownValues_of_unknown_features (config : AssetsProviderModel)
    (resp : ConfigureResponse) (hF : config.Features.IsUnknown = true) :
    Diagnostics.HasError (AssetsProvider.Configure.unknownValues config resp).Diagnostics
      = true := by
  unfold AssetsProvider.Configure.unknownValues
  simp only [hF, if_true]
  exact Diagnostics.HasError_AddAttributeError _ _ _ _

theorem missingValues_data (token mail workspace_id : String) (destroy_object : Bool)
    (obsolete : String) (resp : ConfigureResponse) :
    (AssetsProvider.Configure.missingValues token mail workspace_id destroy_object obsolete
        resp).DataSourceData = resp.DataSourceData ∧
    (AssetsProvider.Configure.missingValues token mail workspace_id destroy_object obsolete
        resp).ResourceData = resp.ResourceData := by
  unfold AssetsProvider.Configure.missingValues
  split_ifs <;> exact ⟨rfl, rfl⟩

theorem missingValues_of_present (token mail workspace_id : String) (destroy_object : Bool)
    (obsolete : String) (resp : ConfigureResponse)
    (h1 : token ≠ "") (h2 : mail ≠ "") (h3 : workspace_id ≠ "")
    (h4 : (!destroy_object && decide (obsolete = "")) = false) :
    AssetsProvider.Configure.missingValues token mail workspace_id destroy_object obsolete
      resp = resp := by
  unfold AssetsProvider.Configure.missingValues
  simp only [h1, h2, h3, h4, Bool.false_eq_true, if_false]

theorem missingValues_soft_without_id (token mail workspace_id : String)
    (resp : ConfigureResponse) :
    Diagnostics.HasError
      (AssetsProvider.Configure.missingValues token mail workspace_id false "" resp).Diagnostics
        = true ∧
    missingObsoleteIdError ∈
      (AssetsProvider.Configure.missingValues token mail workspace_id false "" resp).Diagnostics
      := by
  unfold AssetsProvider.Configure.missingValues
  simp only [Bool.not_false, Bool.true_and, decide_True, if_true]
  exact ⟨Diagnostics.HasError_AddAttributeError _ _ _ _,
    Diagnostics.mem_Append_singleton _ _⟩

theorem Configure_accepted (Getenv : String → String) (assetsNew : String → Option String)
    (req : ConfigureRequest) (resp : ConfigureResponse)
    (hacc : configurationAccepted Getenv req resp = true)
    (hnew : assetsNew (configOrEnv Getenv req.Config.Raw.Host "ATLASSIAN_HOST") = none) :
    AssetsProvider.Configure Getenv assetsNew req resp =
      ({ Diagnostics := Diagnostics.Append resp.Diagnostics req.Config.diags,
         DataSourceData := some
           { Client :=
               { Site := configOrEnv Getenv req.Config.Raw.Host "ATLASSIAN_HOST",
                 AuthMail := configOrEnv Getenv req.Config.Raw.Mail "ATLASSIAN_MAIL",
                 AuthToken := configOrEnv Getenv req.Config.Raw.Token "ATLASSIAN_TOKEN" },
             WorkspaceId :=
               configOrEnv Getenv req.Config.Raw.WorkspaceId "ASSETS_WORKSPACE_ID",
             Features :=
               { DestroyObject := resolvedDestroyObject Getenv req.Config.Raw,
                 ObsoleteObjectTypeAttributeId :=
                   resolvedObsoleteId Getenv req.Config.Raw } },
         ResourceData := some
           { Client :=
               { Site := configOrEnv Getenv req.Config.Raw.Host "ATLASSIAN_HOST",
                 AuthMail := configOrEnv Getenv req.Config.Raw.Mail "ATLASSIAN_MAIL",
                 AuthToken := configOrEnv Getenv req.Config.Raw.Token "ATLASSIAN_TOKEN" },
             WorkspaceId :=
               configOrEnv Getenv req.Config.Raw.WorkspaceId "ASSETS_WORKSPACE_ID",
             Features :=
               { DestroyObject := resolvedDestroyObject Getenv req.Config.Raw,
                 ObsoleteObjectTypeAttributeId :=
                   resolvedObsoleteId Getenv req.Config.Raw } } },
        [configOrEnv Getenv req.Config.Raw.Host "ATLASSIAN_HOST"]) := by
  have hacc2 := hacc
  simp only [configurationAccepted, Bool.and_eq_true, decide_eq_true_eq] at hacc2
  obtain ⟨⟨⟨⟨hdec, htok⟩, hmail⟩, hws⟩, hsoft⟩ := hacc2
  obtain ⟨h0, h1, hT, hM, hW, hF⟩ := (configurationDecoded_iff req resp).1 hdec
  have hmid : Diagnostics.HasError (Diagnostics.Append resp.Diagnostics req.Config.diags)
      = false := by
    simp [Diagnostics.HasError_Append, h0, h1]
  have hsoft2 : (!resolvedDestroyObject Getenv req.Config.Raw &&
      decide (resolvedObsoleteId Getenv req.Config.Raw = "")) = false := by
    simpa only [Bool.not_eq_true'] using hsoft
  have hbn : TfBool.null.IsNull = true := rfl
  have hsn : TfString.null.IsNull = true := rfl
  have hflip : ∀ (b : Bool) (x y : Bool),
      (if (!b) = true then x else y) = (if b = true then y else x) := by
    intro b x y; cases b <;> rfl
  cases hfeat : req.Config.Raw.Features with
  | unknown => simp [hfeat, TfObject.IsUnknown] at hF
  | null =>
    simp only [resolvedDestroyObject, resolvedObsoleteId, configuredDestroyObject,
      configuredObsoleteId, hfeat, hbn, hsn, if_true] at hsoft2 ⊢
    rw [show configOrEnv Getenv TfString.null "ASSETS_OBJECTTYPEATTRIBUTE_ID" =
      Getenv "ASSETS_OBJECTTYPEATTRIBUTE_ID" from rfl] at hsoft2 ⊢
    unfold AssetsProvider.Configure
    simp only [tfsdkConfig.Get, hmid, unknownValues_of_known _ _ hT hM hW hF, hfeat,
      TfObject.IsNull, Bool.false_eq_true, if_false, configOrEnv_eq, Bool.not_true,
      Bool.false_and, missingValues_of_present _ _ _ _ _ _ htok hmail hws hsoft2, hnew]
  | value f =>
    simp only [resolvedDestroyObject, resolvedObsoleteId, configuredDestroyObject,
      configuredObsoleteId, hfeat] at hsoft2 ⊢
    have hsoft3 : (!(if (!f.DestroyObject.IsNull) = true then f.DestroyObject.ValueBool
          else
            match ParseBool (Getenv "ASSETS_DESTROY_OBJECT") with
            | some b => b
            | none => true) &&
        decide (configOrEnv Getenv f.ObsoleteObjectTypeAttributeId
          "ASSETS_OBJECTTYPEATTRIBUTE_ID" = "")) = false := by
      rw [hflip]; exact hsoft2
    unfold AssetsProvider.Configure
    simp only [tfsdkConfig.Get, hmid, unknownValues_of_known _ _ hT hM hW hF, hfeat,
      TfObject.IsNull, Bool.false_eq_true, if_false, configOrEnv_eq, Bool.not_false,
      Bool.true_and, Diagnostics.Append_nil, if_true,
      missingValues_of_present _ _ _ _ _ _ htok hmail hws hsoft3,
      missingValues_of_present _ _ _ _ _ _ htok hmail hws hsoft2, hnew, hflip]

/-- C11. Configuration fail-fast: for every provider configuration and environment in
which the resolved `destroy_object` is false and the resolved
`obsolete_objecttypeattribute_id` is the empty string, `AssetsProvider.Configure` returns
with an error diagnostic in the response, leaves `DataSourceData` and `ResourceData` as
they were (nothing is published) and never calls `assets.New` (no client is created); when
the configuration was decoded without error and without unknown value, the error of lines
235-239 is among the diagnostics. -/
theorem Configure_fail_fast (Getenv : String → String)
    (assetsNew : String → Option String) (req : ConfigureRequest) (resp : ConfigureResponse)
    (hsoft : resolvedDestroyObject Getenv req.Config.Raw = false)
    (hid : resolvedObsoleteId Getenv req.Config.Raw = "") :
    Diagnostics.HasError
        (AssetsProvider.Configure Getenv assetsNew req resp).1.Diagnostics = true ∧
    (AssetsProvider.Configure Getenv assetsNew req resp).1.DataSourceData =
      resp.DataSourceData ∧
    (AssetsProvider.Configure Getenv assetsNew req resp).1.ResourceData = resp.ResourceData ∧
    (AssetsProvider.Configure Getenv assetsNew req resp).2 = [] ∧
    (configurationDecoded req resp = true →
      missingObsoleteIdError ∈
        (AssetsProvider.Configure Getenv assetsNew req resp).1.Diagnostics) := by
  have hflip : ∀ (b : Bool) (x y : Bool),
      (if (!b) = true then x else y) = (if b = true then y else x) := by
    intro b x y; cases b <;> rfl
  have hbn : TfBool.null.IsNull = true := rfl
  have hsn : TfString.null.IsNull = true := rfl
  by_cases hA : Diagnostics.HasError
      (Diagnostics.Append resp.Diagnostics req.Config.diags) = true
  · have hout : AssetsProvider.Configure Getenv assetsNew req resp =
        ({ resp with Diagnostics := Diagnostics.Append resp.Diagnostics req.Config.diags },
          []) := by
      unfold AssetsProvider.Configure
      simp only [tfsdkConfig.Get, hA, if_true]
    rw [hout]
    refine ⟨hA, rfl, rfl, rfl, ?_⟩
    intro hdec
    obtain ⟨h0, h1, -⟩ := (configurationDecoded_iff req resp).1 hdec
    rw [Diagnostics.HasError_Append, h0, h1] at hA
    exact absurd hA (by simp)
  · have hA2 : Diagnostics.HasError
        (Diagnostics.Append resp.Diagnostics req.Config.diags) = false := by
      simpa using hA
    by_cases hB : Diagnostics.HasError
        (AssetsProvider.Configure.unknownValues req.Config.Raw
          { resp with Diagnostics :=
              Diagnostics.Append resp.Diagnostics req.Config.diags }).Diagnostics = true
    · have hout : AssetsProvider.Configure Getenv assetsNew req resp =
          (AssetsProvider.Configure.unknownValues req.Config.Raw
            { resp with Diagnostics :=
                Diagnostics.Append resp.Diagnostics req.Config.diags }, []) := by
        unfold AssetsProvider.Configure
        simp only [tfsdkConfig.Get, hA2, Bool.false_eq_true, if_false, hB, if_true]
      rw [hout]
      refine ⟨hB, (unknownValues_data _ _).1, (unknownValues_data _ _).2, rfl, ?_⟩
      intro hdec
      obtain ⟨-, -, hT, hM, hW, hF⟩ := (configurationDecoded_iff req resp).1 hdec
      rw [unknownValues_of_known _ _ hT hM hW hF] at hB
      rw [hA2] at hB
      exact absurd hB (by simp)
    · have hB2 : Diagnostics.HasError
          (AssetsProvider.Configure.unknownValues req.Config.Raw
            { resp with Diagnostics :=
                Diagnostics.Append resp.Diagnostics req.Config.diags }).Diagnostics
            = false := by
        simpa using hB
      have hsoftErr := fun t m w r => missingValues_soft_without_id t m w r
      cases hfeat : req.Config.Raw.Features with
      | unknown =>
        have hF : req.Config.Raw.Features.IsUnknown = true := by rw [hfeat]; rfl
        rw [unknownValues_of_unknown_features _ _ hF] at hB2
        exact absurd hB2 (by simp)
      | null =>
        simp only [resolvedDestroyObject, resolvedObsoleteId, configuredDestroyObject,
          configuredObsoleteId, hfeat, hbn, hsn, if_true] at hsoft hid
        rw [show configOrEnv Getenv TfString.null "ASSETS_OBJECTTYPEATTRIBUTE_ID" =
          Getenv "ASSETS_OBJECTTYPEATTRIBUTE_ID" from rfl] at hid
        have hout : AssetsProvider.Configure Getenv assetsNew req resp =
            (AssetsProvider.Configure.missingValues
              (configOrEnv Getenv req.Config.Raw.Token "ATLASSIAN_TOKEN")
              (configOrEnv Getenv req.Config.Raw.Mail "ATLASSIAN_MAIL")
              (configOrEnv Getenv req.Config.Raw.WorkspaceId "ASSETS_WORKSPACE_ID")
              false ""
              (AssetsProvider.Configure.unknownValues req.Config.Raw
                { resp with Diagnostics :=
                    Diagnostics.Append resp.Diagnostics req.Config.diags }), []) := by
          unfold AssetsProvider.Configure
          simp only [tfsdkConfig.Get, hA2, hB2, hfeat, TfObject.IsNull, Bool.false_eq_true,
            if_false, configOrEnv_eq, Bool.not_true, Bool.false_and, hsoft, hid,
            (hsoftErr _ _ _ _).1, if_true]
        rw [hout]
        refine ⟨(hsoftErr _ _ _ _).1, ?_, ?_, rfl, fun _ => (hsoftErr _ _ _ _).2⟩
        · rw [(missingValues_data _ _ _ _ _ _).1, (unknownValues_data _ _).1]
        · rw [(missingValues_data _ _ _ _ _ _).2, (unknownValues_data _ _).2]
      | value f =>
        simp only [resolvedDestroyObject, resolvedObsoleteId, configuredDestroyObject,
          configuredObsoleteId, hfeat] at hsoft hid
        have hout : AssetsProvider.Configure Getenv assetsNew req resp =
            (AssetsProvider.Configure.missingValues
              (configOrEnv Getenv req.Config.Raw.Token "ATLASSIAN_TOKEN")
              (configOrEnv Getenv req.Config.Raw.Mail "ATLASSIAN_MAIL")
              (configOrEnv Getenv req.Config.Raw.WorkspaceId "ASSETS_WORKSPACE_ID")
              false ""
              (AssetsProvider.Configure.unknownValues req.Config.Raw
                { resp with Diagnostics :=
                    Diagnostics.Append resp.Diagnostics req.Config.diags }), []) := by
          unfold AssetsProvider.Configure
          simp only [tfsdkConfig.Get, hA2, hB2, hfeat, TfObject.IsNull, Bool.false_eq_true,
            if_false, configOrEnv_eq, Bool.not_false, Bool.true_and, Diagnostics.Append_nil,
            if_true, hflip, hsoft, hid, (hsoftErr _ _ _ _).1]
        rw [hout]
        refine ⟨(hsoftErr _ _ _ _).1, ?_, ?_, rfl, fun _ => (hsoftErr _ _ _ _).2⟩
        · rw [(missingValues_data _ _ _ _ _ _).1, (unknownValues_data _ _).1]
        · rw [(missingValues_data _ _ _ _ _ _).2, (unknownValues_data _ _).2]

/-- C11 witness: `ASSETS_DESTROY_OBJECT` is `false`, no `features` block and no
`ASSETS_OBJECTTYPEATTRIBUTE_ID`: the response carries the error, nothing is published and
`assets.New` is not called. -/
theorem Configure_fail_fast_witness :
    Diagnostics.HasError
        (AssetsProvider.Configure (sampleGetenv [("ASSETS_DESTROY_OBJECT", "false")])
          (fun _ => none) (sampleConfig TfObject.null) freshConfigureResponse).1.Diagnostics
        = true ∧
    (AssetsProvider.Configure (sampleGetenv [("ASSETS_DESTROY_OBJECT", "false")])
        (fun _ => none) (sampleConfig TfObject.null) freshConfigureResponse).1.DataSourceData
      = none ∧
    (AssetsProvider.Configure (sampleGetenv [("ASSETS_DESTROY_OBJECT", "false")])
        (fun _ => none) (sampleConfig TfObject.null) freshConfigureResponse).1.ResourceData
      = none ∧
    (AssetsProvider.Configure (sampleGetenv [("ASSETS_DESTROY_OBJECT", "false")])
        (fun _ => none) (sampleConfig TfObject.null) freshConfigureResponse).2 = [] ∧
    missingObsoleteIdError ∈
      (AssetsProvider.Configure (sampleGetenv [("ASSETS_DESTROY_OBJECT", "false")])
        (fun _ => none) (sampleConfig TfObject.null) freshConfigureResponse).1.Diagnostics :=
  have h := Configure_fail_fast (sampleGetenv [("ASSETS_DESTROY_OBJECT", "false")])
    (fun _ => none) (sampleConfig TfObject.null) freshConfigureResponse
    (by decide) (by decide)
  ⟨h.1, h.2.1, h.2.2.1, h.2.2.2.1, h.2.2.2.2 (by decide)⟩

/-- C19. Resolution of the delete flag: for every configuration that `Configure` accepts
and for which the client is created, the published client data carry a `DestroyObject`
that is the value of `features.destroy_object` when that is set in the configuration;
otherwise the boolean `ASSETS_DESTROY_OBJECT` parses to; otherwise (the variable is absent
or does not parse) `true`. -/
theorem Configure_destroy_object (Getenv : String → String)
    (assetsNew : String → Option String) (req : ConfigureRequest) (resp : ConfigureResponse)
    (hacc : configurationAccepted Getenv req resp = true)
    (hnew : assetsNew (configOrEnv Getenv req.Config.Raw.Host "ATLASSIAN_HOST") = none) :
    ∃ c : AssetsProviderClient,
      (AssetsProvider.Configure Getenv assetsNew req resp).1.ResourceData = some c ∧
      (AssetsProvider.Configure Getenv assetsNew req resp).1.DataSourceData = some c ∧
      (∀ b, configuredDestroyObject req.Config.Raw = TfBool.value b →
        c.Features.DestroyObject = b) ∧
      (configuredDestroyObject req.Config.Raw = TfBool.null →
        ∀ b, ParseBool (Getenv "ASSETS_DESTROY_OBJECT") = some b →
          c.Features.DestroyObject = b) ∧
      (configuredDestroyObject req.Config.Raw = TfBool.null →
        ParseBool (Getenv "ASSETS_DESTROY_OBJECT") = none →
          c.Features.DestroyObject = true) := by
  rw [Configure_accepted Getenv assetsNew req resp hacc hnew]
  refine ⟨_, rfl, rfl, ?_, ?_, ?_⟩
  · intro b hb
    simp [resolvedDestroyObject, hb, TfBool.IsNull, TfBool.ValueBool]
  · intro hb b hp
    simp [resolvedDestroyObject, hb, TfBool.IsNull, hp]
  · intro hb hp
    simp [resolvedDestroyObject, hb, TfBool.IsNull, hp]

/-- C19 witness: `features` sets only the obsolete attribute id `99` and
`ASSETS_DESTROY_OBJECT` is `false`: client data are published and their `DestroyObject` is
the parsed value of the variable. -/
theorem Configure_destroy_object_witness :
    ∃ c : AssetsProviderClient,
      (AssetsProvider.Configure (sampleGetenv [("ASSETS_DESTROY_OBJECT", "false")])
          (fun _ => none)
          (sampleConfig (TfObject.value
            { DestroyObject := TfBool.null,
              ObsoleteObjectTypeAttributeId := TfString.value "99" }))
          freshConfigureResponse).1.ResourceData = some c ∧
      c.Features.DestroyObject = false :=
  match Configure_destroy_object (sampleGetenv [("ASSETS_DESTROY_OBJECT", "false")])
      (fun _ => none)
      (sampleConfig (TfObject.value
        { DestroyObject := TfBool.null,
          ObsoleteObjectTypeAttributeId := TfString.value "99" }))
      freshConfigureResponse (by decide) rfl with
  | ⟨c, hres, _, _, henv, _⟩ => ⟨c, hres, henv rfl false (by decide)⟩

/-- C20. Configuration precedence: for every configuration that `Configure` accepts and
for which the client is created, the client is created for the resolved host,
authenticated with the resolved mail and token, and published with the resolved workspace
id and obsolete attribute id, where each resolved value is the Terraform configuration
value when that value is set (non-null) and otherwise the value of the environment
variable `ATLASSIAN_HOST`, `ATLASSIAN_TOKEN`, `ATLASSIAN_MAIL`, `ASSETS_WORKSPACE_ID`,
`ASSETS_OBJECTTYPEATTRIBUTE_ID` respectively. -/
theorem Configure_precedence (Getenv : String → String)
    (assetsNew : String → Option String) (req : ConfigureRequest) (resp : ConfigureResponse)
    (hacc : configurationAccepted Getenv req resp = true)
    (hnew : assetsNew (configOrEnv Getenv req.Config.Raw.Host "ATLASSIAN_HOST") = none) :
    ∃ c : AssetsProviderClient,
      (AssetsProvider.Configure Getenv assetsNew req resp).1.ResourceData = some c ∧
      (AssetsProvider.Configure Getenv assetsNew req resp).1.DataSourceData = some c ∧
      (AssetsProvider.Configure Getenv assetsNew req resp).2 =
        [configOrEnv Getenv req.Config.Raw.Host "ATLASSIAN_HOST"] ∧
      c.Client.Site = configOrEnv Getenv req.Config.Raw.Host "ATLASSIAN_HOST" ∧
      c.Client.AuthToken = configOrEnv Getenv req.Config.Raw.Token "ATLASSIAN_TOKEN" ∧
      c.Client.AuthMail = configOrEnv Getenv req.Config.Raw.Mail "ATLASSIAN_MAIL" ∧
      c.WorkspaceId = configOrEnv Getenv req.Config.Raw.WorkspaceId "ASSETS_WORKSPACE_ID" ∧
      c.Features.ObsoleteObjectTypeAttributeId =
        configOrEnv Getenv (configuredObsoleteId req.Config.Raw)
          "ASSETS_OBJECTTYPEATTRIBUTE_ID" := by
  rw [Configure_accepted Getenv assetsNew req resp hacc hnew]
  exact ⟨_, rfl, rfl, rfl, rfl, rfl, rfl, rfl, rfl⟩

/-- C20 witness: the configuration sets the host and the workspace id and leaves the token
and the mail to the environment; `features` is absent and the obsolete attribute id comes
from the environment. -/
theorem Configure_precedence_witness :
    ∃ c : AssetsProviderClient,
      (AssetsProvider.Configure
          (sampleGetenv [("ATLASSIAN_HOST", "https://env.example"),
            ("ATLASSIAN_TOKEN", "t-env"), ("ATLASSIAN_MAIL", "env@example.com"),
            ("ASSETS_OBJECTTYPEATTRIBUTE_ID", "77")])
          (fun _ => none)
          { Config :=
              { Raw := { Host := TfString.value "https://cfg.example", Token := TfString.null,
                         Mail := TfString.null, WorkspaceId := TfString.value "ws-cfg",
                         Features := TfObject.null },
                diags := [] } }
          freshConfigureResponse).1.ResourceData = some c ∧
      c.Client.Site = "https://cfg.example" ∧ c.Client.AuthToken = "t-env" ∧
      c.Client.AuthMail = "env@example.com" ∧ c.WorkspaceId = "ws-cfg" ∧
      c.Features.ObsoleteObjectTypeAttributeId = "77" :=
  match Configure_precedence
      (sampleGetenv [("ATLASSIAN_HOST", "https://env.example"), ("ATLASSIAN_TOKEN", "t-env"),
        ("ATLASSIAN_MAIL", "env@example.com"), ("ASSETS_OBJECTTYPEATTRIBUTE_ID", "77")])
      (fun _ => none)
      { Config :=
          { Raw := { Host := TfString.value "https://cfg.example", Token := TfString.null,
                     Mail := TfString.null, WorkspaceId := TfString.value "ws-cfg",
                     Features := TfObject.null },
            diags := [] } }
      freshConfigureResponse (by decide) rfl with
  | ⟨c, hres, _, _, hsite, htoken, hmail, hws, hid⟩ =>
    ⟨c, hres, hsite, htoken, hmail, hws, hid⟩


/-! ## Provider configuration: rejected configurations -/

theorem Diagnostics.AddAttributeError_of_not_mem (a : Diagnostics)
    (path summary detail : String)
    (h : NewAttributeErrorDiagnostic path summary detail ∉ a) :
    Diagnostics.AddAttributeError a path summary detail =
      a ++ [NewAttributeErrorDiagnostic path summary detail] := by
  simp [Diagnostics.AddAttributeError, Diagnostics.Append_cons, Diagnostics.Append_nil,
    Diagnostics.Contains, h]

theorem Diagnostics.not_mem_of_no_error (a : Diagnostics) (d : Diagnostic)
    (ha : Diagnostics.HasError a = false) (hd : d.Severity = Severity.Error) : d ∉ a := by
  intro hmem
  have : Diagnostics.HasError a = true := by
    simp only [Diagnostics.HasError, List.any_eq_true, decide_eq_true_eq]
    exact ⟨d, hmem, hd⟩
  rw [ha] at this
  exact Bool.false_ne_true this

theorem HasError_ite_AddAttributeError (c : Prop) [Decidable c] (resp : ConfigureResponse)
    (path summary detail : String) :
    Diagnostics.HasError
      (if c then
        { resp with Diagnostics :=
            Diagnostics.AddAttributeError resp.Diagnostics path summary detail }
      else resp).Diagnostics = (Diagnostics.HasError resp.Diagnostics || decide c) := by
  by_cases h : c
  · simp [h, Diagnostics.HasError_AddAttributeError]
  · simp [h]

theorem unknownValues_HasError (config : AssetsProviderModel) (resp : ConfigureResponse) :
    Diagnostics.HasError (AssetsProvider.Configure.unknownValues config resp).Diagnostics =
      (Diagnostics.HasError resp.Diagnostics || config.Token.IsUnknown ||
        config.Mail.IsUnknown || config.WorkspaceId.IsUnknown ||
        config.Features.IsUnknown) := by
  unfold AssetsProvider.Configure.unknownValues
  simp only [HasError_ite_AddAttributeError, Bool.decide_eq_true]

theorem missingValues_HasError (token mail workspace_id : String) (destroy_object : Bool)
    (obsolete : String) (resp : ConfigureResponse) :
    Diagnostics.HasError
      (AssetsProvider.Configure.missingValues token mail workspace_id destroy_object obsolete
        resp).Diagnostics =
      (Diagnostics.HasError resp.Diagnostics || decide (token = "") || decide (mail = "") ||
        decide (workspace_id = "") || (!destroy_object && decide (obsolete = ""))) := by
  unfold AssetsProvider.Configure.missingValues
  simp only [HasError_ite_AddAttributeError, Bool.decide_eq_true]

theorem Diagnostics.Append_Append (a l1 l2 : Diagnostics) :
    Diagnostics.Append (Diagnostics.Append a l1) l2 = Diagnostics.Append a (l1 ++ l2) := by
  unfold Diagnostics.Append
  rw [List.foldl_append]

theorem Diagnostics.Append_of_nodup (a l : Diagnostics) (hnodup : l.Nodup)
    (hnew : ∀ d ∈ l, d ∉ a) : Diagnostics.Append a l = a ++ l := by
  induction l generalizing a with
  | nil => simp [Diagnostics.Append_nil]
  | cons d ds ih =>
    have hd : d ∉ a := hnew d (List.mem_cons_self _ _)
    have hnd := List.nodup_cons.1 hnodup
    rw [Diagnostics.Append_cons]
    simp only [Diagnostics.Contains, hd, decide_False, Bool.false_eq_true, if_false]
    rw [ih (a ++ [d]) hnd.2]
    · simp
    · intro x hx hmem
      rcases List.mem_append.1 hmem with h | h
      · exact hnew x (List.mem_cons_of_mem _ hx) h
      · have : x = d := by simpa using h
        exact hnd.1 (this ▸ hx)

theorem Diagnostics_ite_AddAttributeError (c : Prop) [Decidable c] (resp : ConfigureResponse)
    (path summary detail : String) :
    (if c then
        { resp with Diagnostics :=
            Diagnostics.AddAttributeError resp.Diagnostics path summary detail }
      else resp) =
      { resp with Diagnostics := (Diagnostics.Append resp.Diagnostics
          (if c then [NewAttributeErrorDiagnostic path summary detail] else [])) } := by
  by_cases h : c
  · simp [h, Diagnostics.AddAttributeError]
  · simp [h, Diagnostics.Append_nil]

theorem missingValues_eq_Append (token mail workspace_id : String) (destroy_object : Bool)
    (obsolete : String) (resp : ConfigureResponse) :
    AssetsProvider.Configure.missingValues token mail workspace_id destroy_object obsolete
        resp =
      { resp with Diagnostics := (Diagnostics.Append resp.Diagnostics
          (missingValueErrors token mail workspace_id destroy_object obsolete)) } := by
  unfold AssetsProvider.Configure.missingValues missingValueErrors
  cases destroy_object <;> by_cases h1 : token = "" <;> by_cases h2 : mail = "" <;>
    by_cases h3 : workspace_id = "" <;> by_cases h4 : obsolete = "" <;>
    simp only [h1, h2, h3, h4, if_true, if_false, Bool.not_false, Bool.not_true,
      Bool.true_and, Bool.false_and, decide_True, decide_False, Bool.false_eq_true,
      true_and, and_true, and_false, false_and, and_self] <;>
    (try simp only [Diagnostics.AddAttributeError, Diagnostics.Append_Append]) <;>
    rfl

theorem missingValueErrors_nodup (token mail workspace_id : String) (destroy_object : Bool)
    (obsolete : String) :
    (missingValueErrors token mail workspace_id destroy_object obsolete).Nodup := by
  unfold missingValueErrors
  by_cases h1 : token = "" <;> by_cases h2 : mail = "" <;> by_cases h3 : workspace_id = "" <;>
    by_cases h4 : (destroy_object = false ∧ obsolete = "") <;>
    simp only [h1, h2, h3, h4, if_true, if_false] <;> decide

theorem missingValueErrors_severity (token mail workspace_id : String) (destroy_object : Bool)
    (obsolete : String) :
    ∀ d ∈ missingValueErrors token mail workspace_id destroy_object obsolete,
      d.Severity = Severity.Error := by
  intro d hd
  unfold missingValueErrors at hd
  simp only [List.mem_append] at hd
  rcases hd with ((h | h) | h) | h <;> split_ifs at h <;>
    first
      | (simp only [List.mem_singleton] at h; subst h; rfl)
      | (simp at h)

theorem missingValues_Diagnostics (token mail workspace_id : String) (destroy_object : Bool)
    (obsolete : String) (resp : ConfigureResponse)
    (hresp : Diagnostics.HasError resp.Diagnostics = false) :
    (AssetsProvider.Configure.missingValues token mail workspace_id destroy_object obsolete
        resp).Diagnostics =
      resp.Diagnostics ++ missingValueErrors token mail workspace_id destroy_object obsolete := by
  rw [missingValues_eq_Append]
  exact Diagnostics.Append_of_nodup _ _ (missingValueErrors_nodup _ _ _ _ _)
    (fun d hd => Diagnostics.not_mem_of_no_error _ d hresp
      (missingValueErrors_severity _ _ _ _ _ d hd))

theorem Configure_of_decode_error (Getenv : String → String)
    (assetsNew : String → Option String) (req : ConfigureRequest) (resp : ConfigureResponse)
    (hA : Diagnostics.HasError (Diagnostics.Append resp.Diagnostics req.Config.diags) = true) :
    AssetsProvider.Configure Getenv assetsNew req resp =
      ({ resp with Diagnostics := Diagnostics.Append resp.Diagnostics req.Config.diags },
        []) := by
  unfold AssetsProvider.Configure
  simp only [tfsdkConfig.Get, hA, if_true]

theorem Configure_of_unknown_error (Getenv : String → String)
    (assetsNew : String → Option String) (req : ConfigureRequest) (resp : ConfigureResponse)
    (hA : Diagnostics.HasError (Diagnostics.Append resp.Diagnostics req.Config.diags) = false)
    (hB : Diagnostics.HasError
        (AssetsProvider.Configure.unknownValues req.Config.Raw
          { resp with Diagnostics :=
              Diagnostics.Append resp.Diagnostics req.Config.diags }).Diagnostics = true) :
    AssetsProvider.Configure Getenv assetsNew req resp =
      (AssetsProvider.Configure.unknownValues req.Config.Raw
        { resp with Diagnostics :=
            Diagnostics.Append resp.Diagnostics req.Config.diags }, []) := by
  unfold AssetsProvider.Configure
  simp only [tfsdkConfig.Get, hA, Bool.false_eq_true, if_false, hB, if_true]

theorem Configure_resolved (Getenv : String → String)
    (assetsNew : String → Option String) (req : ConfigureRequest) (resp : ConfigureResponse)
    (hA : Diagnostics.HasError (Diagnostics.Append resp.Diagnostics req.Config.diags) = false)
    (hB : Diagnostics.HasError
        (AssetsProvider.Configure.unknownValues req.Config.Raw
          { resp with Diagnostics :=
              Diagnostics.Append resp.Diagnostics req.Config.diags }).Diagnostics = false) :
    AssetsProvider.Configure Getenv assetsNew req resp =
      if Diagnostics.HasError (configureChecked Getenv req resp).Diagnostics then
        (configureChecked Getenv req resp, [])
      else
        match assetsNew (configOrEnv Getenv req.Config.Raw.Host "ATLASSIAN_HOST") with
        | some err =>
          ({ configureChecked Getenv req resp with
              Diagnostics := (Diagnostics.AddError (configureChecked Getenv req resp).Diagnostics
                "Unable to Create Assets API Client"
                ("An unexpected error occurred when creating the Assets API client. " ++
                  "If the error is not clear, please contact the provider developers.\n\n" ++
                  "Assets Client Error: " ++ err)) },
            [configOrEnv Getenv req.Config.Raw.Host "ATLASSIAN_HOST"])
        | none =>
          ({ configureChecked Getenv req resp with
              DataSourceData := some (resolvedClient Getenv req.Config.Raw),
              ResourceData := some (resolvedClient Getenv req.Config.Raw) },
            [configOrEnv Getenv req.Config.Raw.Host "ATLASSIAN_HOST"]) := by
  have hflip : ∀ (b : Bool) (x y : Bool),
      (if (!b) = true then x else y) = (if b = true then y else x) := by
    intro b x y; cases b <;> rfl
  have hbn : TfBool.null.IsNull = true := rfl
  have hsn : TfString.null.IsNull = true := rfl
  cases hfeat : req.Config.Raw.Features with
  | unknown =>
    have hF : req.Config.Raw.Features.IsUnknown = true := by rw [hfeat]; rfl
    rw [unknownValues_of_unknown_features _ _ hF] at hB
    exact absurd hB (by simp)
  | null =>
    unfold AssetsProvider.Configure configureChecked resolvedClient
    simp only [resolvedDestroyObject, resolvedObsoleteId, configuredDestroyObject,
      configuredObsoleteId, hfeat, hbn, hsn, if_true]
    rw [show configOrEnv Getenv TfString.null "ASSETS_OBJECTTYPEATTRIBUTE_ID" =
      Getenv "ASSETS_OBJECTTYPEATTRIBUTE_ID" from rfl]
    simp only [tfsdkConfig.Get, hA, hB, hfeat, TfObject.IsNull, Bool.false_eq_true,
      if_false, configOrEnv_eq, Bool.not_true, Bool.false_and]
  | value f =>
    unfold AssetsProvider.Configure configureChecked resolvedClient
    simp only [resolvedDestroyObject, resolvedObsoleteId, configuredDestroyObject,
      configuredObsoleteId, hfeat]
    simp only [tfsdkConfig.Get, hA, hB, hfeat, TfObject.IsNull, Bool.false_eq_true,
      if_false, configOrEnv_eq, Bool.not_false, Bool.true_and, Diagnostics.Append_nil,
      if_true, hflip]

theorem Delete_update_attribute_ids (r : objectResource) (req : DeleteRequest)
    (resp : DeleteResponse)
    (hfeat : r.features.DestroyObject = true ∨ r.features.ObsoleteObjectTypeAttributeId ≠ "")
    (workspace_id id : String) (payload : ObjectPayloadScheme)
    (hcall : ClientCall.ObjectUpdate workspace_id id payload ∈
      (objectResource.Delete r req resp).2) :
    ∀ a ∈ payload.Attributes, a.ObjectTypeAttributeID ≠ "" := by
  unfold objectResource.Delete at hcall
  simp only [tfsdkData.Get] at hcall
  split_ifs at hcall with h1 h2
  · simp at hcall
  · have hsoft : r.features.DestroyObject = false := by simpa using h2
    have hid : r.features.ObsoleteObjectTypeAttributeId ≠ "" := by
      rcases hfeat with h | h
      · rw [hsoft] at h; exact absurd h (by simp)
      · exact h
    have hmem : ClientCall.ObjectUpdate workspace_id id payload ∈
        [ClientCall.ObjectUpdate r.workspace_id req.State.Raw.Id.ValueString
          { Attributes :=
              [ { ObjectTypeAttributeID := r.features.ObsoleteObjectTypeAttributeId,
                  ObjectAttributeValues := [ { Value := "Obsolete" } ] } ],
            ObjectTypeID := req.State.Raw.ObjectTypeId.ValueString }] := by
      split at hcall <;> exact hcall
    simp only [List.mem_singleton, ClientCall.ObjectUpdate.injEq] at hmem
    obtain ⟨-, -, hp⟩ := hmem
    subst hp
    intro a ha
    simp only [List.mem_singleton] at ha
    subst ha
    exact hid
  · have hmem : ClientCall.ObjectUpdate workspace_id id payload ∈
        [ClientCall.ObjectDelete r.workspace_id req.State.Raw.Id.ValueString] := by
      split at hcall <;> exact hcall
    simp at hmem

/-- C21. Unknown host: the checks of lines 111-144 cover `token`, `mail`, `workspace_id`
and `features` but not `host`. For every configuration whose `host` is unknown and that is
otherwise accepted, `AssetsProvider.Configure` adds no diagnostic for `host`: the
diagnostics are those of the decoding, without error; `assets.New` is called once, with the
empty string that `ValueString` returns for the unknown value, and when it creates the
client the client data are published with the empty site. -/
theorem Configure_unknown_host (Getenv : String → String)
    (assetsNew : String → Option String) (req : ConfigureRequest) (resp : ConfigureResponse)
    (hhost : req.Config.Raw.Host = TfString.unknown)
    (hacc : configurationAccepted Getenv req resp = true)
    (hnew : assetsNew "" = none) :
    (AssetsProvider.Configure Getenv assetsNew req resp).1.Diagnostics =
      Diagnostics.Append resp.Diagnostics req.Config.diags ∧
    Diagnostics.HasError
      (AssetsProvider.Configure Getenv assetsNew req resp).1.Diagnostics = false ∧
    (AssetsProvider.Configure Getenv assetsNew req resp).2 = [""] ∧
    (AssetsProvider.Configure Getenv assetsNew req resp).1.ResourceData =
      some (resolvedClient Getenv req.Config.Raw) ∧
    (AssetsProvider.Configure Getenv assetsNew req resp).1.DataSourceData =
      some (resolvedClient Getenv req.Config.Raw) ∧
    (resolvedClient Getenv req.Config.Raw).Client.Site = "" := by
  have hsite : configOrEnv Getenv req.Config.Raw.Host "ATLASSIAN_HOST" = "" := by
    rw [hhost]; rfl
  have hnew2 : assetsNew (configOrEnv Getenv req.Config.Raw.Host "ATLASSIAN_HOST") = none := by
    rw [hsite]; exact hnew
  have hdec : configurationDecoded req resp = true := by
    simp only [configurationAccepted, Bool.and_eq_true] at hacc
    exact hacc.1.1.1.1
  obtain ⟨h0, h1, -⟩ := (configurationDecoded_iff req resp).1 hdec
  rw [Configure_accepted Getenv assetsNew req resp hacc hnew2]
  refine ⟨rfl, ?_, ?_, rfl, rfl, hsite⟩
  · simp [Diagnostics.HasError_Append, h0, h1]
  · simp only [hsite]

/-- C21 witness: `host` is unknown, token, mail and workspace id are set, `features` is
absent and the environment is empty: no diagnostic, one call of `assets.New` with the empty
site, and the client data published. -/
theorem Configure_unknown_host_witness :
    (AssetsProvider.Configure (sampleGetenv []) (fun _ => none) sampleConfigUnknownHost
        freshConfigureResponse).1.Diagnostics = [] ∧
    (AssetsProvider.Configure (sampleGetenv []) (fun _ => none) sampleConfigUnknownHost
        freshConfigureResponse).2 = [""] ∧
    (AssetsProvider.Configure (sampleGetenv []) (fun _ => none) sampleConfigUnknownHost
        freshConfigureResponse).1.ResourceData =
      some { Client := { Site := "", AuthMail := "bot@example.com", AuthToken := "secret" },
             WorkspaceId := "ws",
             Features := { DestroyObject := true, ObsoleteObjectTypeAttributeId := "" } } :=
  have h := Configure_unknown_host (sampleGetenv []) (fun _ => none) sampleConfigUnknownHost
    freshConfigureResponse rfl (by decide) rfl
  ⟨h.1, h.2.2.1, h.2.2.2.1⟩

/-- C22. Missing values: for every configuration and environment in which the resolved
token, mail or workspace id is the empty string, `AssetsProvider.Configure` returns with an
error diagnostic, leaves `DataSourceData` and `ResourceData` as they were and never calls
`assets.New`; when the configuration was decoded without error and without unknown value,
the diagnostics are those of the decoding followed by one error for each missing value, all
together (and the error of lines 235-239 when soft deletion has no attribute id). -/
theorem Configure_missing_values (Getenv : String → String)
    (assetsNew : String → Option String) (req : ConfigureRequest) (resp : ConfigureResponse)
    (hmiss : configOrEnv Getenv req.Config.Raw.Token "ATLASSIAN_TOKEN" = "" ∨
      configOrEnv Getenv req.Config.Raw.Mail "ATLASSIAN_MAIL" = "" ∨
      configOrEnv Getenv req.Config.Raw.WorkspaceId "ASSETS_WORKSPACE_ID" = "") :
    Diagnostics.HasError
        (AssetsProvider.Configure Getenv assetsNew req resp).1.Diagnostics = true ∧
    (AssetsProvider.Configure Getenv assetsNew req resp).1.DataSourceData =
      resp.DataSourceData ∧
    (AssetsProvider.Configure Getenv assetsNew req resp).1.ResourceData = resp.ResourceData ∧
    (AssetsProvider.Configure Getenv assetsNew req resp).2 = [] ∧
    (configurationDecoded req resp = true →
      (AssetsProvider.Configure Getenv assetsNew req resp).1.Diagnostics =
        Diagnostics.Append resp.Diagnostics req.Config.diags ++
          missingValueErrors
            (configOrEnv Getenv req.Config.Raw.Token "ATLASSIAN_TOKEN")
            (configOrEnv Getenv req.Config.Raw.Mail "ATLASSIAN_MAIL")
            (configOrEnv Getenv req.Config.Raw.WorkspaceId "ASSETS_WORKSPACE_ID")
            (resolvedDestroyObject Getenv req.Config.Raw)
            (resolvedObsoleteId Getenv req.Config.Raw)) := by
  by_cases hA : Diagnostics.HasError
      (Diagnostics.Append resp.Diagnostics req.Config.diags) = true
  · rw [Configure_of_decode_error Getenv assetsNew req resp hA]
    refine ⟨hA, rfl, rfl, rfl, ?_⟩
    intro hdec
    obtain ⟨h0, h1, -⟩ := (configurationDecoded_iff req resp).1 hdec
    rw [Diagnostics.HasError_Append, h0, h1] at hA
    exact absurd hA (by simp)
  · have hA2 : Diagnostics.HasError
        (Diagnostics.Append resp.Diagnostics req.Config.diags) = false := by
      simpa using hA
    by_cases hB : Diagnostics.HasError
        (AssetsProvider.Configure.unknownValues req.Config.Raw
          { resp with Diagnostics :=
              Diagnostics.Append resp.Diagnostics req.Config.diags }).Diagnostics = true
    · rw [Configure_of_unknown_error Getenv assetsNew req resp hA2 hB]
      refine ⟨hB, (unknownValues_data _ _).1, (unknownValues_data _ _).2, rfl, ?_⟩
      intro hdec
      obtain ⟨-, -, hT, hM, hW, hF⟩ := (configurationDecoded_iff req resp).1 hdec
      rw [unknownValues_of_known _ _ hT hM hW hF] at hB
      rw [hA2] at hB
      exact absurd hB (by simp)
    · have hB2 : Diagnostics.HasError
          (AssetsProvider.Configure.unknownValues req.Config.Raw
            { resp with Diagnostics :=
                Diagnostics.Append resp.Diagnostics req.Config.diags }).Diagnostics
            = false := by
        simpa using hB
      have hC : Diagnostics.HasError (configureChecked Getenv req resp).Diagnostics
          = true := by
        unfold configureChecked
        rw [missingValues_HasError]
        rcases hmiss with h | h | h <;> simp [h]
      rw [Configure_resolved Getenv assetsNew req resp hA2 hB2, if_pos hC]
      refine ⟨hC, ?_, ?_, rfl, ?_⟩
      · unfold configureChecked
        rw [(missingValues_data _ _ _ _ _ _).1, (unknownValues_data _ _).1]
      · unfold configureChecked
        rw [(missingValues_data _ _ _ _ _ _).2, (unknownValues_data _ _).2]
      · intro hdec
        obtain ⟨-, -, hT, hM, hW, hF⟩ := (configurationDecoded_iff req resp).1 hdec
        unfold configureChecked
        rw [unknownValues_of_known _ _ hT hM hW hF]
        exact missingValues_Diagnostics _ _ _ _ _ _ hA2

/-- C22 witness: the configuration sets only `host` and the environment only the mail:
token and workspace id are missing, both errors are reported, in the order of the source,
nothing is published and `assets.New` is not called. -/
theorem Configure_missing_values_witness :
    (AssetsProvider.Configure (sampleGetenv [("ATLASSIAN_MAIL", "env@example.com")])
        (fun _ => none) sampleConfigHostOnly freshConfigureResponse).1.Diagnostics =
      [missingTokenError, missingWorkspaceIdError] ∧
    (AssetsProvider.Configure (sampleGetenv [("ATLASSIAN_MAIL", "env@example.com")])
        (fun _ => none) sampleConfigHostOnly freshConfigureResponse).1.ResourceData = none ∧
    (AssetsProvider.Configure (sampleGetenv [("ATLASSIAN_MAIL", "env@example.com")])
        (fun _ => none) sampleConfigHostOnly freshConfigureResponse).1.DataSourceData
      = none ∧
    (AssetsProvider.Configure (sampleGetenv [("ATLASSIAN_MAIL", "env@example.com")])
        (fun _ => none) sampleConfigHostOnly freshConfigureResponse).2 = [] :=
  have h := Configure_missing_values (sampleGetenv [("ATLASSIAN_MAIL", "env@example.com")])
    (fun _ => none) sampleConfigHostOnly freshConfigureResponse (Or.inl (by decide))
  ⟨(h.2.2.2.2 (by decide)).trans rfl, h.2.2.1, h.2.1, h.2.2.2.1⟩

/-- C23. Features invariant: for every configuration and environment for which
`AssetsProvider.Configure` ends without error diagnostic, client data are published, the
same to `DataSourceData` and `ResourceData`, and their features satisfy
`DestroyObject = true` or `ObsoleteObjectTypeAttributeId` non-empty; hence for every object
resource configured with these features, every `Object.Update` call that
`objectResource.Delete` issues carries only attributes of non-empty id. -/
theorem Configure_features_invariant (Getenv : String → String)
    (assetsNew : String → Option String) (req : ConfigureRequest) (resp : ConfigureResponse)
    (hok : Diagnostics.HasError
      (AssetsProvider.Configure Getenv assetsNew req resp).1.Diagnostics = false) :
    ∃ c : AssetsProviderClient,
      (AssetsProvider.Configure Getenv assetsNew req resp).1.DataSourceData = some c ∧
      (AssetsProvider.Configure Getenv assetsNew req resp).1.ResourceData = some c ∧
      (c.Features.DestroyObject = true ∨ c.Features.ObsoleteObjectTypeAttributeId ≠ "") ∧
      ∀ (r : objectResource) (dreq : DeleteRequest) (dresp : DeleteResponse),
        r.features = c.Features →
        ∀ (workspace_id id : String) (payload : ObjectPayloadScheme),
          ClientCall.ObjectUpdate workspace_id id payload ∈
            (objectResource.Delete r dreq dresp).2 →
          ∀ a ∈ payload.Attributes, a.ObjectTypeAttributeID ≠ "" := by
  by_cases hA : Diagnostics.HasError
      (Diagnostics.Append resp.Diagnostics req.Config.diags) = true
  · rw [Configure_of_decode_error Getenv assetsNew req resp hA] at hok
    rw [show Diagnostics.HasError
      (Diagnostics.Append resp.Diagnostics req.Config.diags) = false from hok] at hA
    exact absurd hA (by simp)
  · have hA2 : Diagnostics.HasError
        (Diagnostics.Append resp.Diagnostics req.Config.diags) = false := by
      simpa using hA
    by_cases hB : Diagnostics.HasError
        (AssetsProvider.Configure.unknownValues req.Config.Raw
          { resp with Diagnostics :=
              Diagnostics.Append resp.Diagnostics req.Config.diags }).Diagnostics = true
    · rw [Configure_of_unknown_error Getenv assetsNew req resp hA2 hB] at hok
      rw [show Diagnostics.HasError
        (AssetsProvider.Configure.unknownValues req.Config.Raw
          { resp with Diagnostics :=
              Diagnostics.Append resp.Diagnostics req.Config.diags }).Diagnostics = false
        from hok] at hB
      exact absurd hB (by simp)
    · have hB2 : Diagnostics.HasError
          (AssetsProvider.Configure.unknownValues req.Config.Raw
            { resp with Diagnostics :=
                Diagnostics.Append resp.Diagnostics req.Config.diags }).Diagnostics
            = false := by
        simpa using hB
      rw [Configure_resolved Getenv assetsNew req resp hA2 hB2] at hok ⊢
      by_cases hC : Diagnostics.HasError (configureChecked Getenv req resp).Diagnostics
          = true
      · rw [if_pos hC] at hok
        rw [show Diagnostics.HasError (configureChecked Getenv req resp).Diagnostics = false
          from hok] at hC
        exact absurd hC (by simp)
      · have hC2 : Diagnostics.HasError (configureChecked Getenv req resp).Diagnostics
            = false := by
          simpa using hC
        have hfeat : (resolvedClient Getenv req.Config.Raw).Features.DestroyObject = true ∨
            (resolvedClient Getenv req.Config.Raw).Features.ObsoleteObjectTypeAttributeId
              ≠ "" := by
          have h := hC2
          unfold configureChecked at h
          rw [missingValues_HasError] at h
          simp only [Bool.or_eq_false_iff, Bool.and_eq_false_imp, Bool.not_eq_true',
            decide_eq_false_iff_not] at h
          show resolvedDestroyObject Getenv req.Config.Raw = true ∨
            resolvedObsoleteId Getenv req.Config.Raw ≠ ""
          cases hd : resolvedDestroyObject Getenv req.Config.Raw with
          | true => exact Or.inl rfl
          | false => exact Or.inr (h.2 hd)
        rw [if_neg hC] at hok ⊢
        cases hnew : assetsNew (configOrEnv Getenv req.Config.Raw.Host "ATLASSIAN_HOST") with
        | some err =>
          rw [hnew] at hok
          have herr := Diagnostics.HasError_AddError
            (configureChecked Getenv req resp).Diagnostics
            "Unable to Create Assets API Client"
            ("An unexpected error occurred when creating the Assets API client. " ++
              "If the error is not clear, please contact the provider developers.\n\n" ++
              "Assets Client Error: " ++ err)
          rw [show Diagnostics.HasError (Diagnostics.AddError
              (configureChecked Getenv req resp).Diagnostics
              "Unable to Create Assets API Client"
              ("An unexpected error occurred when creating the Assets API client. " ++
                "If the error is not clear, please contact the provider developers.\n\n" ++
                "Assets Client Error: " ++ err)) = false from hok] at herr
          exact absurd herr (by simp)
        | none =>
          refine ⟨resolvedClient Getenv req.Config.Raw, rfl, rfl, hfeat, ?_⟩
          intro r dreq dresp hr workspace_id id payload hcall
          exact Delete_update_attribute_ids r dreq dresp (hr ▸ hfeat) workspace_id id
            payload hcall

/-- C23 witness: `features` sets `destroy_object = false` and the obsolete attribute id
`99`: `Configure` ends without error, and the update issued by `Delete` for a resource with
the published features carries the attribute id `99`, which is not empty. -/
theorem Configure_features_invariant_witness :
    ∃ c : AssetsProviderClient,
      (AssetsProvider.Configure (sampleGetenv []) (fun _ => none)
          (sampleConfig (TfObject.value
            { DestroyObject := TfBool.value false,
              ObsoleteObjectTypeAttributeId := TfString.value "99" }))
          freshConfigureResponse).1.ResourceData = some c ∧
      (c.Features.DestroyObject = true ∨ c.Features.ObsoleteObjectTypeAttributeId ≠ "") :=
  match Configure_features_invariant (sampleGetenv []) (fun _ => none)
      (sampleConfig (TfObject.value
        { DestroyObject := TfBool.value false,
          ObsoleteObjectTypeAttributeId := TfString.value "99" }))
      freshConfigureResponse (by decide) with
  | ⟨c, _, hres, hfeat, _⟩ => ⟨c, hres, hfeat⟩

/-! ## Object resource: remote failures and response state -/

theorem Create_of_decode_error (object : objectService) (v : setValidation) (set : StateSet)
    (r : objectResource) (req : CreateRequest) (resp : CreateResponse)
    (hA : Diagnostics.HasError (Diagnostics.Append resp.Diagnostics req.Plan.diags) = true) :
    objectResource.Create object v set r req resp =
      ({ resp with Diagnostics := Diagnostics.Append resp.Diagnostics req.Plan.diags },
        []) := by
  unfold objectResource.Create
  simp only [tfsdkData.Get, hA, if_true]

theorem Create_of_create_error (object : objectService) (v : setValidation) (set : StateSet)
    (r : objectResource) (req : CreateRequest) (resp : CreateResponse) (err : String)
    (hA : Diagnostics.HasError (Diagnostics.Append resp.Diagnostics req.Plan.diags) = false)
    (hcreate : object.Create r.workspace_id (createObjectPayload req.Plan.Raw {}).2 =
      Except.error err) :
    objectResource.Create object v set r req resp =
      ({ resp with Diagnostics :=
          (Diagnostics.Append resp.Diagnostics req.Plan.diags ++
            [NewErrorDiagnostic "Error creating object"
              ("Could not create object, unexpected error: " ++ err)]) },
        [ClientCall.ObjectCreate r.workspace_id (createObjectPayload req.Plan.Raw {}).2]) := by
  have hd := createObjectPayload_diags req.Plan.Raw {}
  rcases hp : createObjectPayload req.Plan.Raw {} with ⟨pd, payload⟩
  rw [hp] at hd hcreate
  simp only at hd hcreate
  subst hd
  unfold objectResource.Create
  simp only [tfsdkData.Get, hp, Diagnostics.Append_nil, hA, Bool.false_eq_true, if_false,
    hcreate, Diagnostics.AddError_of_HasError_false _ _ _ hA]

theorem Create_of_get_error (object : objectService) (v : setValidation) (set : StateSet)
    (r : objectResource) (req : CreateRequest) (resp : CreateResponse)
    (object_without_attributes : ObjectScheme) (err : String)
    (hA : Diagnostics.HasError (Diagnostics.Append resp.Diagnostics req.Plan.diags) = false)
    (hcreate : object.Create r.workspace_id (createObjectPayload req.Plan.Raw {}).2 =
      Except.ok object_without_attributes)
    (hget : object.Get r.workspace_id object_without_attributes.ID = Except.error err) :
    objectResource.Create object v set r req resp =
      ({ resp with Diagnostics :=
          (Diagnostics.Append resp.Diagnostics req.Plan.diags ++
            [NewErrorDiagnostic "Error get attributes"
              ("Could not get attributes, unexpected error: " ++ err)]) },
        [ClientCall.ObjectCreate r.workspace_id (createObjectPayload req.Plan.Raw {}).2,
          ClientCall.ObjectGet r.workspace_id object_without_attributes.ID]) := by
  have hd := createObjectPayload_diags req.Plan.Raw {}
  rcases hp : createObjectPayload req.Plan.Raw {} with ⟨pd, payload⟩
  rw [hp] at hd hcreate
  simp only at hd hcreate
  subst hd
  unfold objectResource.Create
  simp only [tfsdkData.Get, hp, Diagnostics.Append_nil, hA, Bool.false_eq_true, if_false,
    hcreate, hget, Diagnostics.AddError_of_HasError_false _ _ _ hA]

theorem Create_of_got (object : objectService) (v : setValidation) (set : StateSet)
    (r : objectResource) (req : CreateRequest) (resp : CreateResponse)
    (object_without_attributes assetsObject : ObjectScheme)
    (hA : Diagnostics.HasError (Diagnostics.Append resp.Diagnostics req.Plan.diags) = false)
    (hcreate : object.Create r.workspace_id (createObjectPayload req.Plan.Raw {}).2 =
      Except.ok object_without_attributes)
    (hget : object.Get r.workspace_id object_without_attributes.ID = Except.ok assetsObject) :
    objectResource.Create object v set r req resp =
      if Diagnostics.HasError (FillInformationsForObject v req.Plan.Raw assetsObject).1 then
        ({ resp with Diagnostics :=
            (Diagnostics.Append (Diagnostics.Append resp.Diagnostics req.Plan.diags)
              (FillInformationsForObject v req.Plan.Raw assetsObject).1) },
          [ClientCall.ObjectCreate r.workspace_id (createObjectPayload req.Plan.Raw {}).2,
            ClientCall.ObjectGet r.workspace_id object_without_attributes.ID])
      else
        ({ State :=
            (set resp.State (FillInformationsForObject v req.Plan.Raw assetsObject).2).2,
           Diagnostics :=
            (Diagnostics.Append
              (Diagnostics.Append (Diagnostics.Append resp.Diagnostics req.Plan.diags)
                (FillInformationsForObject v req.Plan.Raw assetsObject).1)
              (set resp.State (FillInformationsForObject v req.Plan.Raw assetsObject).2).1) },
          [ClientCall.ObjectCreate r.workspace_id (createObjectPayload req.Plan.Raw {}).2,
            ClientCall.ObjectGet r.workspace_id object_without_attributes.ID]) := by
  have hd := createObjectPayload_diags req.Plan.Raw {}
  rcases hp : createObjectPayload req.Plan.Raw {} with ⟨pd, payload⟩
  rw [hp] at hd hcreate
  simp only at hd hcreate
  subst hd
  rcases hf : FillInformationsForObject v req.Plan.Raw assetsObject with ⟨fd, filled⟩
  rcases hs : set resp.State filled with ⟨sd, written⟩
  unfold objectResource.Create
  simp only [tfsdkData.Get, hp, Diagnostics.Append_nil, hA, Bool.false_eq_true, if_false,
    hcreate, hget, hf, hs, Diagnostics.HasError_Append, Bool.false_or]

theorem Read_of_decode_error (object : objectService) (v : setValidation) (set : StateSet)
    (r : objectResource) (req : ReadRequest) (resp : ReadResponse)
    (hA : Diagnostics.HasError (Diagnostics.Append resp.Diagnostics req.State.diags) = true) :
    objectResource.Read object v set r req resp =
      ({ resp with Diagnostics := Diagnostics.Append resp.Diagnostics req.State.diags },
        []) := by
  unfold objectResource.Read
  simp only [tfsdkData.Get, hA, if_true]

theorem Read_of_get_error (object : objectService) (v : setValidation) (set : StateSet)
    (r : objectResource) (req : ReadRequest) (resp : ReadResponse) (err : String)
    (hA : Diagnostics.HasError (Diagnostics.Append resp.Diagnostics req.State.diags) = false)
    (hget : object.Get r.workspace_id req.State.Raw.Id.ValueString = Except.error err) :
    objectResource.Read object v set r req resp =
      ({ resp with Diagnostics :=
          (Diagnostics.Append resp.Diagnostics req.State.diags ++
            [NewErrorDiagnostic "Error Reading object"
              ("Could not read object, unexpected error: " ++ err)]) },
        [ClientCall.ObjectGet r.workspace_id req.State.Raw.Id.ValueString]) := by
  unfold objectResource.Read
  simp only [tfsdkData.Get, hA, Bool.false_eq_true, if_false, hget,
    Diagnostics.AddError_of_HasError_false _ _ _ hA]

theorem Read_of_got (object : objectService) (v : setValidation) (set : StateSet)
    (r : objectResource) (req : ReadRequest) (resp : ReadResponse)
    (assetsObject : ObjectScheme)
    (hA : Diagnostics.HasError (Diagnostics.Append resp.Diagnostics req.State.diags) = false)
    (hget : object.Get r.workspace_id req.State.Raw.Id.ValueString =
      Except.ok assetsObject) :
    objectResource.Read object v set r req resp =
      if Diagnostics.HasError (FillInformationsForObject v req.State.Raw assetsObject).1 then
        ({ resp with Diagnostics :=
            (Diagnostics.Append (Diagnostics.Append resp.Diagnostics req.State.diags)
              (FillInformationsForObject v req.State.Raw assetsObject).1) },
          [ClientCall.ObjectGet r.workspace_id req.State.Raw.Id.ValueString])
      else
        ({ State :=
            (set resp.State (FillInformationsForObject v req.State.Raw assetsObject).2).2,
           Diagnostics :=
            (Diagnostics.Append
              (Diagnostics.Append (Diagnostics.Append resp.Diagnostics req.State.diags)
                (FillInformationsForObject v req.State.Raw assetsObject).1)
              (set resp.State
                (FillInformationsForObject v req.State.Raw assetsObject).2).1) },
          [ClientCall.ObjectGet r.workspace_id req.State.Raw.Id.ValueString]) := by
  rcases hf : FillInformationsForObject v req.State.Raw assetsObject with ⟨fd, filled⟩
  rcases hs : set resp.State filled with ⟨sd, written⟩
  unfold objectResource.Read
  simp only [tfsdkData.Get, hA, Bool.false_eq_true, if_false, hget, hf, hs,
    Diagnostics.HasError_Append, Bool.false_or]

theorem Update_of_decode_error (object : objectService) (v : setValidation) (set : StateSet)
    (r : objectResource) (req : UpdateRequest) (resp : UpdateResponse)
    (hA : Diagnostics.HasError (Diagnostics.Append resp.Diagnostics req.Plan.diags) = true) :
    objectResource.Update object v set r req resp =
      ({ resp with Diagnostics := Diagnostics.Append resp.Diagnostics req.Plan.diags },
        []) := by
  unfold objectResource.Update
  simp only [tfsdkData.Get, hA, if_true]

theorem Update_of_update_error (object : objectService) (v : setValidation) (set : StateSet)
    (r : objectResource) (req : UpdateRequest) (resp : UpdateResponse) (err : String)
    (hA : Diagnostics.HasError (Diagnostics.Append resp.Diagnostics req.Plan.diags) = false)
    (hupdate : object.Update r.workspace_id req.Plan.Raw.Id.ValueString
      (createObjectPayload req.Plan.Raw {}).2 = Except.error err) :
    objectResource.Update object v set r req resp =
      ({ resp with Diagnostics :=
          (Diagnostics.Append resp.Diagnostics req.Plan.diags ++
            [NewErrorDiagnostic "Error Updating object"
              ("Could not update object, unexpected error: " ++ err)]) },
        [ClientCall.ObjectUpdate r.workspace_id req.Plan.Raw.Id.ValueString
          (createObjectPayload req.Plan.Raw {}).2]) := by
  have hd := createObjectPayload_diags req.Plan.Raw {}
  rcases hp : createObjectPayload req.Plan.Raw {} with ⟨pd, payload⟩
  rw [hp] at hd hupdate
  simp only at hd hupdate
  subst hd
  unfold objectResource.Update
  simp only [tfsdkData.Get, hp, Diagnostics.Append_nil, hA, Bool.false_eq_true, if_false,
    hupdate, Diagnostics.AddError_of_HasError_false _ _ _ hA]

theorem Update_of_updated (object : objectService) (v : setValidation) (set : StateSet)
    (r : objectResource) (req : UpdateRequest) (resp : UpdateResponse)
    (assetsObject : ObjectScheme)
    (hA : Diagnostics.HasError (Diagnostics.Append resp.Diagnostics req.Plan.diags) = false)
    (hupdate : object.Update r.workspace_id req.Plan.Raw.Id.ValueString
      (createObjectPayload req.Plan.Raw {}).2 = Except.ok assetsObject) :
    objectResource.Update object v set r req resp =
      if Diagnostics.HasError (FillInformationsForObject v req.Plan.Raw assetsObject).1 then
        ({ resp with Diagnostics :=
            (Diagnostics.Append (Diagnostics.Append resp.Diagnostics req.Plan.diags)
              (FillInformationsForObject v req.Plan.Raw assetsObject).1) },
          [ClientCall.ObjectUpdate r.workspace_id req.Plan.Raw.Id.ValueString
            (createObjectPayload req.Plan.Raw {}).2])
      else
        ({ State :=
            (set resp.State (FillInformationsForObject v req.Plan.Raw assetsObject).2).2,
           Diagnostics :=
            (Diagnostics.Append
              (Diagnostics.Append (Diagnostics.Append resp.Diagnostics req.Plan.diags)
                (FillInformationsForObject v req.Plan.Raw assetsObject).1)
              (set resp.State (FillInformationsForObject v req.Plan.Raw assetsObject).2).1) },
          [ClientCall.ObjectUpdate r.workspace_id req.Plan.Raw.Id.ValueString
            (createObjectPayload req.Plan.Raw {}).2]) := by
  have hd := createObjectPayload_diags req.Plan.Raw {}
  rcases hp : createObjectPayload req.Plan.Raw {} with ⟨pd, payload⟩
  rw [hp] at hd hupdate
  simp only at hd hupdate
  subst hd
  rcases hf : FillInformationsForObject v req.Plan.Raw assetsObject with ⟨fd, filled⟩
  rcases hs : set resp.State filled with ⟨sd, written⟩
  unfold objectResource.Update
  simp only [tfsdkData.Get, hp, Diagnostics.Append_nil, hA, Bool.false_eq_true, if_false,
    hupdate, hf, hs, Diagnostics.HasError_Append, Bool.false_or]

theorem Delete_of_update_error (r : objectResource) (req : DeleteRequest)
    (resp : DeleteResponse) (err : String)
    (hA : Diagnostics.HasError (Diagnostics.Append resp.Diagnostics req.State.diags) = false)
    (hsoft : r.features.DestroyObject = false)
    (hupdate : r.client.ObjectUpdateErr r.workspace_id req.State.Raw.Id.ValueString
      { Attributes :=
          [ { ObjectTypeAttributeID := r.features.ObsoleteObjectTypeAttributeId,
              ObjectAttributeValues := [ { Value := "Obsolete" } ] } ],
        ObjectTypeID := req.State.Raw.ObjectTypeId.ValueString } = some err) :
    objectResource.Delete r req resp =
      ({ resp with Diagnostics :=
          (Diagnostics.Append resp.Diagnostics req.State.diags ++
            [NewErrorDiagnostic "Error Updating object"
              ("Could not update object, unexpected error: " ++ err)]) },
        [ClientCall.ObjectUpdate r.workspace_id req.State.Raw.Id.ValueString
          { Attributes :=
              [ { ObjectTypeAttributeID := r.features.ObsoleteObjectTypeAttributeId,
                  ObjectAttributeValues := [ { Value := "Obsolete" } ] } ],
            ObjectTypeID := req.State.Raw.ObjectTypeId.ValueString }]) := by
  unfold objectResource.Delete
  simp only [tfsdkData.Get, hA, hsoft, Bool.false_eq_true, if_false, Bool.not_false, if_true,
    hupdate, Diagnostics.AddError_of_HasError_false _ _ _ hA]

theorem Delete_of_delete_error (r : objectResource) (req : DeleteRequest)
    (resp : DeleteResponse) (err : String)
    (hA : Diagnostics.HasError (Diagnostics.Append resp.Diagnostics req.State.diags) = false)
    (hhard : r.features.DestroyObject = true)
    (hdelete : r.client.ObjectDeleteErr r.workspace_id req.State.Raw.Id.ValueString =
      some err) :
    objectResource.Delete r req resp =
      ({ resp with Diagnostics :=
          (Diagnostics.Append resp.Diagnostics req.State.diags ++
            [NewErrorDiagnostic "Error Deleting object"
              ("Could not delete object, unexpected error: " ++ err)]) },
        [ClientCall.ObjectDelete r.workspace_id req.State.Raw.Id.ValueString]) := by
  unfold objectResource.Delete
  simp only [tfsdkData.Get, hA, hhard, Bool.false_eq_true, if_false, Bool.not_true,
    hdelete, Diagnostics.AddError_of_HasError_false _ _ _ hA]

theorem Create_state (object : objectService) (v : setValidation) (set : StateSet)
    (r : objectResource) (req : CreateRequest) (resp : CreateResponse)
    (hset : ∀ state model,
      Diagnostics.HasError (set state model).1 = true → (set state model).2 = state) :
    (Diagnostics.HasError (objectResource.Create object v set r req resp).1.Diagnostics = true →
      (objectResource.Create object v set r req resp).1.State = resp.State) ∧
    ((objectResource.Create object v set r req resp).1.State = resp.State ∨
      ∃ object_without_attributes assetsObject,
        object.Create r.workspace_id (createObjectPayload req.Plan.Raw {}).2 =
          Except.ok object_without_attributes ∧
        object.Get r.workspace_id object_without_attributes.ID = Except.ok assetsObject ∧
        Diagnostics.HasError (FillInformationsForObject v req.Plan.Raw assetsObject).1
          = false ∧
        (objectResource.Create object v set r req resp).1.State =
          (set resp.State (FillInformationsForObject v req.Plan.Raw assetsObject).2).2) := by
  by_cases hA : Diagnostics.HasError
      (Diagnostics.Append resp.Diagnostics req.Plan.diags) = true
  · rw [Create_of_decode_error object v set r req resp hA]
    exact ⟨fun _ => rfl, Or.inl rfl⟩
  · have hA2 : Diagnostics.HasError
        (Diagnostics.Append resp.Diagnostics req.Plan.diags) = false := by
      simpa using hA
    cases hc : object.Create r.workspace_id (createObjectPayload req.Plan.Raw {}).2 with
    | error err =>
      rw [Create_of_create_error object v set r req resp err hA2 hc]
      exact ⟨fun _ => rfl, Or.inl rfl⟩
    | ok object_without_attributes =>
      cases hg : object.Get r.workspace_id object_without_attributes.ID with
      | error err =>
        rw [Create_of_get_error object v set r req resp object_without_attributes err hA2
          hc hg]
        exact ⟨fun _ => rfl, Or.inl rfl⟩
      | ok assetsObject =>
        rw [Create_of_got object v set r req resp object_without_attributes assetsObject
          hA2 hc hg]
        by_cases hF : Diagnostics.HasError
            (FillInformationsForObject v req.Plan.Raw assetsObject).1 = true
        · rw [if_pos hF]
          exact ⟨fun _ => rfl, Or.inl rfl⟩
        · have hF2 : Diagnostics.HasError
              (FillInformationsForObject v req.Plan.Raw assetsObject).1 = false := by
            simpa using hF
          rw [if_neg hF]
          refine ⟨?_, Or.inr ⟨object_without_attributes, assetsObject, rfl, hg, hF2, rfl⟩⟩
          intro herr
          simp only [Diagnostics.HasError_Append, hA2, hF2, Bool.false_or] at herr
          exact hset _ _ herr

theorem Read_state (object : objectService) (v : setValidation) (set : StateSet)
    (r : objectResource) (req : ReadRequest) (resp : ReadResponse)
    (hset : ∀ state model,
      Diagnostics.HasError (set state model).1 = true → (set state model).2 = state) :
    (Diagnostics.HasError (objectResource.Read object v set r req resp).1.Diagnostics = true →
      (objectResource.Read object v set r req resp).1.State = resp.State) ∧
    ((objectResource.Read object v set r req resp).1.State = resp.State ∨
      ∃ assetsObject,
        object.Get r.workspace_id req.State.Raw.Id.ValueString = Except.ok assetsObject ∧
        Diagnostics.HasError (FillInformationsForObject v req.State.Raw assetsObject).1
          = false ∧
        (objectResource.Read object v set r req resp).1.State =
          (set resp.State (FillInformationsForObject v req.State.Raw assetsObject).2).2) := by
  by_cases hA : Diagnostics.HasError
      (Diagnostics.Append resp.Diagnostics req.State.diags) = true
  · rw [Read_of_decode_error object v set r req resp hA]
    exact ⟨fun _ => rfl, Or.inl rfl⟩
  · have hA2 : Diagnostics.HasError
        (Diagnostics.Append resp.Diagnostics req.State.diags) = false := by
      simpa using hA
    cases hg : object.Get r.workspace_id req.State.Raw.Id.ValueString with
    | error err =>
      rw [Read_of_get_error object v set r req resp err hA2 hg]
      exact ⟨fun _ => rfl, Or.inl rfl⟩
    | ok assetsObject =>
      rw [Read_of_got object v set r req resp assetsObject hA2 hg]
      by_cases hF : Diagnostics.HasError
          (FillInformationsForObject v req.State.Raw assetsObject).1 = true
      · rw [if_pos hF]
        exact ⟨fun _ => rfl, Or.inl rfl⟩
      · have hF2 : Diagnostics.HasError
            (FillInformationsForObject v req.State.Raw assetsObject).1 = false := by
          simpa using hF
        rw [if_neg hF]
        refine ⟨?_, Or.inr ⟨assetsObject, rfl, hF2, rfl⟩⟩
        intro herr
        simp only [Diagnostics.HasError_Append, hA2, hF2, Bool.false_or] at herr
        exact hset _ _ herr

theorem Update_state (object : objectService) (v : setValidation) (set : StateSet)
    (r : objectResource) (req : UpdateRequest) (resp : UpdateResponse)
    (hset : ∀ state model,
      Diagnostics.HasError (set state model).1 = true → (set state model).2 = state) :
    (Diagnostics.HasError (objectResource.Update object v set r req resp).1.Diagnostics = true →
      (objectResource.Update object v set r req resp).1.State = resp.State) ∧
    ((objectResource.Update object v set r req resp).1.State = resp.State ∨
      ∃ assetsObject,
        object.Update r.workspace_id req.Plan.Raw.Id.ValueString
          (createObjectPayload req.Plan.Raw {}).2 = Except.ok assetsObject ∧
        Diagnostics.HasError (FillInformationsForObject v req.Plan.Raw assetsObject).1
          = false ∧
        (objectResource.Update object v set r req resp).1.State =
          (set resp.State (FillInformationsForObject v req.Plan.Raw assetsObject).2).2) := by
  by_cases hA : Diagnostics.HasError
      (Diagnostics.Append resp.Diagnostics req.Plan.diags) = true
  · rw [Update_of_decode_error object v set r req resp hA]
    exact ⟨fun _ => rfl, Or.inl rfl⟩
  · have hA2 : Diagnostics.HasError
        (Diagnostics.Append resp.Diagnostics req.Plan.diags) = false := by
      simpa using hA
    cases hu : object.Update r.workspace_id req.Plan.Raw.Id.ValueString
        (createObjectPayload req.Plan.Raw {}).2 with
    | error err =>
      rw [Update_of_update_error object v set r req resp err hA2 hu]
      exact ⟨fun _ => rfl, Or.inl rfl⟩
    | ok assetsObject =>
      rw [Update_of_updated object v set r req resp assetsObject hA2 hu]
      by_cases hF : Diagnostics.HasError
          (FillInformationsForObject v req.Plan.Raw assetsObject).1 = true
      · rw [if_pos hF]
        exact ⟨fun _ => rfl, Or.inl rfl⟩
      · have hF2 : Diagnostics.HasError
            (FillInformationsForObject v req.Plan.Raw assetsObject).1 = false := by
          simpa using hF
        rw [if_neg hF]
        refine ⟨?_, Or.inr ⟨assetsObject, rfl, hF2, rfl⟩⟩
        intro herr
        simp only [Diagnostics.HasError_Append, hA2, hF2, Bool.false_or] at herr
        exact hset _ _ herr

/-- C24. No partial state: let `Set` of the framework leave the state as it was whenever it
reports an error. Then in `objectResource.Create`, `Read` and `Update`, for every request
and response, (1) when the response ends with an error diagnostic, its state is exactly the
state it had before the call, and (2) the state is either unchanged or the result of `Set`
on the model that `FillInformationsForObject` filled without error from the object
returned by the remote calls, all of which succeeded (`Object.Create` then `Object.Get` in
`Create`, `Object.Get` in `Read`, `Object.Update` in `Update`). -/
theorem no_partial_state (object : objectService) (v : setValidation) (set : StateSet)
    (r : objectResource)
    (hset : ∀ state model,
      Diagnostics.HasError (set state model).1 = true → (set state model).2 = state) :
    (∀ (req : CreateRequest) (resp : CreateResponse),
      (Diagnostics.HasError
          (objectResource.Create object v set r req resp).1.Diagnostics = true →
        (objectResource.Create object v set r req resp).1.State = resp.State) ∧
      ((objectResource.Create object v set r req resp).1.State = resp.State ∨
        ∃ object_without_attributes assetsObject,
          object.Create r.workspace_id (createObjectPayload req.Plan.Raw {}).2 =
            Except.ok object_without_attributes ∧
          object.Get r.workspace_id object_without_attributes.ID = Except.ok assetsObject ∧
          Diagnostics.HasError (FillInformationsForObject v req.Plan.Raw assetsObject).1
            = false ∧
          (objectResource.Create object v set r req resp).1.State =
            (set resp.State (FillInformationsForObject v req.Plan.Raw assetsObject).2).2)) ∧
    (∀ (req : ReadRequest) (resp : ReadResponse),
      (Diagnostics.HasError
          (objectResource.Read object v set r req resp).1.Diagnostics = true →
        (objectResource.Read object v set r req resp).1.State = resp.State) ∧
      ((objectResource.Read object v set r req resp).1.State = resp.State ∨
        ∃ assetsObject,
          object.Get r.workspace_id req.State.Raw.Id.ValueString = Except.ok assetsObject ∧
          Diagnostics.HasError (FillInformationsForObject v req.State.Raw assetsObject).1
            = false ∧
          (objectResource.Read object v set r req resp).1.State =
            (set resp.State (FillInformationsForObject v req.State.Raw assetsObject).2).2)) ∧
    (∀ (req : UpdateRequest) (resp : UpdateResponse),
      (Diagnostics.HasError
          (objectResource.Update object v set r req resp).1.Diagnostics = true →
        (objectResource.Update object v set r req resp).1.State = resp.State) ∧
      ((objectResource.Update object v set r req resp).1.State = resp.State ∨
        ∃ assetsObject,
          object.Update r.workspace_id req.Plan.Raw.Id.ValueString
            (createObjectPayload req.Plan.Raw {}).2 = Except.ok assetsObject ∧
          Diagnostics.HasError (FillInformationsForObject v req.Plan.Raw assetsObject).1
            = false ∧
          (objectResource.Update object v set r req resp).1.State =
            (set resp.State (FillInformationsForObject v req.Plan.Raw assetsObject).2).2)) :=
  ⟨fun req resp => Create_state object v set r req resp hset,
    fun req resp => Read_state object v set r req resp hset,
    fun req resp => Update_state object v set r req resp hset⟩

/-- C24 witness: `Object.Create` succeeds and `Object.Get` fails during `Create` on an
empty state: the response carries an error and its state is still empty. -/
theorem no_partial_state_witness :
    Diagnostics.HasError
      (objectResource.Create
        (sampleService (Except.ok (sampleRemoteObject [])) (Except.error "timeout")
          (Except.error "unused"))
        sampleValidation sampleStateSet (sampleResource true "")
        { Plan := { Raw := samplePlan [sampleAttributeIn "10" ["Server A"]] TfObject.null,
                    diags := [] } }
        { State := none, Diagnostics := [] }).1.Diagnostics = true ∧
    (objectResource.Create
        (sampleService (Except.ok (sampleRemoteObject [])) (Except.error "timeout")
          (Except.error "unused"))
        sampleValidation sampleStateSet (sampleResource true "")
        { Plan := { Raw := samplePlan [sampleAttributeIn "10" ["Server A"]] TfObject.null,
                    diags := [] } }
        { State := none, Diagnostics := [] }).1.State = none :=
  ⟨by decide,
    ((no_partial_state
        (sampleService (Except.ok (sampleRemoteObject [])) (Except.error "timeout")
          (Except.error "unused"))
        sampleValidation sampleStateSet (sampleResource true "")
        (fun _ _ h => by simp [sampleStateSet, Diagnostics.HasError] at h)).1
      { Plan := { Raw := samplePlan [sampleAttributeIn "10" ["Server A"]] TfObject.null,
                  diags := [] } }
      { State := none, Diagnostics := [] }).1 (by decide)⟩

/-- C26. Remote errors verbatim: in `objectResource.Create`, `Read`, `Update` and `Delete`,
for every request that decodes without error into a response free of errors, when a call
of the remote client fails with the text `err`, the operation returns with the diagnostics
it had followed by exactly one error diagnostic whose detail is a fixed prefix followed by
`err`, with the state of the response as it was, and the failing call is the last call it
issues. The cases are `Object.Create` and `Object.Get` in `Create`, `Object.Get` in `Read`,
`Object.Update` in `Update`, and `Object.Update` (soft) and `Object.Delete` (hard) in
`Delete`. -/
theorem remote_error_verbatim (object : objectService) (v : setValidation) (set : StateSet)
    (r : objectResource) (err : String) :
    (∀ (req : CreateRequest) (resp : CreateResponse),
      Diagnostics.HasError resp.Diagnostics = false →
      Diagnostics.HasError req.Plan.Get.1 = false →
      object.Create r.workspace_id (createObjectPayload req.Plan.Raw {}).2 =
        Except.error err →
      objectResource.Create object v set r req resp =
        ({ resp with Diagnostics :=
            (Diagnostics.Append resp.Diagnostics req.Plan.diags ++
              [NewErrorDiagnostic "Error creating object"
                ("Could not create object, unexpected error: " ++ err)]) },
          [ClientCall.ObjectCreate r.workspace_id
            (createObjectPayload req.Plan.Raw {}).2])) ∧
    (∀ (req : CreateRequest) (resp : CreateResponse) (object_without_attributes : ObjectScheme),
      Diagnostics.HasError resp.Diagnostics = false →
      Diagnostics.HasError req.Plan.Get.1 = false →
      object.Create r.workspace_id (createObjectPayload req.Plan.Raw {}).2 =
        Except.ok object_without_attributes →
      object.Get r.workspace_id object_without_attributes.ID = Except.error err →
      objectResource.Create object v set r req resp =
        ({ resp with Diagnostics :=
            (Diagnostics.Append resp.Diagnostics req.Plan.diags ++
              [NewErrorDiagnostic "Error get attributes"
                ("Could not get attributes, unexpected error: " ++ err)]) },
          [ClientCall.ObjectCreate r.workspace_id (createObjectPayload req.Plan.Raw {}).2,
            ClientCall.ObjectGet r.workspace_id object_without_attributes.ID])) ∧
    (∀ (req : ReadRequest) (resp : ReadResponse),
      Diagnostics.HasError resp.Diagnostics = false →
      Diagnostics.HasError req.State.Get.1 = false →
      object.Get r.workspace_id req.State.Raw.Id.ValueString = Except.error err →
      objectResource.Read object v set r req resp =
        ({ resp with Diagnostics :=
            (Diagnostics.Append resp.Diagnostics req.State.diags ++
              [NewErrorDiagnostic "Error Reading object"
                ("Could not read object, unexpected error: " ++ err)]) },
          [ClientCall.ObjectGet r.workspace_id req.State.Raw.Id.ValueString])) ∧
    (∀ (req : UpdateRequest) (resp : UpdateResponse),
      Diagnostics.HasError resp.Diagnostics = false →
      Diagnostics.HasError req.Plan.Get.1 = false →
      object.Update r.workspace_id req.Plan.Raw.Id.ValueString
        (createObjectPayload req.Plan.Raw {}).2 = Except.error err →
      objectResource.Update object v set r req resp =
        ({ resp with Diagnostics :=
            (Diagnostics.Append resp.Diagnostics req.Plan.diags ++
              [NewErrorDiagnostic "Error Updating object"
                ("Could not update object, unexpected error: " ++ err)]) },
          [ClientCall.ObjectUpdate r.workspace_id req.Plan.Raw.Id.ValueString
            (createObjectPayload req.Plan.Raw {}).2])) ∧
    (∀ (req : DeleteRequest) (resp : DeleteResponse),
      Diagnostics.HasError resp.Diagnostics = false →
      Diagnostics.HasError req.State.Get.1 = false →
      r.features.DestroyObject = false →
      r.client.ObjectUpdateErr r.workspace_id req.State.Raw.Id.ValueString
        { Attributes :=
            [ { ObjectTypeAttributeID := r.features.ObsoleteObjectTypeAttributeId,
                ObjectAttributeValues := [ { Value := "Obsolete" } ] } ],
          ObjectTypeID := req.State.Raw.ObjectTypeId.ValueString } = some err →
      objectResource.Delete r req resp =
        ({ resp with Diagnostics :=
            (Diagnostics.Append resp.Diagnostics req.State.diags ++
              [NewErrorDiagnostic "Error Updating object"
                ("Could not update object, unexpected error: " ++ err)]) },
          [ClientCall.ObjectUpdate r.workspace_id req.State.Raw.Id.ValueString
            { Attributes :=
                [ { ObjectTypeAttributeID := r.features.ObsoleteObjectTypeAttributeId,
                    ObjectAttributeValues := [ { Value := "Obsolete" } ] } ],
              ObjectTypeID := req.State.Raw.ObjectTypeId.ValueString }])) ∧
    (∀ (req : DeleteRequest) (resp : DeleteResponse),
      Diagnostics.HasError resp.Diagnostics = false →
      Diagnostics.HasError req.State.Get.1 = false →
      r.features.DestroyObject = true →
      r.client.ObjectDeleteErr r.workspace_id req.State.Raw.Id.ValueString = some err →
      objectResource.Delete r req resp =
        ({ resp with Diagnostics :=
            (Diagnostics.Append resp.Diagnostics req.State.diags ++
              [NewErrorDiagnostic "Error Deleting object"
                ("Could not delete object, unexpected error: " ++ err)]) },
          [ClientCall.ObjectDelete r.workspace_id req.State.Raw.Id.ValueString])) := by
  have hmid : ∀ (a b : Diagnostics), Diagnostics.HasError a = false →
      Diagnostics.HasError b = false →
      Diagnostics.HasError (Diagnostics.Append a b) = false := by
    intro a b ha hb
    rw [Diagnostics.HasError_Append, ha, hb]; rfl
  refine ⟨?_, ?_, ?_, ?_, ?_, ?_⟩
  · intro req resp h0 h1 hc
    exact Create_of_create_error object v set r req resp err (hmid _ _ h0 h1) hc
  · intro req resp o h0 h1 hc hg
    exact Create_of_get_error object v set r req resp o err (hmid _ _ h0 h1) hc hg
  · intro req resp h0 h1 hg
    exact Read_of_get_error object v set r req resp err (hmid _ _ h0 h1) hg
  · intro req resp h0 h1 hu
    exact Update_of_update_error object v set r req resp err (hmid _ _ h0 h1) hu
  · intro req resp h0 h1 hsoft hu
    exact Delete_of_update_error r req resp err (hmid _ _ h0 h1) hsoft hu
  · intro req resp h0 h1 hhard hd
    exact Delete_of_delete_error r req resp err (hmid _ _ h0 h1) hhard hd

/-- C26 witness: `Object.Create` succeeds and `Object.Get` fails with `timeout` during
`Create`: the only diagnostic is the error whose detail ends with `timeout`, the state is
still empty, and the calls are the creation and the failed read of object `42`. -/
theorem remote_error_verbatim_witness :
    objectResource.Create
        (sampleService (Except.ok (sampleRemoteObject [])) (Except.error "timeout")
          (Except.error "unused"))
        sampleValidation sampleStateSet (sampleResource true "")
        { Plan := { Raw := samplePlan [sampleAttributeIn "10" ["Server A"]] TfObject.null,
                    diags := [] } }
        { State := none, Diagnostics := [] } =
      ({ State := none,
         Diagnostics :=
           [NewErrorDiagnostic "Error get attributes"
             "Could not get attributes, unexpected error: timeout"] },
        [ClientCall.ObjectCreate "ws"
            (createObjectPayload (samplePlan [sampleAttributeIn "10" ["Server A"]]
              TfObject.null) {}).2,
          ClientCall.ObjectGet "ws" "42"]) :=
  (remote_error_verbatim
      (sampleService (Except.ok (sampleRemoteObject [])) (Except.error "timeout")
        (Except.error "unused"))
      sampleValidation sampleStateSet (sampleResource true "") "timeout").2.1
    { Plan := { Raw := samplePlan [sampleAttributeIn "10" ["Server A"]] TfObject.null,
                diags := [] } }
    { State := none, Diagnostics := [] } (sampleRemoteObject []) rfl rfl rfl rfl

/-! ## Avatar decoding, data-source decoding and object-type-attribute payload -/

/-- C25 (code bug). A remote object whose avatar has the id `1` and the uuid `u-1`:
`FillInformationsForObject` decodes a known avatar whose `id` is `u-1`, the avatar's uuid,
not the avatar's id `1`; every other field equals the same-named wire field. -/
theorem FillInformationsForObject_avatar_id :
    (FillInformationsForObject sampleValidation (samplePlan [] TfObject.null)
        { sampleRemoteObject [] with Avatar := some (sampleRemoteAvatar "1" "u-1") }).2.Avatar =
      TfObject.value
        { WorkspaceId := TfString.value "ws", GlobalId := TfString.value "ws:9",
          Id := TfString.value "u-1", AvatarUuid := TfString.value "u-1",
          Url16 := TfString.value "u16", Url48 := TfString.value "u48",
          Url72 := TfString.value "u72", Url144 := TfString.value "u144",
          Url288 := TfString.value "u288", ObjectId := TfString.value "42" } := by
  decide

theorem fillDataAttributes_eq (v : setValidation) (l : List ObjectAttributeScheme)
    (acc : List objectAttributeModel) :
    fillDataAttributes v l acc = fillAttributes v l acc := by
  induction l generalizing acc with
  | nil => rfl
  | cons att rest ih =>
    unfold fillDataAttributes fillAttributes
    have hval : fillDataAttributeValue = fillAttributeValue := by
      funext value; rfl
    simp only [hval, ih]

/-- C29. For every remote object, every data-source model and every resource model,
`FillInformationsForDataObject` and `FillInformationsForObject` return the same
diagnostics and leave the same values in the identity fields, the label, `has_avatar`, the
avatar and the links; and either they assign the same set of structured attributes, or
both return an error from inside the loop and neither assigns the attributes. -/
theorem FillInformationsForDataObject_agrees (v : setValidation)
    (d : objectDataResourceModel) (r : objectResourceModel) (assetsObject : ObjectScheme) :
    (FillInformationsForDataObject v d assetsObject).1 =
        (FillInformationsForObject v r assetsObject).1 ∧
    (FillInformationsForDataObject v d assetsObject).2.WorkspaceId =
        (FillInformationsForObject v r assetsObject).2.WorkspaceId ∧
    (FillInformationsForDataObject v d assetsObject).2.GlobalId =
        (FillInformationsForObject v r assetsObject).2.GlobalId ∧
    (FillInformationsForDataObject v d assetsObject).2.Id =
        (FillInformationsForObject v r assetsObject).2.Id ∧
    (FillInformationsForDataObject v d assetsObject).2.Label =
        (FillInformationsForObject v r assetsObject).2.Label ∧
    (FillInformationsForDataObject v d assetsObject).2.ObjectKey =
        (FillInformationsForObject v r assetsObject).2.ObjectKey ∧
    (FillInformationsForDataObject v d assetsObject).2.ObjectTypeId =
        (FillInformationsForObject v r assetsObject).2.ObjectTypeId ∧
    (FillInformationsForDataObject v d assetsObject).2.Created =
        (FillInformationsForObject v r assetsObject).2.Created ∧
    (FillInformationsForDataObject v d assetsObject).2.Updated =
        (FillInformationsForObject v r assetsObject).2.Updated ∧
    (FillInformationsForDataObject v d assetsObject).2.HasAvatar =
        (FillInformationsForObject v r assetsObject).2.HasAvatar ∧
    (FillInformationsForDataObject v d assetsObject).2.Avatar =
        (FillInformationsForObject v r assetsObject).2.Avatar ∧
    (FillInformationsForDataObject v d assetsObject).2.Links =
        (FillInformationsForObject v r assetsObject).2.Links ∧
    ((FillInformationsForDataObject v d assetsObject).2.Attributes =
        (FillInformationsForObject v r assetsObject).2.Attributes ∨
      ((FillInformationsForDataObject v d assetsObject).2.Attributes = d.Attributes ∧
        (FillInformationsForObject v r assetsObject).2.Attributes = r.Attributes ∧
        Diagnostics.HasError (FillInformationsForObject v r assetsObject).1 = true)) := by
  unfold FillInformationsForDataObject FillInformationsForObject
  simp only [fillDataAttributes_eq]
  cases hloop : fillAttributes v assetsObject.Attributes [] with
  | error diags =>
    have herr := fillAttributes_error v _ _ diags hloop
    exact ⟨rfl, rfl, rfl, rfl, rfl, rfl, rfl, rfl, rfl, rfl, rfl, rfl,
      Or.inr ⟨rfl, rfl, herr⟩⟩
  | ok attributes =>
    exact ⟨rfl, rfl, rfl, rfl, rfl, rfl, rfl, rfl, rfl, rfl, rfl, rfl, Or.inl rfl⟩

/-- C30 (code bug). An object-type-attribute model whose `ql_query` is `objectType = Host`
and whose `regex_validation` is `^srv-`: `createObjectTypeAttributePayload` writes the
regular expression into both `RegexValidation` and `QlQuery` of the payload. -/
theorem createObjectTypeAttributePayload_QlQuery :
    (createObjectTypeAttributePayload
        (sampleObjectTypeAttribute "^srv-" "objectType = Host") {}).2.QlQuery = "^srv-" ∧
    (createObjectTypeAttributePayload
        (sampleObjectTypeAttribute "^srv-" "objectType = Host") {}).2.RegexValidation =
      "^srv-" ∧
    (sampleObjectTypeAttribute "^srv-" "objectType = Host").QlQuery =
      TfString.value "objectType = Host" := by
  decide

/-! ## Label resolution with several flagged attributes, and modifiers without prior value -/

theorem filter_getLast_of_last (elements pre post : List objectAttributeModel)
    (e : objectAttributeModel)
    (hsplit : elements = pre ++ e :: post)
    (hflag : e.ObjectTypeAttributeLabel.ValueBool = true)
    (hpost : ∀ x ∈ post, x.ObjectTypeAttributeLabel.ValueBool = false) :
    (elements.filter (fun x => x.ObjectTypeAttributeLabel.ValueBool)).getLast? = some e := by
  have hnil : post.filter (fun x => x.ObjectTypeAttributeLabel.ValueBool) = [] := by
    simpa [List.filter_eq_nil_iff] using hpost
  rw [hsplit, List.filter_append]
  have hcons : (e :: post).filter (fun x => x.ObjectTypeAttributeLabel.ValueBool) = [e] := by
    simp only [List.filter, hflag]
    exact congrArg (List.cons e) hnil
  rw [hcons]
  simp

theorem find_first_of_split (l before later : List objectAttributeInModel)
    (att : objectAttributeInModel) (id : String)
    (hsplit : l = before ++ att :: later)
    (hbefore : ∀ a ∈ before, a.ObjectTypeAttributeId.ValueString ≠ id)
    (hatt : att.ObjectTypeAttributeId.ValueString = id) :
    l.find? (fun a => decide (a.ObjectTypeAttributeId.ValueString = id)) = some att := by
  subst hsplit
  induction before with
  | nil => simp [hatt]
  | cons b rest ih =>
    have hb : b.ObjectTypeAttributeId.ValueString ≠ id := hbefore b (List.mem_cons_self _ _)
    simp only [List.cons_append, List.find?_cons, hb, decide_False]
    exact ih (fun a ha => hbefore a (List.mem_cons_of_mem _ ha))

/-- C27 (amended). In a known attribute set of the prior state (non-null prior label,
decoding without error), let `e` be the last attribute carrying the label flag, whatever
attributes carry it before. (1) When the id of `e` is not the sentinel `"0"`, and `att` is
the first entry of `attributes_in` with that id, whatever entries follow, and `att` carries
the single value `v`, `syncLabelPlanModifier.PlanModifyString` resolves the label to `v` and
adds no diagnostic. (2) When the id of `e` is `"0"`, the modifier adds exactly the error
"Object attribute for the label not found in the object schema." and leaves the planned
value as it was, whatever the plan declares. -/
theorem syncLabel_last_flagged_first_entry (req : StringRequest) (resp : StringResponse)
    (pre post : List objectAttributeModel) (e : objectAttributeModel)
    (hdec : decodesCleanly req resp = true)
    (hlabel : req.StateValue.IsNull = false)
    (hattrs : req.State.Raw.Attributes = TfSet.value (pre ++ e :: post))
    (hflag : e.ObjectTypeAttributeLabel.ValueBool = true)
    (hpost : ∀ x ∈ post, x.ObjectTypeAttributeLabel.ValueBool = false) :
    (e.ObjectTypeAttributeId.ValueString ≠ "0" →
      ∀ (before later : List objectAttributeInModel) (att : objectAttributeInModel)
        (v : TfString),
        req.Plan.Raw.AttributesIn = before ++ att :: later →
        (∀ a ∈ before,
          a.ObjectTypeAttributeId.ValueString ≠ e.ObjectTypeAttributeId.ValueString) →
        att.ObjectTypeAttributeId.ValueString = e.ObjectTypeAttributeId.ValueString →
        att.ObjectAttributeValuesIn = [{ Value := v }] →
        syncLabelPlanModifier.PlanModifyString req resp =
          some { PlanValue := v, Diagnostics := decodedDiagnostics req resp }) ∧
    (e.ObjectTypeAttributeId.ValueString = "0" →
      syncLabelPlanModifier.PlanModifyString req resp =
        some { PlanValue := resp.PlanValue,
               Diagnostics := decodedDiagnostics req resp ++ [labelNotInSchemaError] }) := by
  have hlast := filter_getLast_of_last (pre ++ e :: post) pre post e rfl hflag hpost
  have hidx := labelAttributeId_of_last _ e hlast
  constructor
  · intro hid before later att v hplan hbefore hatt hval
    have hfirst := find_first_of_split _ before later att _ hplan hbefore hatt
    rw [syncLabel_eval req resp _ hdec hlabel hattrs, hidx, if_neg hid,
      labelFromAttributesIn_first _ _ _ att hfirst, hval]
    simp
  · intro hid
    rw [syncLabel_eval req resp _ hdec hlabel hattrs, hidx, if_pos hid]

/-- C27 witness: the attributes `10` and `11` both carry the label flag, and the plan
declares `11` twice, first with `B`, then with `C`, after the attribute `10` with `A`: the
label is `B`. -/
theorem syncLabel_last_flagged_first_entry_witness :
    syncLabelPlanModifier.PlanModifyString
        (labelRequest
          (sampleState (TfSet.value [sampleAttribute "10" true, sampleAttribute "11" true])
            TfObject.null)
          (samplePlan
            [sampleAttributeIn "10" ["A"], sampleAttributeIn "11" ["B"],
             sampleAttributeIn "11" ["C"]] TfObject.null))
        { PlanValue := TfString.unknown, Diagnostics := [] } =
      some { PlanValue := TfString.value "B", Diagnostics := [] } :=
  (syncLabel_last_flagged_first_entry
    (labelRequest
      (sampleState (TfSet.value [sampleAttribute "10" true, sampleAttribute "11" true])
        TfObject.null)
      (samplePlan
        [sampleAttributeIn "10" ["A"], sampleAttributeIn "11" ["B"],
         sampleAttributeIn "11" ["C"]] TfObject.null))
    { PlanValue := TfString.unknown, Diagnostics := [] }
    [sampleAttribute "10" true] [] (sampleAttribute "11" true)
    (by decide) (by decide) rfl (by decide) (by decide)).1 (by decide)
    [sampleAttributeIn "10" ["A"]] [sampleAttributeIn "11" ["C"]]
    (sampleAttributeIn "11" ["B"]) (TfString.value "B")
    rfl (by decide) (by decide) rfl

/-- C27 counterexample: the attributes `10` and `0` both carry the label flag, `0` last,
and the plan declares the attribute `0` with the single value `X`: the modifier adds the
error of lines 123-126 and resolves no label. -/
theorem label_last_flagged_counterexample :
    syncLabelPlanModifier.PlanModifyString
        (labelRequest
          (sampleState (TfSet.value [sampleAttribute "10" true, sampleAttribute "0" true])
            TfObject.null)
          (samplePlan [sampleAttributeIn "0" ["X"]] TfObject.null))
        { PlanValue := TfString.unknown, Diagnostics := [] } =
      some { PlanValue := TfString.unknown, Diagnostics := [labelNotInSchemaError] } := by
  decide

/-- C28. When the field has no prior state value (`req.StateValue` is null), the response
carries no error and the plan decodes without error, `syncLabelPlanModifier.PlanModifyString`
and `syncAvatarPlanModifier.PlanModifyString` each return with the planned value unknown and
with no diagnostic beyond those of the decoding, none of which is an error, whatever the
plan and the prior state contain. -/
theorem modifiers_without_prior_value (req : StringRequest) (resp : StringResponse)
    (hnull : req.StateValue.IsNull = true)
    (hresp : Diagnostics.HasError resp.Diagnostics = false)
    (hplan : Diagnostics.HasError req.Plan.Get.1 = false) :
    syncLabelPlanModifier.PlanModifyString req resp =
        some { PlanValue := TfString.unknown,
               Diagnostics := Diagnostics.Append resp.Diagnostics req.Plan.Get.1 } ∧
    syncAvatarPlanModifier.PlanModifyString req resp =
        { PlanValue := TfString.unknown,
          Diagnostics := Diagnostics.Append resp.Diagnostics req.Plan.Get.1 } ∧
    Diagnostics.HasError (Diagnostics.Append resp.Diagnostics req.Plan.Get.1) = false := by
  have hmid : Diagnostics.HasError (Diagnostics.Append resp.Diagnostics req.Plan.diags)
      = false := by
    have hp : Diagnostics.HasError req.Plan.diags = false := hplan
    simp [Diagnostics.HasError_Append, hresp, hp]
  refine ⟨?_, ?_, hmid⟩
  · simp only [syncLabelPlanModifier.PlanModifyString, tfsdkData.Get, hmid, hnull,
      Bool.false_eq_true, if_false, Bool.not_true]
  · simp only [syncAvatarPlanModifier.PlanModifyString, tfsdkData.Get, hmid, hnull,
      Bool.false_eq_true, if_false, Bool.not_true]

/-- C28 witness: on create the prior label is null; the plan declares an attribute with
two values and an avatar, and both modifiers plan unknown without diagnostic. -/
theorem modifiers_without_prior_value_witness :
    syncLabelPlanModifier.PlanModifyString
        (labelRequest
          { sampleState TfSet.null TfObject.null with Label := TfString.null }
          (samplePlan [sampleAttributeIn "10" ["A", "B"]]
            (TfObject.value (sampleAvatarPlan (TfString.value "u1")))))
        { PlanValue := TfString.value "kept", Diagnostics := [] } =
      some { PlanValue := TfString.unknown, Diagnostics := [] } ∧
    syncAvatarPlanModifier.PlanModifyString
        (labelRequest
          { sampleState TfSet.null TfObject.null with Label := TfString.null }
          (samplePlan [sampleAttributeIn "10" ["A", "B"]]
            (TfObject.value (sampleAvatarPlan (TfString.value "u1")))))
        { PlanValue := TfString.value "kept", Diagnostics := [] } =
      { PlanValue := TfString.unknown, Diagnostics := [] } :=
  have h := modifiers_without_prior_value
    (labelRequest
      { sampleState TfSet.null TfObject.null with Label := TfString.null }
      (samplePlan [sampleAttributeIn "10" ["A", "B"]]
        (TfObject.value (sampleAvatarPlan (TfString.value "u1")))))
    { PlanValue := TfString.value "kept", Diagnostics := [] }
    rfl (by decide) (by decide)
  ⟨h.1, h.2.1⟩

end Assets
